import Mathlib

/-!
# NetPlay dialog of FasterMelee: a shallow embedding

The definitions below transcribe `Source/Core/DolphinQt/NetPlay/NetPlayDialog.{h,cpp}`
into pure state-passing functions.

* The dialog's members (plain fields and the properties of the widgets it owns) form the
  record `State`.
* Every call that leaves the dialog (configuration system, NetPlay server and client,
  message boxes, chat output) is appended to `State.trace`, in program order.
* Whatever the outside world answers during one handler run (server and client pointers,
  the game list, configuration values, the button pressed in a question box) is the
  record `Env`.
* Dereferencing a null server or client pointer, or indexing an empty vector, has no defined
  result in C++; the corresponding functions return `none` there.
* `int` arithmetic is two's-complement 32-bit (`wrapInt`), `double` arithmetic is IEEE-754
  binary64 with round-to-nearest-even (`toBinary64`), carried by exact rationals.
-/

namespace NetPlay

/-! ## Machine arithmetic -/

/-- Reduce an integer to the range of a 32-bit two's-complement `int`: the conversion of
an out-of-range value to `int`, and the result of `int` arithmetic that leaves the range. -/
def wrapInt (x : Int) : Int :=
  let m := x % 4294967296
  if m < 2147483648 then m else m - 4294967296

/-- The function `std::abs` on `int`. -/
def absInt (x : Int) : Int := wrapInt (if x < 0 then -x else x)

/-- Bit length minus one, by halving; the first argument bounds the number of steps. -/
def log2Fuel : Nat → Nat → Nat
  | 0, _ => 0
  | fuel + 1, n => if n < 2 then 0 else log2Fuel fuel (n / 2) + 1

/-- Floor of the base-2 logarithm of a positive natural number. -/
def ilog2 (n : Nat) : Nat := log2Fuel n n

/-- The exponent `e` with `2^e ≤ |x| < 2^(e+1)`, for `x ≠ 0`. -/
def binade (x : ℚ) : ℤ :=
  let k : ℤ := (ilog2 x.num.natAbs : ℤ) - (ilog2 x.den : ℤ)
  if (2 : ℚ) ^ k ≤ |x| then k else k - 1

/-- Nearest integer, ties to the even neighbour. -/
def roundNearestEven (q : ℚ) : ℤ :=
  let f := ⌊q⌋
  let r := q - f
  if r < 1 / 2 then f else if 1 / 2 < r then f + 1 else if f % 2 = 0 then f else f + 1

/-- Round a rational to the nearest binary64 number (53 significant bits, ties to even).
The exponent range is not bounded: every quantity the dialog computes is either zero or
lies well inside the normal range of binary64. -/
def toBinary64 (x : ℚ) : ℚ :=
  if x = 0 then 0 else
  let ulp : ℚ := 2 ^ (binade x - 52)
  (roundNearestEven (x / ulp)) * ulp

/-- Product of two `double`s. -/
def fmul (a b : ℚ) : ℚ := toBinary64 (a * b)

/-- Quotient of two `double`s. -/
def fdiv (a b : ℚ) : ℚ := toBinary64 (a / b)

/-- The conversion `(int)d` of a `double`: the fractional part is discarded; a value beyond
the range of `int` is reduced like any other. -/
def doubleToInt (d : ℚ) : Int := wrapInt (if 0 ≤ d then ⌊d⌋ else ⌈d⌉)

/-! ## Data model -/

/-- Layer identifiers of the configuration system (`Common/Config/Enums.h`). -/
inductive LayerType
  | Base
  | GlobalGame
  | LocalGame
  | Movie
  | Netplay
  | CommandLine
  | CurrentRun
  | Meta
  | FMOverride
  deriving DecidableEq, Repr

/-- The order in which the layers are searched for a value, `Config::SEARCH_ORDER`
(`Common/Config/Enums.h`, lines 37-46). -/
def SEARCH_ORDER : List LayerType :=
  [LayerType.FMOverride,
   LayerType.CurrentRun,
   LayerType.CommandLine,
   LayerType.Movie,
   LayerType.Netplay,
   LayerType.LocalGame,
   LayerType.GlobalGame,
   LayerType.Base]

/-- Modelled from the spec: the two values of a player's `game_status`
(`NetPlay::PlayerGameStatus`, declared in `Core/NetPlayClient.h`). -/
inductive PlayerGameStatus
  | Ok
  | NotFound
  deriving DecidableEq, Repr

/-- Modelled from the spec: a connected participant (`NetPlay::Player`, declared in
`Core/NetPlayClient.h`): `pid`, `name`, `revision`, `ping` in milliseconds, `game_status`. -/
structure Player where
  pid : Nat := 0
  name : String := ""
  revision : String := ""
  ping : Nat := 0
  game_status : PlayerGameStatus := PlayerGameStatus.Ok
  deriving DecidableEq, Repr

/-- Modelled from the spec: a directed measurement (`NetPlayServer::NetRoute`, declared in
`Core/NetPlayServer.h`): `from` and `to` are a player or null, `ping` is in milliseconds. -/
structure NetRoute where
  from_ : Option Player := none
  to_ : Option Player := none
  ping : Nat := 0
  deriving DecidableEq, Repr

/-- Modelled from the spec: the disc regions (`DiscIO::Region`, declared in `DiscIO/Enums.h`);
the dialog only tests a region against `PAL`. -/
inductive Region
  | NTSC_J
  | NTSC_U
  | PAL
  | Unknown
  | NTSC_K
  deriving DecidableEq

/-- Modelled from the spec: what the dialog reads of a game-list entry
(`UICommon::GameFile`, declared in `UICommon/GameFile.h`): title identifier, revision,
English long name and region. -/
structure GameFile where
  GetGameID : String := ""
  GetRevision : Nat := 0
  GetLongName : String := ""
  GetRegion : Region := Region.NTSC_U
  deriving DecidableEq

/-- The configuration options the dialog reads (objects of type `Config::ConfigInfo<T>`). -/
inductive ConfigInfo
  | MAIN_CPU_THREAD
  | MAIN_CPU_CORE
  | MAIN_ENABLE_CHEATS
  | MAIN_GC_LANGUAGE
  | MAIN_OVERRIDE_GC_LANGUAGE
  | SYSCONF_PROGRESSIVE_SCAN
  | SYSCONF_PAL60
  | MAIN_DSP_HLE
  | MAIN_DSP_JIT
  | MAIN_OVERCLOCK_ENABLE
  | MAIN_OVERCLOCK
  | MAIN_SLOT_A
  | MAIN_SLOT_B
  | GFX_HACK_EFB_ACCESS_ENABLE
  | GFX_HACK_BBOX_ENABLE
  | GFX_HACK_FORCE_PROGRESSIVE
  | GFX_HACK_SKIP_EFB_COPY_TO_RAM
  | GFX_HACK_SKIP_XFB_COPY_TO_RAM
  | GFX_HACK_DISABLE_COPY_TO_VRAM
  | GFX_HACK_IMMEDIATE_XFB
  | GFX_HACK_EFB_EMULATE_FORMAT_CHANGES
  | GFX_SAFE_TEXTURE_CACHE_COLOR_SAMPLES
  | GFX_PERF_QUERIES_ENABLE
  | MAIN_FPRF
  | MAIN_ACCURATE_NANS
  | MAIN_SYNC_ON_SKIP_IDLE
  | MAIN_SYNC_GPU
  | MAIN_SYNC_GPU_MAX_DISTANCE
  | MAIN_SYNC_GPU_MIN_DISTANCE
  | MAIN_SYNC_GPU_OVERCLOCK
  | MAIN_JIT_FOLLOW_BRANCH
  | MAIN_FAST_DISC_SPEED
  | MAIN_POLL_ON_SIREAD
  | MAIN_MMU
  | MAIN_FASTMEM
  | MAIN_SKIP_IPL
  | MAIN_LOAD_IPL_DUMP
  | GFX_HACK_VERTEX_ROUDING
  | GFX_EFB_SCALE
  | GFX_HACK_COPY_EFB_SCALED
  | GFX_FAST_DEPTH_CALC
  | GFX_ENABLE_PIXEL_LIGHTING
  | GFX_WIDESCREEN_HACK
  | GFX_ENHANCE_FORCE_FILTERING
  | GFX_ENHANCE_MAX_ANISOTROPY
  | GFX_ENHANCE_FORCE_TRUE_COLOR
  | GFX_ENHANCE_DISABLE_COPY_FILTER
  | GFX_DISABLE_FOG
  | GFX_ENHANCE_ARBITRARY_MIPMAP_DETECTION
  | GFX_ENHANCE_ARBITRARY_MIPMAP_DETECTION_THRESHOLD
  | GFX_ENABLE_GPU_TEXTURE_DECODING
  deriving DecidableEq

/-- A per-title override layer as handed to `Config::AddLayer`: its layer type and the
arguments of the loader that fills it (`GenerateGlobalGameConfigLoader` or
`GenerateLocalGameConfigLoader`); the display name is passed by some callers only. -/
structure ConfigLayer where
  layer : LayerType
  id : String
  revision : Nat
  name : Option String
  deriving DecidableEq

/-- Values of configuration options, by their integer encoding (a `bool` option is 0 or 1).
The declarations of the options are outside this excerpt; the dialog only copies the
values, tests them for truth, or compares them with zero. -/
abbrev ConfigValue := Int

/-- Conversion of a configuration value to `bool`. -/
def ConfigValue.toBool (v : ConfigValue) : Bool := decide (v ≠ 0)

/-- The settings snapshot `NetPlay::NetSettings`, one field per assignment in `OnStart`. -/
structure NetSettings where
  m_CPUthread : ConfigValue
  m_CPUcore : ConfigValue
  m_EnableCheats : ConfigValue
  m_SelectedLanguage : ConfigValue
  m_OverrideGCLanguage : ConfigValue
  m_ProgressiveScan : ConfigValue
  m_PAL60 : ConfigValue
  m_DSPHLE : ConfigValue
  m_DSPEnableJIT : ConfigValue
  m_WriteToMemcard : Bool
  m_CopyWiiSave : Bool
  m_OCEnable : ConfigValue
  m_OCFactor : ConfigValue
  m_EXIDevice0 : ConfigValue
  m_EXIDevice1 : ConfigValue
  m_EFBAccessEnable : ConfigValue
  m_BBoxEnable : ConfigValue
  m_ForceProgressive : ConfigValue
  m_EFBToTextureEnable : ConfigValue
  m_XFBToTextureEnable : ConfigValue
  m_DisableCopyToVRAM : ConfigValue
  m_ImmediateXFBEnable : ConfigValue
  m_EFBEmulateFormatChanges : ConfigValue
  m_SafeTextureCacheColorSamples : ConfigValue
  m_PerfQueriesEnable : ConfigValue
  m_FPRF : ConfigValue
  m_AccurateNaNs : ConfigValue
  m_SyncOnSkipIdle : ConfigValue
  m_SyncGPU : ConfigValue
  m_SyncGpuMaxDistance : ConfigValue
  m_SyncGpuMinDistance : ConfigValue
  m_SyncGpuOverclock : ConfigValue
  m_JITFollowBranch : ConfigValue
  m_FastDiscSpeed : ConfigValue
  m_PollOnSIRead : ConfigValue
  m_MMU : ConfigValue
  m_Fastmem : ConfigValue
  m_SkipIPL : Bool
  m_LoadIPLDump : Bool
  m_VertexRounding : ConfigValue
  m_InternalResolution : ConfigValue
  m_EFBScaledCopy : ConfigValue
  m_FastDepthCalc : ConfigValue
  m_EnablePixelLighting : ConfigValue
  m_WidescreenHack : ConfigValue
  m_ForceFiltering : ConfigValue
  m_MaxAnisotropy : ConfigValue
  m_ForceTrueColor : ConfigValue
  m_DisableCopyFilter : ConfigValue
  m_DisableFog : ConfigValue
  m_ArbitraryMipmapDetection : ConfigValue
  m_ArbitraryMipmapDetectionThreshold : ConfigValue
  m_EnableGPUTextureDecoding : ConfigValue
  m_StrictSettingsSync : Bool
  m_SyncSaveData : Bool
  deriving DecidableEq

/-- The two buttons of `QMessageBox::question`. -/
inductive StandardButton
  | Yes
  | No
  deriving DecidableEq

/-- An argument substituted into a translated message (`QString::arg`). -/
inductive MsgArg
  | int (i : Int)
  | real (d : ℚ)
  | str (s : String)
  deriving DecidableEq

/-- Calls observed by the trace: everything that leaves the dialog, plus the entry of the
two member functions whose invocation the specification talks about. -/
inductive Event
  | Config_AddLayer (layer : ConfigLayer)
  | Config_RemoveLayer (layer : LayerType)
  | Config_Get (info : ConfigInfo)
  | AdjustMinimumPadBufferSize (buffer : Int)
  | AdjustLocalPadBufferSize (buffer : Int)
  | SetNetSettings (settings : NetSettings)
  | RequestStartGame
  | QMessageBox_question (title text : String)
  | QMessageBox_critical (title text : String)
  | PanicAlertT (text : String)
  | DisplayMessage (msg : String) (args : List MsgArg) (color : String)
  | UpdateDiscordPresence
  | enter_CalculateBufferFromSamples (samples : List NetRoute)
  | enter_SetOptionsEnabled (enabled : Bool)
  | RequestStopGame
  | Boot (filename : String)
  | Stop
  | QDialog_reject
  | QApplication_alert
  | QDialog_show
  | m_chat_edit_clear
  | m_chat_type_edit_clear
  | ReconnectToServer
  | clipboard_setText (text : String)
  deriving DecidableEq

/-- The properties of a `QDoubleSpinBox` the dialog sets. `value` is the number handed to
`setValue`; the rounding to `decimals` that Qt applies for display is not part of this
repository. -/
structure QDoubleSpinBox where
  decimals : Nat := 2
  singleStep : ℚ := 1
  suffix : String := ""
  minimum : ℚ := 0
  maximum : ℚ := 9999 / 100
  value : ℚ := 0
  enabled : Bool := true
  hidden : Bool := false
  deriving DecidableEq

/-- The properties of a `QPushButton` the dialog sets. -/
structure QPushButton where
  text : String := ""
  enabled : Bool := true
  hidden : Bool := false
  deriving DecidableEq

/-- The properties of a `QCheckBox` the dialog reads or sets. -/
structure QCheckBox where
  checked : Bool := false
  enabled : Bool := true
  hidden : Bool := false
  deriving DecidableEq

/-- The properties of a `QLabel` the dialog sets. -/
structure QLabel where
  text : String := ""
  hidden : Bool := false
  deriving DecidableEq

/-- The properties of a `QComboBox` the dialog reads: the entries as (text, data) and the
index of the current entry, -1 while there is none. -/
structure QComboBox where
  items : List (String × String) := []
  currentIndex : Int := -1
  hidden : Bool := false
  deriving DecidableEq

/-- `QComboBox::clear`: no entry is left and none is current. -/
def QComboBox.clear (b : QComboBox) : QComboBox :=
  { b with items := [], currentIndex := -1 }

/-- `QComboBox::addItem(text, data)`: the entry is appended; in a box that was empty it
becomes the current entry. -/
def QComboBox.addItem (b : QComboBox) (text data : String) : QComboBox :=
  { b with
    items := b.items ++ [(text, data)]
    currentIndex := if b.items = [] then 0 else b.currentIndex }

/-- `QComboBox::currentData().toString()`: the data of the current entry, empty while there
is none. -/
def QComboBox.currentData (b : QComboBox) : String :=
  if 0 ≤ b.currentIndex then ((b.items.get? b.currentIndex.toNat).map (fun item => item.2)).getD ""
  else ""

/-- The content of the players table: the five texts of each row, and the `Qt::UserRole`
data of the current item while there is one. -/
structure QTableWidget where
  rows : List (List String) := []
  currentItem : Option Int := none
  deriving DecidableEq

/-- The reasons a traversal failure is reported with, as the cases of `OnTraversalError`
name them (`TraversalClient::FailureReason`). -/
inductive TraversalClient.FailureReason
  | BadHost
  | VersionTooOld
  | ServerForgotAboutUs
  | SocketSendError
  | ResendTimeout
  deriving DecidableEq

/-- The states of the traversal client, as the cases of `UpdateGUI` name them
(`TraversalClient::State`). -/
inductive TraversalClient.State
  | Connecting
  | Connected
  | Failure
  deriving DecidableEq

/-- The bodies handed to `QueueOnObject`, with their captured arguments; they run later on
the dialog's own thread. -/
inductive Queued
  | OnMsgChangeGame (title : String)
  | OnMinimumPadBufferChanged (buffer : Nat)
  | OnLocalPadBufferChanged (buffer : Nat)
  | OnHostInputAuthorityChanged (enabled : Bool)
  | GameStatusChanged (running : Bool)
  | OnTraversalError (error : TraversalClient.FailureReason)
  deriving DecidableEq

/-- The members of `NetPlayDialog` (initial values as in the header and constructor). -/
structure State where
  m_current_game : String := ""
  m_nickname : String := ""
  m_use_traversal : Bool := false
  m_is_copy_button_retry : Bool := false
  m_got_stop_request : Bool := true
  m_minimum_buffer_size : Int := 0
  m_local_buffer_size : Int := 0
  m_player_count : Int := 0
  m_old_player_count : Int := 0
  m_host_input_authority : Bool := false
  m_auto_buffer_samples : List NetRoute := []
  m_auto_buffer_sample_timer_active : Bool := false
  m_game_button : QPushButton := {}
  m_start_button : QPushButton := {}
  m_assign_ports_button : QPushButton := {}
  m_minimum_buffer_size_box : QDoubleSpinBox := {}
  m_auto_buffer_button : QPushButton := {}
  m_local_buffer_size_box : QDoubleSpinBox := {}
  m_local_under_minimum_warning : QPushButton := {}
  m_save_sd_box : QCheckBox := {}
  m_load_wii_box : QCheckBox := {}
  m_sync_save_data_box : QCheckBox := {}
  m_record_input_box : QCheckBox := {}
  m_strict_settings_sync_box : QCheckBox := {}
  m_host_input_authority_box : QCheckBox := {}
  m_room_box : QComboBox := {}
  m_hostcode_label : QLabel := {}
  m_hostcode_action_button : QPushButton := { text := "Copy" }
  m_longest_route_label : QLabel := {}
  m_players_list : QTableWidget := {}
  m_kick_button : QPushButton := { text := "Kick Player" }
  m_md5_button : QPushButton := {}
  m_minimum_buffer_label : QLabel := {}
  isVisible : Bool := false
  queue : List Queued := []
  trace : List Event := []

/-- The number of samples an automatic buffer calculation takes. -/
def m_auto_buffer_sample_amount : Nat := 3

/-- Modelled from the spec: the answers of the NetPlay server object during one handler run
(`NetPlay::NetPlayServer`, declared in `Core/NetPlayServer.h`). -/
structure NetPlayServer where
  FindLongestRoute : NetRoute := {}
  RequestStartGame : Bool := true
  DoAllPlayersHaveIPLDump : Bool := true
  GetInterfaceHost : String → String := fun _ => ""
  GetInterfaceSet : List String := ["!local!"]

/-- Modelled from the spec: the answers of the NetPlay client object during one handler run
(`NetPlay::NetPlayClient`, declared in `Core/NetPlayClient.h`). -/
structure NetPlayClient where
  DoAllPlayersHaveGame : Bool := true
  GetPlayers : List Player := []
  GetPadMapping : List Int := [-1, -1, -1, -1]
  GetWiimoteMapping : List Int := [-1, -1, -1, -1]

/-- Modelled from the spec: the answers of the traversal client during one handler run
(`TraversalClient`, declared in `Common/TraversalClient.h`); the host identifier is given
as text. -/
structure TraversalClient where
  GetState : TraversalClient.State := TraversalClient.State.Connecting
  GetHostID : String := ""

/-- The surroundings of the dialog during one handler run.
`GetNetPlayServer`, `GetNetPlayClient`: the pointers held by `Settings::Instance()`.
`game_list`: the rows of the game-list model, as (unique identifier, game file).
`Config_Get`: the value `Config::Get` returns for an option while the listed per-title
layers are applied on top of the other layers.
`question_answer`: the button the user presses in a question box.
`g_TraversalClient`: the global pointer to the traversal client. -/
structure Env where
  GetNetPlayServer : Option NetPlayServer := none
  GetNetPlayClient : Option NetPlayClient := none
  g_TraversalClient : Option TraversalClient := none
  game_list : List (String × GameFile) := []
  Config_Get : List ConfigLayer → ConfigInfo → ConfigValue := fun _ _ => 0
  question_answer : StandardButton := StandardButton.Yes

/-! ## The dialog's functions -/

/-- Append one call to the trace. -/
def State.emit (s : State) (e : Event) : State :=
  { s with trace := s.trace ++ [e] }

/-- Append a list of calls to the trace. -/
def State.emitAll (s : State) (new : List Event) : State :=
  { s with trace := s.trace ++ new }

/-- Append a body to the dialog's event queue (`QueueOnObject(this, ...)`). -/
def State.enqueue (s : State) (q : Queued) : State :=
  { s with queue := s.queue ++ [q] }

/-- `NetPlayDialog::DisplayMessage`: the text goes to the chat box and, while a game runs,
to the on-screen display; both are outside the dialog's own state. -/
def DisplayMessage (s : State) (msg : String) (args : List MsgArg) (color : String) : State :=
  s.emit (Event.DisplayMessage msg args color)

/-- `NetPlayDialog::FindGameFile`: the first row of the game list whose unique identifier is
`game`, or null. -/
def FindGameFile (env : Env) (game : String) : Option GameFile :=
  (env.game_list.find? (fun row => row.1 == game)).map (fun row => row.2)

/-- `NetPlayDialog::GetConfigOptionWithSelectedGame` (NetPlayDialog.h, lines 99-122). -/
@[irreducible] def GetConfigOptionWithSelectedGame (env : Env) (s : State) (info : ConfigInfo) :
    ConfigValue × State :=
  match FindGameFile env s.m_current_game with
  | some game =>
    let global : ConfigLayer :=
      ⟨LayerType.GlobalGame, game.GetGameID, game.GetRevision, some game.GetLongName⟩
    let local_ : ConfigLayer :=
      ⟨LayerType.LocalGame, game.GetGameID, game.GetRevision, some game.GetLongName⟩
    let s := s.emit (Event.Config_AddLayer global)
    let s := s.emit (Event.Config_AddLayer local_)
    let value := env.Config_Get [global, local_] info
    let s := s.emit (Event.Config_Get info)
    let s := s.emit (Event.Config_RemoveLayer LayerType.GlobalGame)
    let s := s.emit (Event.Config_RemoveLayer LayerType.LocalGame)
    (value, s)
  | none =>
    let value := env.Config_Get [] info
    let s := s.emit (Event.Config_Get info)
    (value, s)

/-- `NetPlayDialog::MeetsAutoBufferConditions` (lines 1109-1115); the operands of `&&` are
evaluated left to right and only as far as needed, and the two calls of `FindGameFile`
return the same game file. -/
@[irreducible] def MeetsAutoBufferConditions (env : Env) (s : State) : Bool × State :=
  match FindGameFile env s.m_current_game with
  | none => (false, s)
  | some game =>
    if game.GetRegion ≠ Region.PAL then
      let r := GetConfigOptionWithSelectedGame env s ConfigInfo.MAIN_POLL_ON_SIREAD
      (r.1.toBool, r.2)
    else (false, s)

/-- The literal `1.1` of type `double`. -/
def double_1_1 : ℚ := toBinary64 (11 / 10)

/-- `NetPlayDialog::CalculateBufferFromSamples` (lines 1117-1143). No result on an empty
vector (`samples[0]`) or, when the samples are accepted, on a null server pointer. -/
def CalculateBufferFromSamples (env : Env) (s : State) (samples : List NetRoute) :
    Option (Bool × State) :=
  let s := s.emit (Event.enter_CalculateBufferFromSamples samples)
  match samples with
  | [] => none
  | first :: _ =>
    let first_sample : Int := wrapInt first.ping
    let sample_difference : Int := wrapInt (first_sample * wrapInt samples.length)
    let sample_difference : Int :=
      (samples.drop 1).foldl (fun d r => wrapInt (d - r.ping)) sample_difference
    let sample_difference : Int := absInt sample_difference
    if sample_difference < 100 then
      let average_ping : Int := samples.foldl (fun a r => wrapInt (a + r.ping)) 0
      let average_ping : Int := wrapInt (Int.tdiv average_ping (wrapInt samples.length))
      let s := DisplayMessage s "Average ping out of 3 samples was %1 ms"
        [MsgArg.int average_ping] "green"
      let auto_buffer : Int :=
        doubleToInt (fmul (fdiv (fmul average_ping double_1_1) (fdiv 1000 60)) 100)
      match env.GetNetPlayServer with
      | none => none
      | some _ => some (true, s.emit (Event.AdjustMinimumPadBufferSize auto_buffer))
    else
      some (false, s)

/-- The text `tr("Auto (%1 s)").arg(m_auto_buffer_sample_amount - m_auto_buffer_samples.size())`;
the difference is taken in `size_t`. -/
def auto_button_countdown (size : Nat) : String :=
  "Auto (" ++ toString ((m_auto_buffer_sample_amount + 2 ^ 64 - size % 2 ^ 64) % 2 ^ 64) ++ " s)"

/-- The five statements that end an automatic buffer calculation, identical in both
branches of `SampleAutoBuffer` (lines 1155-1159 and 1175-1179). -/
def finish_auto_buffer (env : Env) (s : State) : State :=
  let s := { s with m_auto_buffer_button := { s.m_auto_buffer_button with text := "Auto" } }
  let r := MeetsAutoBufferConditions env s
  let s := r.2
  let s := { s with m_auto_buffer_button := { s.m_auto_buffer_button with enabled := r.1 } }
  let s := { s with m_minimum_buffer_size_box :=
    { s.m_minimum_buffer_size_box with enabled := true } }
  let s := { s with m_auto_buffer_samples := [] }
  { s with m_auto_buffer_sample_timer_active := false }

/-- `NetPlayDialog::SampleAutoBuffer` (lines 1145-1182). No result on a null server
pointer. `samples` is the content of `m_auto_buffer_samples` after the `push_back`. -/
def SampleAutoBuffer (env : Env) (s : State) : Option State :=
  match env.GetNetPlayServer with
  | none => none
  | some server =>
    let latest_sample := server.FindLongestRoute
    let samples := s.m_auto_buffer_samples ++ [latest_sample]
    let s := { s with
      m_auto_buffer_samples := samples
      m_auto_buffer_button :=
        { s.m_auto_buffer_button with text := auto_button_countdown samples.length } }
    if latest_sample.from_ = none ∨ latest_sample.to_ = none then
      some (finish_auto_buffer env (DisplayMessage s
        "Unable to calculate auto buffer (at least 2 players are required)" [] "red"))
    else
      let s := DisplayMessage s "Sample %1/%2 - %3 → Server → %4 at %5 ms"
        [MsgArg.int samples.length, MsgArg.int m_auto_buffer_sample_amount,
         MsgArg.str ((latest_sample.from_.map Player.name).getD ""),
         MsgArg.str ((latest_sample.to_.map Player.name).getD ""),
         MsgArg.int latest_sample.ping] "green"
      if samples.length ≥ m_auto_buffer_sample_amount then
        match CalculateBufferFromSamples env s samples with
        | none => none
        | some (true, s) => some (finish_auto_buffer env s)
        | some (false, s) =>
          some (finish_auto_buffer env (DisplayMessage s
            "Unable to calculate auto buffer because the ping times were too unstable." [] "red"))
      else
        some s

/-- The lambda `get_mapping_string` of `UpdateGUI` (lines 646-658): `array` holds the pid
mapped to each controller port. -/
def get_mapping_string (player : Player) (array : List Int) : String :=
  let str := array.enum.foldl
    (fun str ia => if (player.pid : Int) = ia.2 then str ++ toString (ia.1 + 1) else str.push '-')
    ""
  "|" ++ str ++ "|"

/-- `NetPlayDialog::SetOptionsEnabled` (lines 852-867). -/
def SetOptionsEnabled (env : Env) (s : State) (enabled : Bool) : State :=
  let s := s.emit (Event.enter_SetOptionsEnabled enabled)
  let s :=
    if env.GetNetPlayServer.isSome then
      { s with
        m_start_button := { s.m_start_button with enabled := enabled }
        m_game_button := { s.m_game_button with enabled := enabled }
        m_load_wii_box := { s.m_load_wii_box with enabled := enabled }
        m_save_sd_box := { s.m_save_sd_box with enabled := enabled }
        m_sync_save_data_box := { s.m_sync_save_data_box with enabled := enabled }
        m_assign_ports_button := { s.m_assign_ports_button with enabled := enabled }
        m_strict_settings_sync_box := { s.m_strict_settings_sync_box with enabled := enabled }
        m_host_input_authority_box := { s.m_host_input_authority_box with enabled := enabled } }
    else s
  { s with m_record_input_box := { s.m_record_input_box with enabled := enabled } }

/-- The options `OnStart` reads between adding and removing the per-title layers
(lines 441-499), in program order. -/
def OnStart_reads : List ConfigInfo :=
  [ConfigInfo.MAIN_CPU_THREAD,
   ConfigInfo.MAIN_CPU_CORE,
   ConfigInfo.MAIN_ENABLE_CHEATS,
   ConfigInfo.MAIN_GC_LANGUAGE,
   ConfigInfo.MAIN_OVERRIDE_GC_LANGUAGE,
   ConfigInfo.SYSCONF_PROGRESSIVE_SCAN,
   ConfigInfo.SYSCONF_PAL60,
   ConfigInfo.MAIN_DSP_HLE,
   ConfigInfo.MAIN_DSP_JIT,
   ConfigInfo.MAIN_OVERCLOCK_ENABLE,
   ConfigInfo.MAIN_OVERCLOCK,
   ConfigInfo.MAIN_SLOT_A,
   ConfigInfo.MAIN_SLOT_B,
   ConfigInfo.GFX_HACK_EFB_ACCESS_ENABLE,
   ConfigInfo.GFX_HACK_BBOX_ENABLE,
   ConfigInfo.GFX_HACK_FORCE_PROGRESSIVE,
   ConfigInfo.GFX_HACK_SKIP_EFB_COPY_TO_RAM,
   ConfigInfo.GFX_HACK_SKIP_XFB_COPY_TO_RAM,
   ConfigInfo.GFX_HACK_DISABLE_COPY_TO_VRAM,
   ConfigInfo.GFX_HACK_IMMEDIATE_XFB,
   ConfigInfo.GFX_HACK_EFB_EMULATE_FORMAT_CHANGES,
   ConfigInfo.GFX_SAFE_TEXTURE_CACHE_COLOR_SAMPLES,
   ConfigInfo.GFX_PERF_QUERIES_ENABLE,
   ConfigInfo.MAIN_FPRF,
   ConfigInfo.MAIN_ACCURATE_NANS,
   ConfigInfo.MAIN_SYNC_ON_SKIP_IDLE,
   ConfigInfo.MAIN_SYNC_GPU,
   ConfigInfo.MAIN_SYNC_GPU_MAX_DISTANCE,
   ConfigInfo.MAIN_SYNC_GPU_MIN_DISTANCE,
   ConfigInfo.MAIN_SYNC_GPU_OVERCLOCK,
   ConfigInfo.MAIN_JIT_FOLLOW_BRANCH,
   ConfigInfo.MAIN_FAST_DISC_SPEED,
   ConfigInfo.MAIN_POLL_ON_SIREAD,
   ConfigInfo.MAIN_MMU,
   ConfigInfo.MAIN_FASTMEM,
   ConfigInfo.MAIN_SKIP_IPL,
   ConfigInfo.MAIN_LOAD_IPL_DUMP,
   ConfigInfo.GFX_HACK_VERTEX_ROUDING,
   ConfigInfo.GFX_EFB_SCALE,
   ConfigInfo.GFX_HACK_COPY_EFB_SCALED,
   ConfigInfo.GFX_FAST_DEPTH_CALC,
   ConfigInfo.GFX_ENABLE_PIXEL_LIGHTING,
   ConfigInfo.GFX_WIDESCREEN_HACK,
   ConfigInfo.GFX_ENHANCE_FORCE_FILTERING,
   ConfigInfo.GFX_ENHANCE_MAX_ANISOTROPY,
   ConfigInfo.GFX_ENHANCE_FORCE_TRUE_COLOR,
   ConfigInfo.GFX_ENHANCE_DISABLE_COPY_FILTER,
   ConfigInfo.GFX_DISABLE_FOG,
   ConfigInfo.GFX_ENHANCE_ARBITRARY_MIPMAP_DETECTION,
   ConfigInfo.GFX_ENHANCE_ARBITRARY_MIPMAP_DETECTION_THRESHOLD,
   ConfigInfo.GFX_ENABLE_GPU_TEXTURE_DECODING]

/-- The snapshot `OnStart` fills in (lines 441-501); `get` is `Config::Get` with the
per-title layers applied. -/
def OnStart_settings (get : ConfigInfo → ConfigValue) (s : State) (server : NetPlayServer) :
    NetSettings :=
  { m_CPUthread := get ConfigInfo.MAIN_CPU_THREAD,
    m_CPUcore := get ConfigInfo.MAIN_CPU_CORE,
    m_EnableCheats := get ConfigInfo.MAIN_ENABLE_CHEATS,
    m_SelectedLanguage := get ConfigInfo.MAIN_GC_LANGUAGE,
    m_OverrideGCLanguage := get ConfigInfo.MAIN_OVERRIDE_GC_LANGUAGE,
    m_ProgressiveScan := get ConfigInfo.SYSCONF_PROGRESSIVE_SCAN,
    m_PAL60 := get ConfigInfo.SYSCONF_PAL60,
    m_DSPHLE := get ConfigInfo.MAIN_DSP_HLE,
    m_DSPEnableJIT := get ConfigInfo.MAIN_DSP_JIT,
    m_WriteToMemcard := s.m_save_sd_box.checked,
    m_CopyWiiSave := s.m_load_wii_box.checked,
    m_OCEnable := get ConfigInfo.MAIN_OVERCLOCK_ENABLE,
    m_OCFactor := get ConfigInfo.MAIN_OVERCLOCK,
    m_EXIDevice0 := get ConfigInfo.MAIN_SLOT_A,
    m_EXIDevice1 := get ConfigInfo.MAIN_SLOT_B,
    m_EFBAccessEnable := get ConfigInfo.GFX_HACK_EFB_ACCESS_ENABLE,
    m_BBoxEnable := get ConfigInfo.GFX_HACK_BBOX_ENABLE,
    m_ForceProgressive := get ConfigInfo.GFX_HACK_FORCE_PROGRESSIVE,
    m_EFBToTextureEnable := get ConfigInfo.GFX_HACK_SKIP_EFB_COPY_TO_RAM,
    m_XFBToTextureEnable := get ConfigInfo.GFX_HACK_SKIP_XFB_COPY_TO_RAM,
    m_DisableCopyToVRAM := get ConfigInfo.GFX_HACK_DISABLE_COPY_TO_VRAM,
    m_ImmediateXFBEnable := get ConfigInfo.GFX_HACK_IMMEDIATE_XFB,
    m_EFBEmulateFormatChanges := get ConfigInfo.GFX_HACK_EFB_EMULATE_FORMAT_CHANGES,
    m_SafeTextureCacheColorSamples := get ConfigInfo.GFX_SAFE_TEXTURE_CACHE_COLOR_SAMPLES,
    m_PerfQueriesEnable := get ConfigInfo.GFX_PERF_QUERIES_ENABLE,
    m_FPRF := get ConfigInfo.MAIN_FPRF,
    m_AccurateNaNs := get ConfigInfo.MAIN_ACCURATE_NANS,
    m_SyncOnSkipIdle := get ConfigInfo.MAIN_SYNC_ON_SKIP_IDLE,
    m_SyncGPU := get ConfigInfo.MAIN_SYNC_GPU,
    m_SyncGpuMaxDistance := get ConfigInfo.MAIN_SYNC_GPU_MAX_DISTANCE,
    m_SyncGpuMinDistance := get ConfigInfo.MAIN_SYNC_GPU_MIN_DISTANCE,
    m_SyncGpuOverclock := get ConfigInfo.MAIN_SYNC_GPU_OVERCLOCK,
    m_JITFollowBranch := get ConfigInfo.MAIN_JIT_FOLLOW_BRANCH,
    m_FastDiscSpeed := get ConfigInfo.MAIN_FAST_DISC_SPEED,
    m_PollOnSIRead := get ConfigInfo.MAIN_POLL_ON_SIREAD,
    m_MMU := get ConfigInfo.MAIN_MMU,
    m_Fastmem := get ConfigInfo.MAIN_FASTMEM,
    m_SkipIPL := (get ConfigInfo.MAIN_SKIP_IPL).toBool || !server.DoAllPlayersHaveIPLDump,
    m_LoadIPLDump := (get ConfigInfo.MAIN_LOAD_IPL_DUMP).toBool && server.DoAllPlayersHaveIPLDump,
    m_VertexRounding := get ConfigInfo.GFX_HACK_VERTEX_ROUDING,
    m_InternalResolution := get ConfigInfo.GFX_EFB_SCALE,
    m_EFBScaledCopy := get ConfigInfo.GFX_HACK_COPY_EFB_SCALED,
    m_FastDepthCalc := get ConfigInfo.GFX_FAST_DEPTH_CALC,
    m_EnablePixelLighting := get ConfigInfo.GFX_ENABLE_PIXEL_LIGHTING,
    m_WidescreenHack := get ConfigInfo.GFX_WIDESCREEN_HACK,
    m_ForceFiltering := get ConfigInfo.GFX_ENHANCE_FORCE_FILTERING,
    m_MaxAnisotropy := get ConfigInfo.GFX_ENHANCE_MAX_ANISOTROPY,
    m_ForceTrueColor := get ConfigInfo.GFX_ENHANCE_FORCE_TRUE_COLOR,
    m_DisableCopyFilter := get ConfigInfo.GFX_ENHANCE_DISABLE_COPY_FILTER,
    m_DisableFog := get ConfigInfo.GFX_DISABLE_FOG,
    m_ArbitraryMipmapDetection := get ConfigInfo.GFX_ENHANCE_ARBITRARY_MIPMAP_DETECTION,
    m_ArbitraryMipmapDetectionThreshold := get ConfigInfo.GFX_ENHANCE_ARBITRARY_MIPMAP_DETECTION_THRESHOLD,
    m_EnableGPUTextureDecoding := get ConfigInfo.GFX_ENABLE_GPU_TEXTURE_DECODING,
    m_StrictSettingsSync := s.m_strict_settings_sync_box.checked,
    m_SyncSaveData := s.m_sync_save_data_box.checked }

/-- The second half of `NetPlayDialog::OnStart` (lines 432-509), reached with the game file
found and the server pointer at hand: take the snapshot under the per-title layers, hand it
to the server and ask it to start. -/
@[irreducible] def OnStart_send (env : Env) (s : State) (game : GameFile) (server : NetPlayServer) : State :=
  let global : ConfigLayer := ⟨LayerType.GlobalGame, game.GetGameID, game.GetRevision, none⟩
  let local_ : ConfigLayer := ⟨LayerType.LocalGame, game.GetGameID, game.GetRevision, none⟩
  let s := s.emit (Event.Config_AddLayer global)
  let s := s.emit (Event.Config_AddLayer local_)
  let settings := OnStart_settings (env.Config_Get [global, local_]) s server
  let s := s.emitAll (OnStart_reads.map Event.Config_Get)
  let s := s.emit (Event.Config_RemoveLayer LayerType.GlobalGame)
  let s := s.emit (Event.Config_RemoveLayer LayerType.LocalGame)
  let s := s.emit (Event.SetNetSettings settings)
  let s := s.emit Event.RequestStartGame
  if server.RequestStartGame = true then SetOptionsEnabled env s false else s

/-- `NetPlayDialog::OnStart` (lines 406-510). No result on a null client pointer, or on a
null server pointer once the three checks have passed. -/
def OnStart (env : Env) (s : State) : Option State :=
  match env.GetNetPlayClient with
  | none => none
  | some client =>
    let question := Event.QMessageBox_question "Warning"
      "Not all players have the game. Do you really want to start?"
    if client.DoAllPlayersHaveGame = false ∧ env.question_answer = StandardButton.No then
      some (s.emit question)
    else
      let s := if client.DoAllPlayersHaveGame = false then s.emit question else s
      let strict := s.m_strict_settings_sync_box.checked
      let s := if strict = true then s.emit (Event.Config_Get ConfigInfo.GFX_EFB_SCALE) else s
      if strict = true ∧ env.Config_Get [] ConfigInfo.GFX_EFB_SCALE = 0 then
        some (s.emit (Event.QMessageBox_critical "Error"
          ("Auto internal resolution is not allowed in strict sync mode, as it depends on " ++
           "window size.\n\nPlease select a specific internal resolution.")))
      else
        match FindGameFile env s.m_current_game with
        | none => some (s.emit (Event.PanicAlertT "Selected game doesn't exist in game list!"))
        | some game =>
          match env.GetNetPlayServer with
          | none => none
          | some server => some (OnStart_send env s game server)

/-- The block that selects the granularity of both buffer boxes; it stands verbatim in
`CreateMainLayout` (lines 108-119), in the body queued by `OnMsgChangeGame` (lines 821-832)
and in `OnHostInputAuthorityChanged` (lines 960-971). -/
@[irreducible] def update_buffer_granularity (env : Env) (s : State) : State :=
  let r := GetConfigOptionWithSelectedGame env s ConfigInfo.MAIN_POLL_ON_SIREAD
  let s := r.2
  if r.1.toBool = true ∧ s.m_host_input_authority = false then
    { s with
      m_minimum_buffer_size_box :=
        { s.m_minimum_buffer_size_box with decimals := 2, singleStep := 1 / 4, suffix := " frame(s)" }
      m_local_buffer_size_box :=
        { s.m_local_buffer_size_box with decimals := 2, singleStep := 1 / 4, suffix := " frame(s)" } }
  else
    { s with
      m_minimum_buffer_size_box :=
        { s.m_minimum_buffer_size_box with singleStep := 1, decimals := 0, suffix := "" }
      m_local_buffer_size_box :=
        { s.m_local_buffer_size_box with singleStep := 1, decimals := 0, suffix := "" } }

/-- `NetPlayDialog::CreateMainLayout` (lines 82-239), as far as it sets properties that the
dialog reads or changes again later; the layout of the widgets is left out. -/
def CreateMainLayout (env : Env) (s : State) : State :=
  let s := { s with
    m_start_button := { s.m_start_button with text := "Start" }
    m_auto_buffer_button := { s.m_auto_buffer_button with text := "Auto" }
    m_sync_save_data_box := { s.m_sync_save_data_box with checked := true } }
  let s := update_buffer_granularity env s
  let s := { s with
    m_minimum_buffer_size_box :=
      { s.m_minimum_buffer_size_box with minimum := 0, maximum := 10000 }
    m_local_buffer_size_box :=
      { s.m_local_buffer_size_box with minimum := 0, maximum := 10000 } }
  let s := { s with m_auto_buffer_sample_timer_active := false }
  { s with m_local_under_minimum_warning := { s.m_local_under_minimum_warning with hidden := true } }

/-- `NetPlayDialog::OnMsgChangeGame` (lines 813-842): what runs in the caller. -/
def OnMsgChangeGame (s : State) (title : String) : State :=
  let s := s.enqueue (Queued.OnMsgChangeGame title)
  DisplayMessage s "Game changed to \"%1\"" [MsgArg.str title] "magenta"

/-- The body `OnMsgChangeGame` queues (lines 817-838). No result on a null client
pointer. -/
def OnMsgChangeGame_queued (env : Env) (s : State) (title : String) : Option State :=
  let s := { s with m_game_button := { s.m_game_button with text := title } }
  let s := { s with m_current_game := title }
  let s := s.emit Event.UpdateDiscordPresence
  let s := update_buffer_granularity env s
  let r := MeetsAutoBufferConditions env s
  let s := r.2
  let s := { s with m_auto_buffer_button := { s.m_auto_buffer_button with enabled := r.1 } }
  let r := GetConfigOptionWithSelectedGame env s ConfigInfo.MAIN_POLL_ON_SIREAD
  let s := r.2
  match env.GetNetPlayClient with
  | none => none
  | some _ =>
    let s := s.emit (Event.AdjustLocalPadBufferSize (if r.1.toBool = true then 150 else 6))
    if env.GetNetPlayServer.isSome then some (s.emit (Event.AdjustMinimumPadBufferSize 0))
    else some s

/-- The statement `m_local_under_minimum_warning->setHidden(m_local_buffer_size >=
m_minimum_buffer_size || m_host_input_authority)` (lines 908, 934 and 958). -/
def update_under_minimum_warning (s : State) : State :=
  { s with m_local_under_minimum_warning :=
    { s.m_local_under_minimum_warning with
      hidden := decide (s.m_local_buffer_size ≥ s.m_minimum_buffer_size) || s.m_host_input_authority } }

/-- `NetPlayDialog::OnMinimumPadBufferChanged` (lines 886-909): what runs in the caller;
`buffer` is a `u32`. -/
def OnMinimumPadBufferChanged (env : Env) (s : State) (buffer : Nat) : State :=
  let s := s.enqueue (Queued.OnMinimumPadBufferChanged buffer)
  let r := GetConfigOptionWithSelectedGame env s ConfigInfo.MAIN_POLL_ON_SIREAD
  let s := r.2
  let s :=
    if r.1.toBool = true then
      DisplayMessage s "Minimum buffer size changed to %1 %2"
        [MsgArg.real (fdiv buffer 100), MsgArg.str (if buffer = 100 then "frame" else "frames")] ""
    else
      DisplayMessage s "Minimum buffer size changed to %1" [MsgArg.int buffer] ""
  let s := { s with m_minimum_buffer_size := wrapInt buffer }
  update_under_minimum_warning s

/-- The body `OnMinimumPadBufferChanged` queues (lines 889-894). -/
def OnMinimumPadBufferChanged_queued (env : Env) (s : State) (buffer : Nat) : State :=
  let r := GetConfigOptionWithSelectedGame env s ConfigInfo.MAIN_POLL_ON_SIREAD
  let s := r.2
  if r.1.toBool = true then
    { s with m_minimum_buffer_size_box := { s.m_minimum_buffer_size_box with value := fdiv buffer 100 } }
  else
    { s with m_minimum_buffer_size_box := { s.m_minimum_buffer_size_box with value := buffer } }

/-- `NetPlayDialog::OnLocalPadBufferChanged` (lines 911-935): what runs in the caller;
`buffer` is a `u32`. -/
def OnLocalPadBufferChanged (env : Env) (s : State) (buffer : Nat) : State :=
  let s := s.enqueue (Queued.OnLocalPadBufferChanged buffer)
  let r := GetConfigOptionWithSelectedGame env s ConfigInfo.MAIN_POLL_ON_SIREAD
  let s := r.2
  let s :=
    if r.1.toBool = true then
      DisplayMessage s "Buffer size changed to %1 %2"
        [MsgArg.real (fdiv buffer 100), MsgArg.str (if buffer = 100 then "frame" else "frames")] ""
    else
      DisplayMessage s "Buffer size changed to %1" [MsgArg.int buffer] ""
  let s := { s with m_local_buffer_size := wrapInt buffer }
  update_under_minimum_warning s

/-- The body `OnLocalPadBufferChanged` queues (lines 914-919). -/
def OnLocalPadBufferChanged_queued (env : Env) (s : State) (buffer : Nat) : State :=
  let r := GetConfigOptionWithSelectedGame env s ConfigInfo.MAIN_POLL_ON_SIREAD
  let s := r.2
  if r.1.toBool = true then
    { s with m_local_buffer_size_box := { s.m_local_buffer_size_box with value := fdiv buffer 100 } }
  else
    { s with m_local_buffer_size_box := { s.m_local_buffer_size_box with value := buffer } }

/-- `NetPlayDialog::OnHostInputAuthorityChanged` (lines 937-972): what runs in the caller. -/
def OnHostInputAuthorityChanged (env : Env) (s : State) (enabled : Bool) : State :=
  let s := s.enqueue (Queued.OnHostInputAuthorityChanged enabled)
  let s := DisplayMessage s
    (if enabled = true then "Host input authority enabled" else "Host input authority disabled")
    [] ""
  let s := { s with m_host_input_authority := enabled }
  let s := update_under_minimum_warning s
  update_buffer_granularity env s

/-- The body `OnHostInputAuthorityChanged` queues (lines 940-951). -/
def OnHostInputAuthorityChanged_queued (env : Env) (s : State) (enabled : Bool) : State :=
  let is_hosting : Bool := env.GetNetPlayServer.isSome
  let enable_buffer : Bool := is_hosting != enabled
  if is_hosting = true then
    let s := { s with
      m_minimum_buffer_size_box := { s.m_minimum_buffer_size_box with enabled := enable_buffer }
      m_local_buffer_size_box := { s.m_local_buffer_size_box with enabled := enable_buffer } }
    let r := MeetsAutoBufferConditions env s
    let s := r.2
    let s := { s with
      m_auto_buffer_button := { s.m_auto_buffer_button with enabled := r.1 && enable_buffer } }
    { s with m_host_input_authority_box := { s.m_host_input_authority_box with checked := enabled } }
  else s

/-- The text of a player's game status in the players table (lines 660-663 and 670-672). -/
def player_status (status : PlayerGameStatus) : String :=
  match status with
  | PlayerGameStatus.Ok => "OK"
  | PlayerGameStatus.NotFound => "Not Found"

/-- The part of `UpdateGUI` that fills the players table (lines 629-688). The number of
players (identified by a `u8`) fits `int`, so `static_cast<int>(players.size())` is the
length itself. The signals the table raises when it is cleared and a row is selected are
not followed. -/
@[irreducible] def UpdateGUI_players (client : NetPlayClient) (s : State) : State :=
  let players := client.GetPlayers
  let s :=
    if (players.length : Int) ≠ s.m_player_count ∧ s.m_player_count ≠ 0 then
      s.emit Event.QApplication_alert
    else s
  let s := { s with m_player_count := (players.length : Int) }
  let selection_pid : Int := s.m_players_list.currentItem.getD (-1)
  let shown := players.take s.m_player_count.toNat
  { s with m_players_list :=
    { rows := shown.map (fun p =>
        [p.name, player_status p.game_status, toString p.ping ++ " ms",
         get_mapping_string p client.GetPadMapping ++
           get_mapping_string p client.GetWiimoteMapping,
         p.revision])
      currentItem :=
        if shown.any (fun p => decide ((p.pid : Int) = selection_pid)) = true then
          some selection_pid
        else none } }

/-- The part of `UpdateGUI` that sets the room identifier or address and its button
(lines 690-723). No result on a null traversal client while its state is asked for. -/
@[irreducible] def UpdateGUI_room (env : Env) (s : State) : Option State :=
  if s.m_use_traversal = true ∧ s.m_room_box.currentIndex = (0 : Int) then
    match env.g_TraversalClient with
    | none => none
    | some traversal =>
      match traversal.GetState with
      | TraversalClient.State.Connecting =>
        some { s with
          m_hostcode_label := { s.m_hostcode_label with text := "..." }
          m_hostcode_action_button := { s.m_hostcode_action_button with enabled := false } }
      | TraversalClient.State.Connected =>
        some { s with
          m_hostcode_label := { s.m_hostcode_label with text := traversal.GetHostID }
          m_hostcode_action_button :=
            { s.m_hostcode_action_button with enabled := true, text := "Copy" }
          m_is_copy_button_retry := false }
      | TraversalClient.State.Failure =>
        some { s with
          m_hostcode_label := { s.m_hostcode_label with text := "Error" }
          m_hostcode_action_button :=
            { s.m_hostcode_action_button with text := "Retry", enabled := true }
          m_is_copy_button_retry := true }
  else
    match env.GetNetPlayServer with
    | some server =>
      some { s with
        m_hostcode_label :=
          { s.m_hostcode_label with text := server.GetInterfaceHost s.m_room_box.currentData }
        m_hostcode_action_button :=
          { s.m_hostcode_action_button with text := "Copy", enabled := true } }
    | none => some s

/-- The part of `UpdateGUI` that refreshes the presence when the number of players has
changed (lines 725-729). -/
@[irreducible] def UpdateGUI_presence (s : State) : State :=
  if s.m_old_player_count ≠ s.m_player_count then
    { s.emit Event.UpdateDiscordPresence with m_old_player_count := s.m_player_count }
  else s

/-- The part of `UpdateGUI` that shows the longest route while hosting (lines 731-751). -/
@[irreducible] def UpdateGUI_route (env : Env) (s : State) : State :=
  match env.GetNetPlayServer with
  | none => s
  | some server =>
    let longest_route := server.FindLongestRoute
    match longest_route.from_, longest_route.to_ with
    | none, _ =>
      { s with m_longest_route_label :=
        { s.m_longest_route_label with text := "Longest route over network: (none)" } }
    | some from_, none =>
      { s with m_longest_route_label :=
        { s.m_longest_route_label with text :=
          "Longest route over network: " ++ from_.name ++ " → Server (" ++
            (toString longest_route.ping ++ " ms)") } }
    | some from_, some to_ =>
      { s with m_longest_route_label :=
        { s.m_longest_route_label with text :=
          "Longest route over network: " ++ from_.name ++ " → Server → " ++
            (to_.name ++ " (" ++ (toString longest_route.ping ++ " ms)")) } }

/-- `NetPlayDialog::UpdateGUI` (lines 622-752). Nothing happens on a null client pointer. -/
def UpdateGUI (env : Env) (s : State) : Option State :=
  match env.GetNetPlayClient with
  | none => some s
  | some client =>
    match UpdateGUI_room env (UpdateGUI_players client s) with
    | none => none
    | some s => some (UpdateGUI_route env (UpdateGUI_presence s))

/-- `NetPlayDialog::BootGame` (lines 756-760); `Boot` is a signal of the dialog. -/
def BootGame (s : State) (filename : String) : State :=
  let s := { s with m_got_stop_request := false }
  s.emit (Event.Boot filename)

/-- `NetPlayDialog::StopGame` (lines 762-769); `Stop` is a signal of the dialog. -/
def StopGame (s : State) : State :=
  if s.m_got_stop_request = true then s
  else
    let s := { s with m_got_stop_request := true }
    s.emit Event.Stop

/-- `NetPlayDialog::GameStatusChanged` (lines 844-850). No result on a null client pointer
when the stop request is to be sent. -/
def GameStatusChanged (env : Env) (s : State) (running : Bool) : Option State :=
  let sent : Option State :=
    if running = false ∧ s.m_got_stop_request = false then
      match env.GetNetPlayClient with
      | none => none
      | some _ => some (s.emit Event.RequestStopGame)
    else some s
  sent.map (fun s => s.enqueue (Queued.GameStatusChanged running))

/-- The body `GameStatusChanged` queues (line 849). -/
def GameStatusChanged_queued (env : Env) (s : State) (running : Bool) : State :=
  SetOptionsEnabled env s (!running)

/-- `NetPlayDialog::OnTraversalError` (lines 994-1015): what runs in the caller. -/
def OnTraversalError (s : State) (error : TraversalClient.FailureReason) : State :=
  s.enqueue (Queued.OnTraversalError error)

/-- `QDialog::reject`, called on the base class: the dialog is hidden with the result
`Rejected`; the confirmation of `NetPlayDialog::reject` is not asked for. -/
def QDialog_reject (s : State) : State :=
  { s.emit Event.QDialog_reject with isVisible := false }

/-- The body `OnTraversalError` queues (lines 997-1013). -/
def OnTraversalError_queued (env : Env) (s : State) (error : TraversalClient.FailureReason) :
    Option State :=
  match error with
  | TraversalClient.FailureReason.BadHost =>
    let s := s.emit
      (Event.QMessageBox_critical "Traversal Error" "Couldn't look up central server")
    some (QDialog_reject s)
  | TraversalClient.FailureReason.VersionTooOld =>
    let s := s.emit
      (Event.QMessageBox_critical "Traversal Error" "Dolphin is too old for traversal server")
    some (QDialog_reject s)
  | TraversalClient.FailureReason.ServerForgotAboutUs => UpdateGUI env s
  | TraversalClient.FailureReason.SocketSendError => UpdateGUI env s
  | TraversalClient.FailureReason.ResendTimeout => UpdateGUI env s

/-- The handler of `m_auto_buffer_button`'s `clicked` signal (lines 350-356). -/
def auto_buffer_button_clicked (env : Env) (s : State) : Option State :=
  let s := { s with m_auto_buffer_button := { s.m_auto_buffer_button with enabled := false } }
  let s := { s with
    m_minimum_buffer_size_box := { s.m_minimum_buffer_size_box with enabled := false } }
  let s := { s with m_auto_buffer_sample_timer_active := true }
  SampleAutoBuffer env s

/-- The handler of `m_hostcode_action_button`'s `clicked` signal (lines 299-304). No result
on a null traversal client when it is asked to reconnect. -/
def hostcode_action_button_clicked (env : Env) (s : State) : Option State :=
  if s.m_is_copy_button_retry = true ∧ s.m_room_box.currentIndex = (0 : Int) then
    match env.g_TraversalClient with
    | none => none
    | some _ => some (s.emit Event.ReconnectToServer)
  else
    some (s.emit (Event.clipboard_setText s.m_hostcode_label.text))

/-- A change of the room box's content by `clear` or `addItem`; when the current index has
changed, the box raises `currentIndexChanged`, whose slot is `UpdateGUI` (line 297). -/
def set_room_box (env : Env) (s : State) (box : QComboBox) : Option State :=
  if box.currentIndex = s.m_room_box.currentIndex then some { s with m_room_box := box }
  else UpdateGUI env { s with m_room_box := box }

/-- The loop of `show` over the server's interfaces (lines 538-542). -/
def show_interfaces (env : Env) : State → List String → Option State
  | s, [] => some s
  | s, iface :: rest =>
    match set_room_box env s
      (s.m_room_box.addItem (if iface = "!local!" then "Local" else iface) iface) with
    | none => none
    | some s => show_interfaces env s rest

/-- The part of `show` that sets which widgets are hidden and enabled (lines 545-564). -/
@[irreducible] def show_widgets (env : Env) (s : State) : State :=
  let is_hosting : Bool := env.GetNetPlayServer.isSome
  let s := { s with
    m_start_button := { s.m_start_button with hidden := !is_hosting }
    m_save_sd_box := { s.m_save_sd_box with hidden := !is_hosting }
    m_load_wii_box := { s.m_load_wii_box with hidden := !is_hosting }
    m_sync_save_data_box := { s.m_sync_save_data_box with hidden := !is_hosting }
    m_strict_settings_sync_box := { s.m_strict_settings_sync_box with hidden := !is_hosting }
    m_host_input_authority_box := { s.m_host_input_authority_box with hidden := !is_hosting }
    m_kick_button := { s.m_kick_button with hidden := !is_hosting, enabled := false }
    m_assign_ports_button := { s.m_assign_ports_button with hidden := !is_hosting }
    m_md5_button := { s.m_md5_button with hidden := !is_hosting }
    m_room_box := { s.m_room_box with hidden := !is_hosting }
    m_hostcode_label := { s.m_hostcode_label with hidden := !is_hosting }
    m_hostcode_action_button := { s.m_hostcode_action_button with hidden := !is_hosting }
    m_longest_route_label := { s.m_longest_route_label with hidden := !is_hosting }
    m_game_button := { s.m_game_button with enabled := is_hosting }
    m_auto_buffer_button := { s.m_auto_buffer_button with hidden := !is_hosting } }
  let r := MeetsAutoBufferConditions env s
  let s := r.2
  { s with
    m_auto_buffer_button := { s.m_auto_buffer_button with enabled := r.1 }
    m_minimum_buffer_label := { s.m_minimum_buffer_label with hidden := !is_hosting }
    m_minimum_buffer_size_box := { s.m_minimum_buffer_size_box with hidden := !is_hosting } }

/-- `NetPlayDialog::show` (lines 521-567). The interfaces of the server come in the order in
which the loop visits them. No result where one of the `UpdateGUI` runs has none. -/
def show_ (env : Env) (s : State) (nickname : String) (use_traversal : Bool) : Option State :=
  let s := { s with m_nickname := nickname, m_use_traversal := use_traversal,
                    m_old_player_count := 0 }
  match set_room_box env s s.m_room_box.clear with
  | none => none
  | some s =>
    let s := s.emit Event.m_chat_edit_clear
    let s := s.emit Event.m_chat_type_edit_clear
    let filled : Option State :=
      match env.GetNetPlayServer with
      | none => some s
      | some server =>
        let titled : Option State :=
          if use_traversal = true then set_room_box env s (s.m_room_box.addItem "Room ID" "")
          else some s
        match titled with
        | none => none
        | some s => show_interfaces env s server.GetInterfaceSet
    match filled with
    | none => none
    | some s =>
      let s := show_widgets env s
      let s := { s.emit Event.QDialog_show with isVisible := true }
      UpdateGUI env s

/-- Run one queued body. -/
def Queued.run (env : Env) (s : State) : Queued → Option State
  | Queued.OnMsgChangeGame title => OnMsgChangeGame_queued env s title
  | Queued.OnMinimumPadBufferChanged buffer => some (OnMinimumPadBufferChanged_queued env s buffer)
  | Queued.OnLocalPadBufferChanged buffer => some (OnLocalPadBufferChanged_queued env s buffer)
  | Queued.OnHostInputAuthorityChanged enabled =>
    some (OnHostInputAuthorityChanged_queued env s enabled)
  | Queued.GameStatusChanged running => some (GameStatusChanged_queued env s running)
  | Queued.OnTraversalError error => OnTraversalError_queued env s error

/-- The handler of `m_minimum_buffer_size_box`'s `valueChanged` signal (lines 326-336);
`value` is the `double` shown in the box. -/
def minimum_buffer_size_box_valueChanged (env : Env) (s : State) (value : ℚ) : State :=
  let r := GetConfigOptionWithSelectedGame env s ConfigInfo.MAIN_POLL_ON_SIREAD
  let s := r.2
  let ivalue : Int := if r.1.toBool = true then doubleToInt (fmul value 100) else doubleToInt value
  if ivalue = s.m_minimum_buffer_size then s
  else
    match env.GetNetPlayServer with
    | some _ => s.emit (Event.AdjustMinimumPadBufferSize ivalue)
    | none => s

/-- The handler of `m_local_buffer_size_box`'s `valueChanged` signal (lines 338-348);
`value` is the `double` shown in the box. -/
def local_buffer_size_box_valueChanged (env : Env) (s : State) (value : ℚ) : State :=
  let r := GetConfigOptionWithSelectedGame env s ConfigInfo.MAIN_POLL_ON_SIREAD
  let s := r.2
  let ivalue : Int := if r.1.toBool = true then doubleToInt (fmul value 100) else doubleToInt value
  if ivalue = s.m_local_buffer_size then s
  else
    match env.GetNetPlayClient with
    | some _ => s.emit (Event.AdjustLocalPadBufferSize ivalue)
    | none => s

/-! ## Vocabulary of the statements -/

/-- A call of `Config::AddLayer`. -/
def Event.isAddLayer : Event → Bool
  | Event.Config_AddLayer _ => true
  | _ => false

/-- A call of `Config::RemoveLayer`. -/
def Event.isRemoveLayer : Event → Bool
  | Event.Config_RemoveLayer _ => true
  | _ => false

/-- A call of `NetPlayServer::AdjustMinimumPadBufferSize`. -/
def Event.isAdjustMinimum : Event → Bool
  | Event.AdjustMinimumPadBufferSize _ => true
  | _ => false

/-- A call of `NetPlayClient::AdjustLocalPadBufferSize`. -/
def Event.isAdjustLocal : Event → Bool
  | Event.AdjustLocalPadBufferSize _ => true
  | _ => false

/-- An entry into `CalculateBufferFromSamples`. -/
def Event.isCalculate : Event → Bool
  | Event.enter_CalculateBufferFromSamples _ => true
  | _ => false

/-- A call of `NetPlayServer::SetNetSettings` or `NetPlayServer::RequestStartGame`. -/
def Event.isStartCall : Event → Bool
  | Event.SetNetSettings _ => true
  | Event.RequestStartGame => true
  | _ => false

/-- An entry into `SetOptionsEnabled`. -/
def Event.isSetOptionsEnabled : Event → Bool
  | Event.enter_SetOptionsEnabled _ => true
  | _ => false

/-- One call of a function that reads the configuration with per-title layers applied. -/
inductive ScopedCall
  | GetConfigOptionWithSelectedGame (env : Env) (info : ConfigInfo)
  | OnStart (env : Env)

/-- Perform one such call. -/
def ScopedCall.run (s : State) : ScopedCall → Option State
  | ScopedCall.GetConfigOptionWithSelectedGame env info =>
    some (NetPlay.GetConfigOptionWithSelectedGame env s info).2
  | ScopedCall.OnStart env => NetPlay.OnStart env s

/-- Perform a sequence of such calls, one after the other. -/
def runCalls : State → List ScopedCall → Option State
  | s, [] => some s
  | s, c :: cs =>
    match c.run s with
    | none => none
    | some s' => runCalls s' cs

/-- The surroundings a call runs in. -/
def ScopedCall.env : ScopedCall → Env
  | ScopedCall.GetConfigOptionWithSelectedGame env _ => env
  | ScopedCall.OnStart env => env

/-- The preconditions of a start in the words of the specification: all players have the game
or the caller confirms the override, strict sync does not meet an automatic internal
resolution, and the current game identifier resolves to a game file. -/
def OnStart_preconditions (env : Env) (s : State) (client : NetPlayClient) : Prop :=
  (client.DoAllPlayersHaveGame = true ∨ env.question_answer = StandardButton.Yes) ∧
  ¬(s.m_strict_settings_sync_box.checked = true ∧
    env.Config_Get [] ConfigInfo.GFX_EFB_SCALE = 0) ∧
  (FindGameFile env s.m_current_game).isSome = true

/-- A host with one NTSC title in its game list whose poll-on-read option is set and whose
other options are zero; used in the worked examples. -/
def host_env : Env :=
  { GetNetPlayServer := some {}
    GetNetPlayClient := some {}
    game_list := [("GALE01", { GetGameID := "GALE01" })]
    Config_Get := fun _ info => if info = ConfigInfo.MAIN_POLL_ON_SIREAD then 1 else 0 }

/-- Both buffer boxes show hundredths of a frame: 2 decimals, step 0.25, suffix " frame(s)". -/
def State.subFrameMode (s : State) : Prop :=
  s.m_minimum_buffer_size_box.decimals = 2 ∧ s.m_minimum_buffer_size_box.singleStep = 1 / 4 ∧
  s.m_minimum_buffer_size_box.suffix = " frame(s)" ∧
  s.m_local_buffer_size_box.decimals = 2 ∧ s.m_local_buffer_size_box.singleStep = 1 / 4 ∧
  s.m_local_buffer_size_box.suffix = " frame(s)"

/-- Both buffer boxes show whole frames: 0 decimals, step 1, no suffix. -/
def State.wholeFrameMode (s : State) : Prop :=
  s.m_minimum_buffer_size_box.decimals = 0 ∧ s.m_minimum_buffer_size_box.singleStep = 1 ∧
  s.m_minimum_buffer_size_box.suffix = "" ∧
  s.m_local_buffer_size_box.decimals = 0 ∧ s.m_local_buffer_size_box.singleStep = 1 ∧
  s.m_local_buffer_size_box.suffix = ""

/-- The poll-on-read option of the selected title, as `GetConfigOptionWithSelectedGame`
returns it in state `s`. -/
def pollOnSIRead (env : Env) (s : State) : Bool :=
  (GetConfigOptionWithSelectedGame env s ConfigInfo.MAIN_POLL_ON_SIREAD).1.toBool

/-- The deviation in the words of the specification:
`|3*sample[0].ping − Σ sample[i].ping|`. -/
def spec_deviation (samples : List NetRoute) : Int :=
  |3 * ((samples.head?.map NetRoute.ping).getD 0 : Int) - ((samples.map NetRoute.ping).sum : Int)|

/-- The buffer in the words of the specification: `round(avg * 1.1 / (1000/60) * 100)` with
`avg = Σ ping / 3`, in exact arithmetic. -/
def spec_buffer (samples : List NetRoute) : Int :=
  round ((((samples.map NetRoute.ping).sum : ℚ) / 3) * (11 / 10) / (1000 / 60) * 100)

/-- A call of `RequestStopGame`. -/
def Event.isRequestStopGame : Event → Bool
  | Event.RequestStopGame => true
  | _ => false

/-- The calls that reach the dialog between two boots, as far as stopping is concerned;
`GameStatusChanged` carries the surroundings it runs in. -/
inductive StopCall
  | GameStatusChanged (env : Env) (running : Bool)
  | StopGame

/-- Perform one such call. -/
def StopCall.run (s : State) : StopCall → Option State
  | StopCall.GameStatusChanged env running => NetPlay.GameStatusChanged env s running
  | StopCall.StopGame => some (NetPlay.StopGame s)

/-- Perform a sequence of such calls, one after the other. -/
def runStopCalls : State → List StopCall → Option State
  | s, [] => some s
  | s, c :: cs =>
    match c.run s with
    | none => none
    | some s' => runStopCalls s' cs

/-- The call runs with a client at hand. -/
def StopCall.hasClient : StopCall → Bool
  | StopCall.GameStatusChanged env _ => env.GetNetPlayClient.isSome
  | StopCall.StopGame => true

/-- The number of calls `GameStatusChanged(false)` that come before the first `StopGame`. -/
def stopsBeforeStopGame : List StopCall → Nat
  | [] => 0
  | StopCall.StopGame :: _ => 0
  | StopCall.GameStatusChanged _ running :: cs =>
    (if running = false then 1 else 0) + stopsBeforeStopGame cs

/-- A host as `host_env` whose longest route runs between two players at 50 ms; used in the
worked examples. -/
def sampling_env : Env :=
  { host_env with
    GetNetPlayServer := some
      { FindLongestRoute :=
          { from_ := some { pid := 1, name := "A" }, to_ := some { pid := 2, name := "B" },
            ping := 50 } } }

/-- A call that adds or removes a configuration layer. -/
def Event.isLayerCall (e : Event) : Bool := e.isAddLayer || e.isRemoveLayer

/-- The layer types handed to `Config::AddLayer`, in the order of the calls. -/
def addedLayers (tr : List Event) : List LayerType :=
  tr.filterMap (fun e => match e with
    | Event.Config_AddLayer l => some l.layer
    | _ => none)

/-- The layer types handed to `Config::RemoveLayer`, in the order of the calls. -/
def removedLayers (tr : List Event) : List LayerType :=
  tr.filterMap (fun e => match e with
    | Event.Config_RemoveLayer t => some t
    | _ => none)

/-- The same samples with `c` ms added to every ping. -/
def shiftPings (c : Nat) (samples : List NetRoute) : List NetRoute :=
  samples.map (fun r => { r with ping := r.ping + c })

/-- Whether `CalculateBufferFromSamples` returns true on the samples. -/
def accepts (env : Env) (s : State) (samples : List NetRoute) : Bool :=
  (CalculateBufferFromSamples env s samples).map Prod.fst == some true

/-- An emission of the signal `Stop`. -/
def Event.isStop : Event → Bool
  | Event.Stop => true
  | _ => false

/-- The call is `StopGame`. -/
def StopCall.isStopGame : StopCall → Bool
  | StopCall.StopGame => true
  | _ => false

/-- Call `SampleAutoBuffer` once in each of the given surroundings, one call after the
other. -/
def runSampleAutoBuffer : State → List Env → Option State
  | s, [] => some s
  | s, env :: envs =>
    match SampleAutoBuffer env s with
    | none => none
    | some s' => runSampleAutoBuffer s' envs

/-- A host whose traversal client has failed; used in the worked examples. -/
def failed_traversal_env : Env :=
  { host_env with g_TraversalClient := some { GetState := TraversalClient.State.Failure } }

/-- A call of `Config::Get`. -/
def Event.isConfigGet : Event → Bool
  | Event.Config_Get _ => true
  | _ => false

/-! ## Lemmas on machine arithmetic -/

theorem wrapInt_of_range (x : Int) (h1 : -2147483648 ≤ x) (h2 : x < 2147483648) :
    wrapInt x = x := by
  unfold wrapInt
  simp only []
  split <;> omega

theorem log2Fuel_spec : ∀ (fuel n : Nat), n ≤ fuel → 1 ≤ n →
    2 ^ log2Fuel fuel n ≤ n ∧ n < 2 ^ (log2Fuel fuel n + 1) := by
  intro fuel
  induction fuel with
  | zero => intro n h1 h2; omega
  | succ fuel ih =>
    intro n h1 h2
    unfold log2Fuel
    by_cases h : n < 2
    · simp only [h, if_true]
      omega
    · simp only [h, if_false]
      have := ih (n / 2) (by omega) (by omega)
      rw [Nat.pow_succ, Nat.pow_succ]
      rw [Nat.pow_succ] at this
      omega

theorem ilog2_spec (n : Nat) (h : 1 ≤ n) : 2 ^ ilog2 n ≤ n ∧ n < 2 ^ (ilog2 n + 1) :=
  log2Fuel_spec n n (le_refl n) h

theorem binade_spec (x : ℚ) (hx : x ≠ 0) :
    (2 : ℚ) ^ binade x ≤ |x| ∧ |x| < (2 : ℚ) ^ (binade x + 1) := by
  have hnum : 1 ≤ x.num.natAbs := by
    have : x.num ≠ 0 := Rat.num_ne_zero.mpr hx
    omega
  have hden : 1 ≤ x.den := x.den_pos
  obtain ⟨a1, a2⟩ := ilog2_spec _ hnum
  obtain ⟨b1, b2⟩ := ilog2_spec _ hden
  have habs : |x| = (x.num.natAbs : ℚ) / (x.den : ℚ) := by
    have h1 : x = (x.num : ℚ) / (x.den : ℚ) := (Rat.num_div_den x).symm
    have hd : (0 : ℚ) < x.den := by exact_mod_cast x.den_pos
    conv_lhs => rw [h1]
    rw [abs_div, abs_of_pos hd, Nat.cast_natAbs, Int.cast_abs]
  have hd : (0 : ℚ) < x.den := by exact_mod_cast x.den_pos
  have A1 : ((2 : ℚ) ^ ilog2 x.num.natAbs) ≤ (x.num.natAbs : ℚ) := by exact_mod_cast a1
  have A2 : (x.num.natAbs : ℚ) < (2 : ℚ) ^ (ilog2 x.num.natAbs + 1) := by exact_mod_cast a2
  have B1 : ((2 : ℚ) ^ ilog2 x.den) ≤ (x.den : ℚ) := by exact_mod_cast b1
  have B2 : (x.den : ℚ) < (2 : ℚ) ^ (ilog2 x.den + 1) := by exact_mod_cast b2
  have hpa : (0 : ℚ) < 2 ^ ilog2 x.num.natAbs := by positivity
  have hpb : (0 : ℚ) < 2 ^ ilog2 x.den := by positivity
  have two : (2 : ℚ) ≠ 0 := by norm_num
  -- the estimate k
  have hk : ∀ j : ℤ, (2 : ℚ) ^ ((ilog2 x.num.natAbs : ℤ) - (ilog2 x.den : ℤ) + j) =
      2 ^ ilog2 x.num.natAbs / 2 ^ ilog2 x.den * 2 ^ j := by
    intro j
    rw [zpow_add₀ two, zpow_sub₀ two, zpow_natCast, zpow_natCast]
  have upper : |x| < (2 : ℚ) ^ ((ilog2 x.num.natAbs : ℤ) - (ilog2 x.den : ℤ) + 1) := by
    rw [hk 1, habs, zpow_one, div_lt_iff₀ hd]
    have : (2 : ℚ) ^ ilog2 x.num.natAbs / 2 ^ ilog2 x.den * 2 * x.den
        = 2 ^ (ilog2 x.num.natAbs + 1) * (x.den / 2 ^ ilog2 x.den) := by
      rw [pow_succ]; field_simp
    rw [this]
    have h1 : (1 : ℚ) ≤ x.den / 2 ^ ilog2 x.den := by
      rw [le_div_iff₀ hpb]; linarith
    nlinarith [A2, h1, hpa]
  have lower : (2 : ℚ) ^ ((ilog2 x.num.natAbs : ℤ) - (ilog2 x.den : ℤ) + (-1)) ≤ |x| := by
    rw [hk (-1), habs, le_div_iff₀ hd]
    have : (2 : ℚ) ^ ilog2 x.num.natAbs / 2 ^ ilog2 x.den * 2 ^ (-1 : ℤ) * x.den
        = 2 ^ ilog2 x.num.natAbs * (x.den / 2 ^ (ilog2 x.den + 1)) := by
      rw [pow_succ, zpow_neg, zpow_one]; field_simp
    rw [this]
    have hpb' : (0 : ℚ) < 2 ^ (ilog2 x.den + 1) := by positivity
    have h1 : (x.den : ℚ) / 2 ^ (ilog2 x.den + 1) ≤ 1 := by
      rw [div_le_iff₀ hpb']; linarith
    have h0 : (0 : ℚ) ≤ x.den / 2 ^ (ilog2 x.den + 1) := by positivity
    nlinarith [A1, h1, h0, hpa]
  unfold binade
  simp only []
  split
  · rename_i h
    exact ⟨h, upper⟩
  · rename_i h
    refine ⟨?_, ?_⟩
    · have : (ilog2 x.num.natAbs : ℤ) - (ilog2 x.den : ℤ) - 1 =
          (ilog2 x.num.natAbs : ℤ) - (ilog2 x.den : ℤ) + (-1) := by ring
      rw [this]; exact lower
    · have : (ilog2 x.num.natAbs : ℤ) - (ilog2 x.den : ℤ) - 1 + 1 =
          (ilog2 x.num.natAbs : ℤ) - (ilog2 x.den : ℤ) := by ring
      rw [this]; exact lt_of_not_le h

theorem roundNearestEven_spec (q : ℚ) : |(roundNearestEven q : ℚ) - q| ≤ 1 / 2 := by
  have h1 : (⌊q⌋ : ℚ) ≤ q := Int.floor_le q
  have h2 : q < (⌊q⌋ : ℚ) + 1 := Int.lt_floor_add_one q
  unfold roundNearestEven
  simp only []
  rw [abs_le]
  split_ifs with c1 c2 c3 <;> push_cast <;> constructor <;> linarith

theorem toBinary64_error (x : ℚ) : |toBinary64 x - x| ≤ |x| / 2 ^ 53 := by
  unfold toBinary64
  by_cases hx : x = 0
  · simp [hx]
  · simp only [hx, if_false]
    obtain ⟨b1, _⟩ := binade_spec x hx
    have hu : (0 : ℚ) < 2 ^ (binade x - 52) := by positivity
    have hr := roundNearestEven_spec (x / 2 ^ (binade x - 52))
    have e1 : (roundNearestEven (x / 2 ^ (binade x - 52)) : ℚ) * 2 ^ (binade x - 52) - x =
        ((roundNearestEven (x / 2 ^ (binade x - 52)) : ℚ) - x / 2 ^ (binade x - 52)) *
          2 ^ (binade x - 52) := by
      field_simp
    rw [e1, abs_mul, abs_of_pos hu]
    have e2 : (2 : ℚ) ^ (binade x - 52) = 2 ^ binade x / 2 ^ 52 := by
      rw [zpow_sub₀ (by norm_num : (2 : ℚ) ≠ 0)]; norm_num
    have hb : (0 : ℚ) < 2 ^ binade x := by positivity
    rw [e2]
    calc |(roundNearestEven (x / (2 ^ binade x / 2 ^ 52)) : ℚ) - x / (2 ^ binade x / 2 ^ 52)| *
          (2 ^ binade x / 2 ^ 52)
        ≤ 1 / 2 * (2 ^ binade x / 2 ^ 52) := by
          rw [e2] at hr
          exact mul_le_mul_of_nonneg_right hr (by positivity)
      _ = 2 ^ binade x / 2 ^ 53 := by ring
      _ ≤ |x| / 2 ^ 53 := by
          apply div_le_div_of_nonneg_right b1 (by positivity)

theorem toBinary64_bounds (x : ℚ) (hx : 0 ≤ x) :
    x * (1 - 1 / 2 ^ 53) ≤ toBinary64 x ∧ toBinary64 x ≤ x * (1 + 1 / 2 ^ 53) := by
  have h := toBinary64_error x
  rw [abs_of_nonneg hx, abs_le] at h
  constructor <;> linarith [h.1, h.2]

theorem toBinary64_nonneg (x : ℚ) (hx : 0 ≤ x) : 0 ≤ toBinary64 x := by
  have h := (toBinary64_bounds x hx).1
  have : (0 : ℚ) ≤ x * (1 - 1 / 2 ^ 53) := mul_nonneg hx (by norm_num)
  linarith

theorem roundNearestEven_intCast (z : ℤ) : roundNearestEven (z : ℚ) = z := by
  unfold roundNearestEven
  simp

theorem toBinary64_dyadic (m j : ℤ) (hm : |m| < 2 ^ 53) :
    toBinary64 ((m : ℚ) * 2 ^ j) = (m : ℚ) * 2 ^ j := by
  by_cases hx : (m : ℚ) * 2 ^ j = 0
  · rw [hx]; simp [toBinary64]
  · obtain ⟨b1, _⟩ := binade_spec _ hx
    have two : (2 : ℚ) ≠ 0 := by norm_num
    have hj : (0 : ℚ) < 2 ^ j := by positivity
    have habs : |(m : ℚ) * 2 ^ j| = |(m : ℚ)| * 2 ^ j := by
      rw [abs_mul, abs_of_pos hj]
    have hm' : |(m : ℚ)| < 2 ^ 53 := by exact_mod_cast hm
    have hlt : (2 : ℚ) ^ binade ((m : ℚ) * 2 ^ j) < 2 ^ (53 + j) := by
      calc (2 : ℚ) ^ binade ((m : ℚ) * 2 ^ j) ≤ |(m : ℚ)| * 2 ^ j := by rw [← habs]; exact b1
        _ < 2 ^ 53 * 2 ^ j := by exact mul_lt_mul_of_pos_right hm' hj
        _ = 2 ^ (53 + j) := by rw [zpow_add₀ two]; norm_num
    have he : binade ((m : ℚ) * 2 ^ j) < 53 + j :=
      (zpow_lt_zpow_iff_right₀ (by norm_num : (1 : ℚ) < 2)).mp hlt
    obtain ⟨k, hk⟩ : ∃ k : ℕ, (k : ℤ) = j - (binade ((m : ℚ) * 2 ^ j) - 52) :=
      ⟨(j - (binade ((m : ℚ) * 2 ^ j) - 52)).toNat, Int.toNat_of_nonneg (by omega)⟩
    have hq : (m : ℚ) * 2 ^ j / 2 ^ (binade ((m : ℚ) * 2 ^ j) - 52) = ((m * 2 ^ k : ℤ) : ℚ) := by
      rw [mul_div_assoc, ← zpow_sub₀ two, ← hk, zpow_natCast]
      push_cast
      ring
    unfold toBinary64
    simp only [hx, if_false]
    rw [hq, roundNearestEven_intCast]
    push_cast
    rw [mul_assoc, ← zpow_natCast, ← zpow_add₀ two, hk]
    congr 2
    ring

theorem toBinary64_natCast (n : ℕ) (hn : n < 2 ^ 53) : toBinary64 (n : ℚ) = n := by
  have h := toBinary64_dyadic (n : ℤ) 0 (by
    rw [abs_of_nonneg (by positivity)]
    exact_mod_cast hn)
  simpa using h

theorem double_1_1_eq : double_1_1 = 2476979795053773 / 2251799813685248 := by decide!

theorem fdiv_1000_60_eq : fdiv 1000 60 = 4691249611844267 / 281474976710656 := by decide!

theorem auto_buffer_double_bounds (a : ℕ) (ha : a < 2 ^ 28) :
    0 ≤ fmul (fdiv (fmul a double_1_1) (fdiv 1000 60)) 100 ∧
    (33 * a : ℚ) / 5 - 1 / 5 < fmul (fdiv (fmul a double_1_1) (fdiv 1000 60)) 100 ∧
    fmul (fdiv (fmul a double_1_1) (fdiv 1000 60)) 100 < (33 * a : ℚ) / 5 + 1 / 5 := by
  have hA0 : (0 : ℚ) ≤ a := by positivity
  have hA1 : (a : ℚ) < 268435456 := by exact_mod_cast ha
  unfold fmul fdiv
  rw [double_1_1_eq]
  have hc2 : toBinary64 (1000 / 60) = 4691249611844267 / 281474976710656 := fdiv_1000_60_eq
  rw [hc2]
  have p1 : (0 : ℚ) ≤ a * (2476979795053773 / 2251799813685248) := by positivity
  have b1 := toBinary64_bounds _ p1
  have n1 := toBinary64_nonneg _ p1
  generalize toBinary64 ((a : ℚ) * (2476979795053773 / 2251799813685248)) = x1 at b1 n1 ⊢
  have p2 : (0 : ℚ) ≤ x1 / (4691249611844267 / 281474976710656) := by positivity
  have b2 := toBinary64_bounds _ p2
  have n2 := toBinary64_nonneg _ p2
  generalize toBinary64 (x1 / (4691249611844267 / 281474976710656)) = x2 at b2 n2 ⊢
  have p3 : (0 : ℚ) ≤ x2 * 100 := by positivity
  have b3 := toBinary64_bounds _ p3
  have n3 := toBinary64_nonneg _ p3
  generalize toBinary64 (x2 * 100) = x3 at b3 n3 ⊢
  norm_num at b1 b2 b3
  refine ⟨n3, ?_, ?_⟩
  · linarith [b1.1, b2.1, b3.1]
  · linarith [b1.2, b2.2, b3.2]

theorem auto_buffer_value (a : ℕ) (ha : a < 2 ^ 28) :
    doubleToInt (fmul (fdiv (fmul a double_1_1) (fdiv 1000 60)) 100) =
      ⌊fmul (fdiv (fmul a double_1_1) (fdiv 1000 60)) 100⌋ ∧
    (doubleToInt (fmul (fdiv (fmul a double_1_1) (fdiv 1000 60)) 100) = 33 * (a : ℤ) / 5 ∨
      ((a : ℤ) % 5 = 0 ∧
        doubleToInt (fmul (fdiv (fmul a double_1_1) (fdiv 1000 60)) 100) = 33 * (a : ℤ) / 5 - 1)) := by
  obtain ⟨h0, hlo, hhi⟩ := auto_buffer_double_bounds a ha
  generalize fmul (fdiv (fmul a double_1_1) (fdiv 1000 60)) 100 = X at h0 hlo hhi ⊢
  have hdiv : (33 * (a : ℤ)) = 5 * (33 * (a : ℤ) / 5) + (33 * (a : ℤ)) % 5 :=
    (Int.ediv_add_emod _ _).symm
  have hr0 : 0 ≤ (33 * (a : ℤ)) % 5 := Int.emod_nonneg _ (by norm_num)
  have hr4 : (33 * (a : ℤ)) % 5 < 5 := Int.emod_lt_of_pos _ (by norm_num)
  have hq : ((33 * (a : ℤ) : ℤ) : ℚ) =
      5 * ((33 * (a : ℤ) / 5 : ℤ) : ℚ) + (((33 * (a : ℤ)) % 5 : ℤ) : ℚ) := by
    exact_mod_cast hdiv
  have hcast : ((33 * (a : ℤ) : ℤ) : ℚ) = 33 * (a : ℚ) := by push_cast; ring
  rw [hcast] at hq
  have ha' : (a : ℤ) < 2 ^ 28 := by exact_mod_cast ha
  have ha0 : (0 : ℤ) ≤ a := by positivity
  have hfl : ⌊X⌋ = 33 * (a : ℤ) / 5 ∨ ((a : ℤ) % 5 = 0 ∧ ⌊X⌋ = 33 * (a : ℤ) / 5 - 1) := by
    by_cases hr : (33 * (a : ℤ)) % 5 = 0
    · have hq' : 33 * (a : ℚ) = 5 * ((33 * (a : ℤ) / 5 : ℤ) : ℚ) := by
        rw [hq, hr]; simp
      by_cases hX : ((33 * (a : ℤ) / 5 : ℤ) : ℚ) ≤ X
      · left
        rw [Int.floor_eq_iff]
        constructor
        · exact hX
        · linarith
      · right
        refine ⟨by omega, ?_⟩
        rw [Int.floor_eq_iff]
        push_cast
        constructor
        · linarith
        · linarith
    · left
      have h1 : (1 : ℤ) ≤ (33 * (a : ℤ)) % 5 := by omega
      have h4 : (33 * (a : ℤ)) % 5 ≤ 4 := by omega
      have h1' : (1 : ℚ) ≤ (((33 * (a : ℤ)) % 5 : ℤ) : ℚ) := by exact_mod_cast h1
      have h4' : (((33 * (a : ℤ)) % 5 : ℤ) : ℚ) ≤ 4 := by exact_mod_cast h4
      rw [Int.floor_eq_iff]
      constructor
      · linarith
      · linarith
  have hfl0 : 0 ≤ ⌊X⌋ := Int.floor_nonneg.mpr h0
  have hw : doubleToInt X = ⌊X⌋ := by
    unfold doubleToInt
    rw [if_pos h0]
    apply wrapInt_of_range
    · omega
    · rcases hfl with h | ⟨_, h⟩ <;> omega
  rw [hw]
  exact ⟨rfl, hfl⟩

/-! ## Lemmas on traces -/

theorem emitAll_nil (s : State) : s.emitAll [] = s := by
  simp [State.emitAll]

theorem emit_eq_emitAll (s : State) (e : Event) : s.emit e = s.emitAll [e] := rfl

theorem emitAll_emitAll (s : State) (a b : List Event) :
    (s.emitAll a).emitAll b = s.emitAll (a ++ b) := by
  simp [State.emitAll, List.append_assoc]

theorem emitAll_m_strict_settings_sync_box (s : State) (l : List Event) :
    (s.emitAll l).m_strict_settings_sync_box = s.m_strict_settings_sync_box := rfl

theorem emitAll_m_current_game (s : State) (l : List Event) :
    (s.emitAll l).m_current_game = s.m_current_game := rfl

theorem emitAll_m_host_input_authority (s : State) (l : List Event) :
    (s.emitAll l).m_host_input_authority = s.m_host_input_authority := rfl

theorem emitAll_trace (s : State) (l : List Event) : (s.emitAll l).trace = s.trace ++ l := rfl

theorem GetConfigOptionWithSelectedGame_snd (env : Env) (s : State) (info : ConfigInfo) :
    ∃ new : List Event,
      (GetConfigOptionWithSelectedGame env s info).2 = s.emitAll new ∧
      new.countP Event.isAddLayer = new.countP Event.isRemoveLayer ∧
      ∀ e ∈ new, e.isAddLayer = true ∨ e.isRemoveLayer = true ∨ e = Event.Config_Get info := by
  unfold GetConfigOptionWithSelectedGame
  cases FindGameFile env s.m_current_game with
  | none =>
    exact ⟨[Event.Config_Get info], rfl, rfl, by simp⟩
  | some game =>
    refine ⟨[Event.Config_AddLayer
        ⟨LayerType.GlobalGame, game.GetGameID, game.GetRevision, some game.GetLongName⟩,
      Event.Config_AddLayer
        ⟨LayerType.LocalGame, game.GetGameID, game.GetRevision, some game.GetLongName⟩,
      Event.Config_Get info, Event.Config_RemoveLayer LayerType.GlobalGame,
      Event.Config_RemoveLayer LayerType.LocalGame], ?_, rfl, ?_⟩
    · simp only [emit_eq_emitAll, emitAll_emitAll, List.singleton_append, List.cons_append,
        List.nil_append]
    · intro e he
      simp only [List.mem_cons, List.mem_singleton, List.not_mem_nil, or_false] at he
      rcases he with h | h | h | h | h <;> simp [h, Event.isAddLayer, Event.isRemoveLayer]

theorem MeetsAutoBufferConditions_snd (env : Env) (s : State) :
    ∃ new : List Event,
      (MeetsAutoBufferConditions env s).2 = s.emitAll new ∧
      new.countP Event.isAddLayer = new.countP Event.isRemoveLayer ∧
      ∀ e ∈ new, e.isAddLayer = true ∨ e.isRemoveLayer = true ∨
        e = Event.Config_Get ConfigInfo.MAIN_POLL_ON_SIREAD := by
  unfold MeetsAutoBufferConditions
  cases FindGameFile env s.m_current_game with
  | none => exact ⟨[], (emitAll_nil s).symm, rfl, by simp⟩
  | some game =>
    by_cases hr : game.GetRegion ≠ Region.PAL
    · simp only [if_pos hr]
      exact GetConfigOptionWithSelectedGame_snd env s _
    · simp only [if_neg hr]
      exact ⟨[], (emitAll_nil s).symm, rfl, by simp⟩

theorem countP_isAddLayer_map_Get (l : List ConfigInfo) :
    (l.map Event.Config_Get).countP Event.isAddLayer = 0 := by
  induction l with
  | nil => rfl
  | cons a l ih => simp [List.countP_cons, Event.isAddLayer]

theorem countP_isRemoveLayer_map_Get (l : List ConfigInfo) :
    (l.map Event.Config_Get).countP Event.isRemoveLayer = 0 := by
  induction l with
  | nil => rfl
  | cons a l ih => simp [List.countP_cons, Event.isRemoveLayer]

theorem SetOptionsEnabled_trace (env : Env) (s : State) (enabled : Bool) :
    (SetOptionsEnabled env s enabled).trace = s.trace ++ [Event.enter_SetOptionsEnabled enabled] := by
  unfold SetOptionsEnabled
  cases env.GetNetPlayServer <;> rfl

theorem OnStart_send_trace (env : Env) (s : State) (game : GameFile) (server : NetPlayServer) :
    (OnStart_send env s game server).trace = s.trace ++
      ([Event.Config_AddLayer ⟨LayerType.GlobalGame, game.GetGameID, game.GetRevision, none⟩,
        Event.Config_AddLayer ⟨LayerType.LocalGame, game.GetGameID, game.GetRevision, none⟩] ++
       OnStart_reads.map Event.Config_Get ++
       [Event.Config_RemoveLayer LayerType.GlobalGame,
        Event.Config_RemoveLayer LayerType.LocalGame,
        Event.SetNetSettings (OnStart_settings
          (env.Config_Get [⟨LayerType.GlobalGame, game.GetGameID, game.GetRevision, none⟩,
            ⟨LayerType.LocalGame, game.GetGameID, game.GetRevision, none⟩]) s server),
        Event.RequestStartGame] ++
       if server.RequestStartGame = true then [Event.enter_SetOptionsEnabled false] else []) := by
  unfold OnStart_send
  cases server.RequestStartGame <;>
  simp only [SetOptionsEnabled_trace, State.emit, State.emitAll, List.append_assoc, if_true,
    if_false, Bool.false_eq_true, List.append_nil] <;> rfl

theorem OnStart_send_balanced (env : Env) (s : State) (game : GameFile) (server : NetPlayServer) :
    ∃ new : List Event, (OnStart_send env s game server).trace = s.trace ++ new ∧
      new.countP Event.isAddLayer = new.countP Event.isRemoveLayer := by
  refine ⟨_, OnStart_send_trace env s game server, ?_⟩
  cases server.RequestStartGame <;>
  simp only [List.countP_cons, List.countP_append, countP_isAddLayer_map_Get,
    countP_isRemoveLayer_map_Get, Event.isAddLayer, Event.isRemoveLayer, List.countP_nil,
    if_true, if_false, Bool.false_eq_true]

theorem OnStart_trace (env : Env) (s s' : State) (h : OnStart env s = some s') :
    ∃ new : List Event, s'.trace = s.trace ++ new ∧
      new.countP Event.isAddLayer = new.countP Event.isRemoveLayer := by
  unfold OnStart at h
  cases hc : env.GetNetPlayClient with
  | none => simp [hc] at h
  | some client =>
    cases hd : client.DoAllPlayersHaveGame <;> cases hq : env.question_answer <;>
    cases hst : s.m_strict_settings_sync_box.checked <;>
    by_cases he : env.Config_Get [] ConfigInfo.GFX_EFB_SCALE = 0 <;>
    cases hg : FindGameFile env s.m_current_game <;>
    cases hsv : env.GetNetPlayServer <;>
    simp only [hc, hd, hq, hst, he, hg, hsv, State.emit, and_self, and_true, and_false,
      true_and, false_and, if_true, if_false, reduceCtorEq, Bool.false_eq_true,
      List.append_assoc] at h <;>
    first
      | (cases h; done)
      | (cases h; exact ⟨_, rfl, rfl⟩)
      | (cases h
         rename_i game server
         obtain ⟨new, h1, h2⟩ := OnStart_send_balanced env _ game server
         rw [h1]
         try simp only [List.append_assoc]
         refine ⟨_, rfl, ?_⟩
         simpa [List.countP_cons, List.countP_append, Event.isAddLayer, Event.isRemoveLayer]
           using h2)

theorem OnStart_isSome (env : Env) (s : State) (hc : env.GetNetPlayClient.isSome = true)
    (hs : env.GetNetPlayServer.isSome = true) : ∃ s', OnStart env s = some s' := by
  unfold OnStart
  cases hc' : env.GetNetPlayClient with
  | none => simp [hc'] at hc
  | some client =>
    cases hs' : env.GetNetPlayServer with
    | none => simp [hs'] at hs
    | some server =>
      cases hd : client.DoAllPlayersHaveGame <;> cases hq : env.question_answer <;>
      cases hst : s.m_strict_settings_sync_box.checked <;>
      by_cases he : env.Config_Get [] ConfigInfo.GFX_EFB_SCALE = 0 <;>
      cases hg : FindGameFile env s.m_current_game <;>
      simp only [hd, hq, hst, he, hg, State.emit, and_self, and_true, and_false,
        true_and, false_and, if_true, if_false, reduceCtorEq, Bool.false_eq_true] <;>
      exact ⟨_, rfl⟩

theorem ScopedCall_run_trace (c : ScopedCall) (s s' : State) (h : c.run s = some s') :
    ∃ new : List Event, s'.trace = s.trace ++ new ∧
      new.countP Event.isAddLayer = new.countP Event.isRemoveLayer := by
  cases c with
  | GetConfigOptionWithSelectedGame env info =>
    obtain ⟨new, h1, h2, _⟩ := GetConfigOptionWithSelectedGame_snd env s info
    simp only [ScopedCall.run, Option.some.injEq] at h
    exact ⟨new, by rw [← h, h1]; rfl, h2⟩
  | OnStart env => exact OnStart_trace env s s' h

theorem runCalls_trace (calls : List ScopedCall) : ∀ (s s' : State), runCalls s calls = some s' →
    ∃ new : List Event, s'.trace = s.trace ++ new ∧
      new.countP Event.isAddLayer = new.countP Event.isRemoveLayer := by
  induction calls with
  | nil =>
    intro s s' h
    simp only [runCalls, Option.some.injEq] at h
    exact ⟨[], by simp [h], rfl⟩
  | cons c cs ih =>
    intro s s' h
    simp only [runCalls] at h
    cases hr : c.run s with
    | none => simp [hr] at h
    | some s1 =>
      simp only [hr] at h
      obtain ⟨n1, e1, b1⟩ := ScopedCall_run_trace c s s1 hr
      obtain ⟨n2, e2, b2⟩ := ih s1 s' h
      exact ⟨n1 ++ n2, by rw [e2, e1, List.append_assoc], by
        simp only [List.countP_append, b1, b2]⟩

theorem runCalls_isSome (calls : List ScopedCall) : ∀ (s : State),
    (∀ c ∈ calls, c.env.GetNetPlayClient.isSome = true ∧ c.env.GetNetPlayServer.isSome = true) →
    ∃ s', runCalls s calls = some s' := by
  induction calls with
  | nil => intro s _; exact ⟨s, rfl⟩
  | cons c cs ih =>
    intro s h
    have hc := h c (List.mem_cons_self c cs)
    have h1 : ∃ s1, c.run s = some s1 := by
      cases c with
      | GetConfigOptionWithSelectedGame env info => exact ⟨_, rfl⟩
      | OnStart env => exact OnStart_isSome env s hc.1 hc.2
    obtain ⟨s1, h1⟩ := h1
    obtain ⟨s', h2⟩ := ih s1 (fun c' hc' => h c' (List.mem_cons_of_mem c hc'))
    exact ⟨s', by simp only [runCalls, h1, h2]⟩

theorem filter_isStartCall_map_Get (l : List ConfigInfo) :
    (l.map Event.Config_Get).filter Event.isStartCall = [] := by
  induction l with
  | nil => rfl
  | cons a l ih => simp [List.filter_cons, Event.isStartCall]

theorem filter_isSetOptionsEnabled_map_Get (l : List ConfigInfo) :
    (l.map Event.Config_Get).filter Event.isSetOptionsEnabled = [] := by
  induction l with
  | nil => rfl
  | cons a l ih => simp [List.filter_cons, Event.isSetOptionsEnabled]

theorem OnStart_send_start_calls (env : Env) (s : State) (game : GameFile)
    (server : NetPlayServer) :
    ∃ new : List Event, (OnStart_send env s game server).trace = s.trace ++ new ∧
      (∃ settings, new.filter Event.isStartCall =
        [Event.SetNetSettings settings, Event.RequestStartGame]) ∧
      new.filter Event.isSetOptionsEnabled =
        if server.RequestStartGame = true then [Event.enter_SetOptionsEnabled false] else [] := by
  refine ⟨_, OnStart_send_trace env s game server, ⟨OnStart_settings
    (env.Config_Get [⟨LayerType.GlobalGame, game.GetGameID, game.GetRevision, none⟩,
      ⟨LayerType.LocalGame, game.GetGameID, game.GetRevision, none⟩]) s server, ?_⟩, ?_⟩
  · cases server.RequestStartGame <;>
    simp only [List.filter_cons, List.filter_append, filter_isStartCall_map_Get,
      Event.isStartCall, List.filter_nil, if_true, if_false, Bool.false_eq_true,
      List.append_nil, List.nil_append]
  · cases server.RequestStartGame <;>
    simp only [List.filter_cons, List.filter_append, filter_isSetOptionsEnabled_map_Get,
      Event.isSetOptionsEnabled, List.filter_nil, if_true, if_false, Bool.false_eq_true,
      List.append_nil, List.nil_append]

theorem OnStart_send_after (env : Env) (s : State) (pre : List Event) (game : GameFile)
    (server : NetPlayServer) (h1 : pre.filter Event.isStartCall = [])
    (h2 : pre.filter Event.isSetOptionsEnabled = []) :
    ∃ new : List Event, (OnStart_send env (s.emitAll pre) game server).trace = s.trace ++ new ∧
      (∃ settings, new.filter Event.isStartCall =
        [Event.SetNetSettings settings, Event.RequestStartGame]) ∧
      new.filter Event.isSetOptionsEnabled =
        if server.RequestStartGame = true then [Event.enter_SetOptionsEnabled false] else [] := by
  obtain ⟨new, e1, ⟨st, e2⟩, e3⟩ := OnStart_send_start_calls env (s.emitAll pre) game server
  refine ⟨pre ++ new, ?_, ⟨st, ?_⟩, ?_⟩
  · rw [e1, emitAll_trace, List.append_assoc]
  · rw [List.filter_append, h1, e2, List.nil_append]
  · rw [List.filter_append, h2, e3, List.nil_append]

theorem GetConfigOptionWithSelectedGame_fst_congr (env : Env) (s t : State) (info : ConfigInfo)
    (h : s.m_current_game = t.m_current_game) :
    (GetConfigOptionWithSelectedGame env s info).1 =
      (GetConfigOptionWithSelectedGame env t info).1 := by
  unfold GetConfigOptionWithSelectedGame
  rw [h]
  cases FindGameFile env t.m_current_game <;> rfl

theorem pollOnSIRead_congr (env : Env) (s t : State) (h : s.m_current_game = t.m_current_game) :
    pollOnSIRead env s = pollOnSIRead env t := by
  unfold pollOnSIRead
  rw [GetConfigOptionWithSelectedGame_fst_congr env s t _ h]

theorem subFrameMode_not_wholeFrameMode (s : State) (h : s.subFrameMode) : ¬s.wholeFrameMode := by
  intro hw
  have h1 := h.1
  have h2 := hw.1
  omega

theorem update_buffer_granularity_sub (env : Env) (s : State)
    (h : pollOnSIRead env s = true ∧ s.m_host_input_authority = false) :
    (update_buffer_granularity env s).subFrameMode := by
  obtain ⟨new, h1, _⟩ := GetConfigOptionWithSelectedGame_snd env s ConfigInfo.MAIN_POLL_ON_SIREAD
  unfold pollOnSIRead at h
  unfold update_buffer_granularity
  simp only [h1, emitAll_m_host_input_authority, h, and_self, if_true]
  exact ⟨rfl, rfl, rfl, rfl, rfl, rfl⟩

theorem update_buffer_granularity_whole (env : Env) (s : State)
    (h : ¬(pollOnSIRead env s = true ∧ s.m_host_input_authority = false)) :
    (update_buffer_granularity env s).wholeFrameMode := by
  obtain ⟨new, h1, _⟩ := GetConfigOptionWithSelectedGame_snd env s ConfigInfo.MAIN_POLL_ON_SIREAD
  unfold pollOnSIRead at h
  unfold update_buffer_granularity
  simp only [h1, emitAll_m_host_input_authority, if_neg h]
  exact ⟨rfl, rfl, rfl, rfl, rfl, rfl⟩

theorem update_buffer_granularity_iff (env : Env) (s : State) :
    ((update_buffer_granularity env s).subFrameMode ↔
      (pollOnSIRead env s = true ∧ s.m_host_input_authority = false)) ∧
    ((update_buffer_granularity env s).wholeFrameMode ↔
      ¬(pollOnSIRead env s = true ∧ s.m_host_input_authority = false)) := by
  by_cases h : pollOnSIRead env s = true ∧ s.m_host_input_authority = false
  · have hs := update_buffer_granularity_sub env s h
    exact ⟨⟨fun _ => h, fun _ => hs⟩,
      ⟨fun hw => absurd hw (subFrameMode_not_wholeFrameMode _ hs), fun hn => absurd h hn⟩⟩
  · have hw := update_buffer_granularity_whole env s h
    exact ⟨⟨fun hs => absurd hw (subFrameMode_not_wholeFrameMode _ hs), fun h' => absurd h' h⟩,
      ⟨fun _ => h, fun _ => hw⟩⟩

theorem update_buffer_granularity_frame (env : Env) (s : State) :
    (update_buffer_granularity env s).m_host_input_authority = s.m_host_input_authority ∧
    (update_buffer_granularity env s).m_current_game = s.m_current_game := by
  obtain ⟨new, h1, _⟩ := GetConfigOptionWithSelectedGame_snd env s ConfigInfo.MAIN_POLL_ON_SIREAD
  unfold update_buffer_granularity
  simp only [h1]
  split <;> exact ⟨rfl, rfl⟩

theorem countP_eq_zero_of_config (p : Event → Bool) (new : List Event) (info : ConfigInfo)
    (hadd : ∀ l, p (Event.Config_AddLayer l) = false)
    (hrem : ∀ l, p (Event.Config_RemoveLayer l) = false)
    (hget : p (Event.Config_Get info) = false)
    (h : ∀ e ∈ new, e.isAddLayer = true ∨ e.isRemoveLayer = true ∨ e = Event.Config_Get info) :
    new.countP p = 0 := by
  rw [List.countP_eq_zero]
  intro e he
  rcases h e he with h1 | h1 | h1
  · cases e <;> simp_all [Event.isAddLayer]
  · cases e <;> simp_all [Event.isRemoveLayer]
  · simp [h1, hget]

theorem finish_auto_buffer_spec (env : Env) (s : State) :
    ∃ new : List Event, (finish_auto_buffer env s).trace = s.trace ++ new ∧
      new.countP Event.isCalculate = 0 ∧ new.countP Event.isAdjustMinimum = 0 ∧
      (finish_auto_buffer env s).m_auto_buffer_samples = [] ∧
      (finish_auto_buffer env s).m_auto_buffer_sample_timer_active = false ∧
      (finish_auto_buffer env s).m_minimum_buffer_size_box.enabled = true ∧
      (finish_auto_buffer env s).m_minimum_buffer_size = s.m_minimum_buffer_size := by
  obtain ⟨new, h1, _, h3⟩ := MeetsAutoBufferConditions_snd env
    { s with m_auto_buffer_button := { s.m_auto_buffer_button with text := "Auto" } }
  refine ⟨new, ?_, ?_, ?_, ?_, ?_, ?_, ?_⟩
  · unfold finish_auto_buffer
    simp only [h1, State.emitAll]
  · exact countP_eq_zero_of_config _ new _ (fun _ => rfl) (fun _ => rfl) rfl h3
  · exact countP_eq_zero_of_config _ new _ (fun _ => rfl) (fun _ => rfl) rfl h3
  · unfold finish_auto_buffer
    simp only [h1, State.emitAll]
  · unfold finish_auto_buffer
    simp only [h1, State.emitAll]
  · unfold finish_auto_buffer
    simp only [h1, State.emitAll]
  · unfold finish_auto_buffer
    simp only [h1, State.emitAll]

theorem finish_auto_buffer_after (env : Env) (s t : State) (pre : List Event)
    (h1 : t.trace = s.trace ++ pre) (h2 : pre.countP Event.isAdjustMinimum = 0)
    (h3 : t.m_minimum_buffer_size = s.m_minimum_buffer_size) :
    ∃ (s' : State) (new : List Event), some (finish_auto_buffer env t) = some s' ∧
      s'.trace = s.trace ++ new ∧ new.countP Event.isAdjustMinimum = 0 ∧
      s'.m_minimum_buffer_size = s.m_minimum_buffer_size := by
  obtain ⟨new, a, _, c, _, _, _, d⟩ := finish_auto_buffer_spec env t
  refine ⟨_, pre ++ new, rfl, ?_, ?_, ?_⟩
  · rw [a, h1, List.append_assoc]
  · rw [List.countP_append, h2, c]
  · rw [d, h3]

theorem average_ping_eq (r0 r1 r2 : NetRoute) (h0 : r0.ping < 2 ^ 28) (h1 : r1.ping < 2 ^ 28)
    (h2 : r2.ping < 2 ^ 28) :
    wrapInt (Int.tdiv ([r0, r1, r2].foldl (fun a r => wrapInt (a + r.ping)) 0)
      (wrapInt ([r0, r1, r2].length : ℕ))) = ((r0.ping + r1.ping + r2.ping) / 3 : ℕ) := by
  have e0 : wrapInt (0 + (r0.ping : ℤ)) = r0.ping := by
    rw [zero_add]
    exact wrapInt_of_range _ (by omega) (by omega)
  have e1 : wrapInt ((r0.ping : ℤ) + r1.ping) = r0.ping + r1.ping :=
    wrapInt_of_range _ (by omega) (by omega)
  have e2 : wrapInt ((r0.ping : ℤ) + r1.ping + r2.ping) = r0.ping + r1.ping + r2.ping :=
    wrapInt_of_range _ (by omega) (by omega)
  have e3 : wrapInt ((3 : ℕ) : ℤ) = 3 := wrapInt_of_range _ (by omega) (by omega)
  have e4 : Int.tdiv ((r0.ping : ℤ) + r1.ping + r2.ping) 3 =
      ((r0.ping : ℤ) + r1.ping + r2.ping) / 3 :=
    Int.tdiv_eq_ediv (by omega) (by omega)
  have e5 : (((r0.ping + r1.ping + r2.ping) / 3 : ℕ) : ℤ) =
      ((r0.ping : ℤ) + r1.ping + r2.ping) / 3 := by
    push_cast
    rfl
  have e6 : ([r0, r1, r2].length : ℕ) = 3 := rfl
  rw [e6, e3, List.foldl_cons, List.foldl_cons, List.foldl_cons, List.foldl_nil]
  rw [e0, e1, e2, e4, e5]
  apply wrapInt_of_range <;> omega

theorem sample_difference_eq (r0 r1 r2 : NetRoute) (h0 : r0.ping < 2 ^ 28)
    (h1 : r1.ping < 2 ^ 28) (h2 : r2.ping < 2 ^ 28) :
    absInt (([r0, r1, r2].drop 1).foldl (fun d r => wrapInt (d - r.ping))
      (wrapInt (wrapInt r0.ping * wrapInt ([r0, r1, r2].length : ℕ)))) =
      |3 * (r0.ping : ℤ) - r1.ping - r2.ping| := by
  have e0 : wrapInt (r0.ping : ℤ) = r0.ping := wrapInt_of_range _ (by omega) (by omega)
  have e3 : wrapInt ((3 : ℕ) : ℤ) = 3 := wrapInt_of_range _ (by omega) (by omega)
  have e6 : ([r0, r1, r2].length : ℕ) = 3 := rfl
  have e7 : wrapInt ((r0.ping : ℤ) * 3) = r0.ping * 3 :=
    wrapInt_of_range _ (by omega) (by omega)
  have e8 : wrapInt ((r0.ping : ℤ) * 3 - r1.ping) = r0.ping * 3 - r1.ping :=
    wrapInt_of_range _ (by omega) (by omega)
  have e9 : wrapInt ((r0.ping : ℤ) * 3 - r1.ping - r2.ping) = r0.ping * 3 - r1.ping - r2.ping :=
    wrapInt_of_range _ (by omega) (by omega)
  rw [e6, e3, e0, e7, List.drop_succ_cons, List.drop_zero, List.foldl_cons, List.foldl_cons,
    List.foldl_nil, e8, e9]
  unfold absInt
  rw [wrapInt_of_range _ (by split <;> omega) (by split <;> omega)]
  rw [show 3 * (r0.ping : ℤ) = r0.ping * 3 from by ring]
  split
  · rename_i h
    rw [abs_of_neg h]
  · rename_i h
    rw [abs_of_nonneg (by omega)]

theorem CalculateBufferFromSamples_three (env : Env) (s : State) (r0 r1 r2 : NetRoute)
    (h0 : r0.ping < 2 ^ 28) (h1 : r1.ping < 2 ^ 28) (h2 : r2.ping < 2 ^ 28) :
    CalculateBufferFromSamples env s [r0, r1, r2] =
      if |3 * (r0.ping : ℤ) - r1.ping - r2.ping| < 100 then
        match env.GetNetPlayServer with
        | none => none
        | some _ => some (true, s.emitAll
            [Event.enter_CalculateBufferFromSamples [r0, r1, r2],
             Event.DisplayMessage "Average ping out of 3 samples was %1 ms"
               [MsgArg.int (((r0.ping + r1.ping + r2.ping) / 3 : ℕ) : ℤ)] "green",
             Event.AdjustMinimumPadBufferSize (doubleToInt (fmul (fdiv
               (fmul (((r0.ping + r1.ping + r2.ping) / 3 : ℕ) : ℚ) double_1_1)
               (fdiv 1000 60)) 100))])
      else some (false, s.emitAll [Event.enter_CalculateBufferFromSamples [r0, r1, r2]]) := by
  unfold CalculateBufferFromSamples
  simp only []
  rw [sample_difference_eq r0 r1 r2 h0 h1 h2, average_ping_eq r0 r1 r2 h0 h1 h2]
  simp only [DisplayMessage, emit_eq_emitAll, emitAll_emitAll, List.singleton_append,
    List.cons_append, List.nil_append, Int.cast_natCast]

theorem filter_eq_nil_of_config (p : Event → Bool) (new : List Event) (info : ConfigInfo)
    (hadd : ∀ l, p (Event.Config_AddLayer l) = false)
    (hrem : ∀ l, p (Event.Config_RemoveLayer l) = false)
    (hget : p (Event.Config_Get info) = false)
    (h : ∀ e ∈ new, e.isAddLayer = true ∨ e.isRemoveLayer = true ∨ e = Event.Config_Get info) :
    new.filter p = [] := by
  rw [List.filter_eq_nil_iff]
  intro e he
  rcases h e he with h1 | h1 | h1
  · cases e <;> simp_all [Event.isAddLayer]
  · cases e <;> simp_all [Event.isRemoveLayer]
  · simp [h1, hget]

theorem doubleToInt_natCast (n : ℕ) (h : n < 2 ^ 31) : doubleToInt (n : ℚ) = n := by
  unfold doubleToInt
  rw [if_pos (by positivity), Int.floor_natCast]
  exact wrapInt_of_range _ (by omega) (by omega)

theorem fmul_quarter (k : ℕ) (hk : k ≤ 40000) :
    fmul ((k : ℚ) / 4) 100 = ((25 * k : ℕ) : ℚ) := by
  unfold fmul
  rw [show (k : ℚ) / 4 * 100 = ((25 * k : ℕ) : ℚ) from by push_cast; ring]
  exact toBinary64_natCast _ (by omega)

theorem doubleToInt_quarter (k : ℕ) (hk : k ≤ 40000) :
    doubleToInt ((k : ℚ) / 4) = ((k / 4 : ℕ) : ℤ) := by
  unfold doubleToInt
  rw [if_pos (by positivity)]
  have hfl : ⌊(k : ℚ) / 4⌋ = ((k / 4 : ℕ) : ℤ) := by
    rw [Int.floor_eq_iff]
    have h1 : k = 4 * (k / 4) + k % 4 := (Nat.div_add_mod k 4).symm
    have h2 : k % 4 < 4 := Nat.mod_lt _ (by norm_num)
    have h1' : (k : ℚ) = 4 * ((k / 4 : ℕ) : ℚ) + ((k % 4 : ℕ) : ℚ) := by exact_mod_cast h1
    have h2' : ((k % 4 : ℕ) : ℚ) < 4 := by exact_mod_cast h2
    have h3' : (0 : ℚ) ≤ ((k % 4 : ℕ) : ℚ) := by positivity
    simp only [Int.cast_natCast]
    constructor <;> linarith
  rw [hfl]
  exact wrapInt_of_range _ (by omega) (by omega)

theorem fdiv_hundredths (k : ℕ) (hk : k ≤ 40000) :
    fdiv ((25 * k : ℕ) : ℚ) 100 = (k : ℚ) / 4 := by
  unfold fdiv
  have h := toBinary64_dyadic (k : ℤ) (-2) (by
    rw [abs_of_nonneg (by positivity)]
    have : (k : ℤ) ≤ 40000 := by exact_mod_cast hk
    omega)
  have e : ((25 * k : ℕ) : ℚ) / 100 = ((k : ℤ) : ℚ) * 2 ^ (-2 : ℤ) := by
    push_cast
    rw [zpow_neg]
    norm_num
    ring
  rw [e, h]
  push_cast
  rw [zpow_neg]
  norm_num
  ring

theorem CalculateBufferFromSamples_isSome (env : Env) (s : State) (samples : List NetRoute)
    (hne : samples ≠ []) (hsv : env.GetNetPlayServer.isSome = true) :
    ∃ b t, CalculateBufferFromSamples env s samples = some (b, t) := by
  unfold CalculateBufferFromSamples
  cases samples with
  | nil => exact absurd rfl hne
  | cons first rest =>
    simp only []
    split
    · cases hsv' : env.GetNetPlayServer with
      | none => simp [hsv'] at hsv
      | some srv => exact ⟨_, _, rfl⟩
    · exact ⟨_, _, rfl⟩

theorem runStopCalls_after_stop (calls : List StopCall) (s : State)
    (hc : ∀ c ∈ calls, c.hasClient = true) (hflag : s.m_got_stop_request = true) :
    ∃ (s' : State) (new : List Event), runStopCalls s calls = some s' ∧
      s'.trace = s.trace ++ new ∧ new.countP Event.isRequestStopGame = 0 := by
  induction calls generalizing s with
  | nil => exact ⟨s, [], rfl, by simp, rfl⟩
  | cons c cs ih =>
    have hcs : ∀ c ∈ cs, c.hasClient = true := fun c h => hc c (List.mem_cons_of_mem _ h)
    cases c with
    | StopGame =>
      have e : StopCall.run s StopCall.StopGame = some s := by
        simp only [StopCall.run, StopGame, hflag, if_true]
      simp only [runStopCalls, e]
      exact ih s hcs hflag
    | GameStatusChanged env running =>
      have e : StopCall.run s (StopCall.GameStatusChanged env running) =
          some (s.enqueue (Queued.GameStatusChanged running)) := by
        simp only [StopCall.run, GameStatusChanged, hflag, Bool.true_eq_false, and_false,
          if_false, Option.map_some']
      simp only [runStopCalls, e]
      exact ih _ hcs hflag

theorem runStopCalls_before_stop (calls : List StopCall) (s : State)
    (hc : ∀ c ∈ calls, c.hasClient = true) (hflag : s.m_got_stop_request = false) :
    ∃ (s' : State) (new : List Event), runStopCalls s calls = some s' ∧
      s'.trace = s.trace ++ new ∧
      new.countP Event.isRequestStopGame = stopsBeforeStopGame calls := by
  induction calls generalizing s with
  | nil => exact ⟨s, [], rfl, by simp, rfl⟩
  | cons c cs ih =>
    have hcs : ∀ c ∈ cs, c.hasClient = true := fun c h => hc c (List.mem_cons_of_mem _ h)
    cases c with
    | StopGame =>
      have e : StopCall.run s StopCall.StopGame =
          some ({ s with m_got_stop_request := true }.emit Event.Stop) := by
        simp only [StopCall.run, StopGame, hflag, Bool.false_eq_true, if_false]
      simp only [runStopCalls, e, stopsBeforeStopGame]
      obtain ⟨s', new, h1, h2, h3⟩ := runStopCalls_after_stop cs
        ({ s with m_got_stop_request := true }.emit Event.Stop) hcs rfl
      refine ⟨s', Event.Stop :: new, h1, ?_, ?_⟩
      · rw [h2]
        simp [State.emit]
      · simp only [List.countP_cons, h3, Event.isRequestStopGame, Bool.false_eq_true, if_false]
    | GameStatusChanged env running =>
      have hcl := hc (StopCall.GameStatusChanged env running) (List.mem_cons_self _ _)
      simp only [StopCall.hasClient] at hcl
      cases hcv : env.GetNetPlayClient with
      | none => simp [hcv] at hcl
      | some client =>
        cases running with
        | true =>
          have e : StopCall.run s (StopCall.GameStatusChanged env true) =
              some (s.enqueue (Queued.GameStatusChanged true)) := by
            simp only [StopCall.run, GameStatusChanged, Bool.true_eq_false, false_and, if_false,
              Option.map_some']
          simp only [runStopCalls, e, stopsBeforeStopGame, Bool.true_eq_false, if_false,
            zero_add]
          exact ih _ hcs hflag
        | false =>
          have e : StopCall.run s (StopCall.GameStatusChanged env false) =
              some ((s.emit Event.RequestStopGame).enqueue (Queued.GameStatusChanged false)) := by
            simp only [StopCall.run, GameStatusChanged, hflag, and_self, if_true, hcv,
              Option.map_some']
          simp only [runStopCalls, e, stopsBeforeStopGame, if_true]
          obtain ⟨s', new, h1, h2, h3⟩ := ih
            ((s.emit Event.RequestStopGame).enqueue (Queued.GameStatusChanged false)) hcs hflag
          refine ⟨s', Event.RequestStopGame :: new, h1, ?_, ?_⟩
          · rw [h2]
            simp [State.emit, State.enqueue]
          · simp only [List.countP_cons, h3, Event.isRequestStopGame, if_true]
            omega

theorem GetConfigOptionWithSelectedGame_events (env : Env) (s : State) (info : ConfigInfo) :
    (GetConfigOptionWithSelectedGame env s info).2 = s.emitAll
      (match FindGameFile env s.m_current_game with
       | some game =>
         [Event.Config_AddLayer
            ⟨LayerType.GlobalGame, game.GetGameID, game.GetRevision, some game.GetLongName⟩,
          Event.Config_AddLayer
            ⟨LayerType.LocalGame, game.GetGameID, game.GetRevision, some game.GetLongName⟩,
          Event.Config_Get info,
          Event.Config_RemoveLayer LayerType.GlobalGame,
          Event.Config_RemoveLayer LayerType.LocalGame]
       | none => [Event.Config_Get info]) := by
  unfold GetConfigOptionWithSelectedGame
  cases FindGameFile env s.m_current_game with
  | none => rfl
  | some game => simp [State.emit, State.emitAll]

theorem filter_isLayerCall_map_Get (l : List ConfigInfo) :
    (l.map Event.Config_Get).filter Event.isLayerCall = [] := by
  induction l with
  | nil => rfl
  | cons a l ih =>
    simp [List.filter_cons, Event.isLayerCall, Event.isAddLayer, Event.isRemoveLayer]

theorem removedLayers_filter (tr : List Event) :
    removedLayers tr = removedLayers (tr.filter Event.isLayerCall) := by
  unfold removedLayers
  induction tr with
  | nil => rfl
  | cons e tr ih =>
    cases e <;>
    simp only [List.filterMap_cons, List.filter_cons, Event.isLayerCall, Event.isAddLayer,
      Event.isRemoveLayer, Bool.or_false, Bool.or_true, Bool.or_self, if_true, if_false,
      Bool.false_eq_true, ih]

theorem addedLayers_filter (tr : List Event) :
    addedLayers tr = addedLayers (tr.filter Event.isLayerCall) := by
  unfold addedLayers
  induction tr with
  | nil => rfl
  | cons e tr ih =>
    cases e <;>
    simp only [List.filterMap_cons, List.filter_cons, Event.isLayerCall, Event.isAddLayer,
      Event.isRemoveLayer, Bool.or_false, Bool.or_true, Bool.or_self, if_true, if_false,
      Bool.false_eq_true, ih]

theorem GetConfigOptionWithSelectedGame_fst (env : Env) (s : State) (info : ConfigInfo) :
    (GetConfigOptionWithSelectedGame env s info).1 =
      match FindGameFile env s.m_current_game with
      | some game =>
        env.Config_Get
          [⟨LayerType.GlobalGame, game.GetGameID, game.GetRevision, some game.GetLongName⟩,
           ⟨LayerType.LocalGame, game.GetGameID, game.GetRevision, some game.GetLongName⟩] info
      | none => env.Config_Get [] info := by
  unfold GetConfigOptionWithSelectedGame
  cases FindGameFile env s.m_current_game <;> rfl

theorem MeetsAutoBufferConditions_fst (env : Env) (s : State) :
    (MeetsAutoBufferConditions env s).1 =
      match FindGameFile env s.m_current_game with
      | some game =>
        decide (game.GetRegion ≠ Region.PAL) &&
          (env.Config_Get
            [⟨LayerType.GlobalGame, game.GetGameID, game.GetRevision, some game.GetLongName⟩,
             ⟨LayerType.LocalGame, game.GetGameID, game.GetRevision, some game.GetLongName⟩]
            ConfigInfo.MAIN_POLL_ON_SIREAD).toBool
      | none => false := by
  unfold MeetsAutoBufferConditions
  cases hg : FindGameFile env s.m_current_game with
  | none => rfl
  | some game =>
    by_cases hr : game.GetRegion ≠ Region.PAL
    · simp only [if_pos hr, GetConfigOptionWithSelectedGame_fst, hg, decide_eq_true hr,
        Bool.true_and]
    · simp only [if_neg hr, decide_eq_false hr, Bool.false_and]

theorem MeetsAutoBufferConditions_fst_congr (env : Env) (s t : State)
    (h : s.m_current_game = t.m_current_game) :
    (MeetsAutoBufferConditions env s).1 = (MeetsAutoBufferConditions env t).1 := by
  rw [MeetsAutoBufferConditions_fst, MeetsAutoBufferConditions_fst, h]

theorem update_buffer_granularity_keeps (env : Env) (s : State) :
    ∃ new : List Event,
      (update_buffer_granularity env s).trace = s.trace ++ new ∧
      (∀ e ∈ new, e.isAddLayer = true ∨ e.isRemoveLayer = true ∨
        e = Event.Config_Get ConfigInfo.MAIN_POLL_ON_SIREAD) ∧
      (update_buffer_granularity env s).m_auto_buffer_samples = s.m_auto_buffer_samples ∧
      (update_buffer_granularity env s).m_auto_buffer_sample_timer_active =
        s.m_auto_buffer_sample_timer_active ∧
      (update_buffer_granularity env s).m_game_button = s.m_game_button := by
  obtain ⟨new, h1, _, h3⟩ :=
    GetConfigOptionWithSelectedGame_snd env s ConfigInfo.MAIN_POLL_ON_SIREAD
  refine ⟨new, ?_, h3, ?_, ?_, ?_⟩ <;>
  · unfold update_buffer_granularity
    simp only [h1]
    split <;> rfl

set_option maxHeartbeats 1000000 in
theorem OnMsgChangeGame_queued_spec (env : Env) (s : State) (title : String)
    (hc : env.GetNetPlayClient.isSome = true) :
    ∃ (s' : State) (new : List Event), OnMsgChangeGame_queued env s title = some s' ∧
      s'.m_current_game = title ∧ s'.m_game_button.text = title ∧
      s'.m_host_input_authority = s.m_host_input_authority ∧
      s'.m_auto_buffer_button.enabled =
        (MeetsAutoBufferConditions env { s with m_current_game := title }).1 ∧
      s'.m_auto_buffer_samples = s.m_auto_buffer_samples ∧
      s'.m_auto_buffer_sample_timer_active = s.m_auto_buffer_sample_timer_active ∧
      s'.trace = s.trace ++ new ∧
      new.filter Event.isAdjustLocal =
        [Event.AdjustLocalPadBufferSize
          (if pollOnSIRead env { s with m_current_game := title } = true then 150 else 6)] ∧
      new.filter Event.isAdjustMinimum =
        if env.GetNetPlayServer.isSome = true then [Event.AdjustMinimumPadBufferSize 0]
        else [] := by
  cases hcv : env.GetNetPlayClient with
  | none => simp [hcv] at hc
  | some client =>
    have hf := update_buffer_granularity_frame env
      (State.emit { s with
        m_game_button := { s.m_game_button with text := title }
        m_current_game := title } Event.UpdateDiscordPresence)
    obtain ⟨n0, k1, k2, k3, k4, k5⟩ := update_buffer_granularity_keeps env
      (State.emit { s with
        m_game_button := { s.m_game_button with text := title }
        m_current_game := title } Event.UpdateDiscordPresence)
    generalize hu : update_buffer_granularity env
      (State.emit { s with
        m_game_button := { s.m_game_button with text := title }
        m_current_game := title } Event.UpdateDiscordPresence) = u at hf k1 k3 k4 k5
    have hm : (MeetsAutoBufferConditions env u).1 =
        (MeetsAutoBufferConditions env { s with m_current_game := title }).1 :=
      MeetsAutoBufferConditions_fst_congr env u _ hf.2
    obtain ⟨n1, e1, _, m1⟩ := MeetsAutoBufferConditions_snd env u
    have hp : (GetConfigOptionWithSelectedGame env
        { (u.emitAll n1) with m_auto_buffer_button :=
          { (u.emitAll n1).m_auto_buffer_button with
            enabled := (MeetsAutoBufferConditions env u).1 } }
        ConfigInfo.MAIN_POLL_ON_SIREAD).1.toBool =
        pollOnSIRead env { s with m_current_game := title } := by
      unfold pollOnSIRead
      exact congrArg ConfigValue.toBool
        (GetConfigOptionWithSelectedGame_fst_congr env _ _ _ hf.2)
    obtain ⟨n2, e2, _, m2⟩ := GetConfigOptionWithSelectedGame_snd env
      { (u.emitAll n1) with m_auto_buffer_button :=
        { (u.emitAll n1).m_auto_buffer_button with
          enabled := (MeetsAutoBufferConditions env u).1 } }
      ConfigInfo.MAIN_POLL_ON_SIREAD
    have f0 : ∀ p : Event → Bool, (∀ l, p (Event.Config_AddLayer l) = false) →
        (∀ l, p (Event.Config_RemoveLayer l) = false) →
        (∀ i, p (Event.Config_Get i) = false) → p Event.UpdateDiscordPresence = false →
        (Event.UpdateDiscordPresence :: (n0 ++ (n1 ++ n2))).filter p = [] := by
      intro p ha hr hg hd
      rw [List.filter_cons, hd, List.filter_append, List.filter_append,
        filter_eq_nil_of_config p n0 _ ha hr (hg _) k2,
        filter_eq_nil_of_config p n1 _ ha hr (hg _) m1,
        filter_eq_nil_of_config p n2 _ ha hr (hg _) m2]
      rfl
    have fl := f0 Event.isAdjustLocal (fun _ => rfl) (fun _ => rfl) (fun _ => rfl) rfl
    have fm := f0 Event.isAdjustMinimum (fun _ => rfl) (fun _ => rfl) (fun _ => rfl) rfl
    unfold OnMsgChangeGame_queued
    simp only [hu, e1, e2, hcv, hp]
    have hgb : u.m_game_button.text = title := by
      rw [k5]
      rfl
    have hk3 : u.m_auto_buffer_samples = s.m_auto_buffer_samples := k3
    have hk4 : u.m_auto_buffer_sample_timer_active = s.m_auto_buffer_sample_timer_active := k4
    have hk1 : u.trace = s.trace ++ Event.UpdateDiscordPresence :: n0 := by
      rw [k1]
      simp only [State.emit, List.append_assoc, List.singleton_append]
    have hcg : u.m_current_game = title := hf.2
    have hh : u.m_host_input_authority = s.m_host_input_authority := hf.1
    clear hf k1 k3 k4 k5 hu e1 e2 hp
    cases env.GetNetPlayServer with
    | none =>
      simp only [Option.isSome_none, Bool.false_eq_true, if_false]
      refine ⟨_, Event.UpdateDiscordPresence :: (n0 ++ (n1 ++ n2)) ++
        [Event.AdjustLocalPadBufferSize
          (if pollOnSIRead env { s with m_current_game := title } = true then 150 else 6)],
        rfl, ?_, ?_, ?_, ?_, ?_, ?_, ?_, ?_, ?_⟩
      · exact hcg
      · exact hgb
      · exact hh
      · exact hm
      · exact hk3
      · exact hk4
      · simp only [State.emit, State.emitAll, hk1, List.append_assoc, List.singleton_append,
          List.cons_append, List.nil_append]
      · rw [List.filter_append, fl]
        rfl
      · rw [List.filter_append, fm]
        rfl
    | some server =>
      simp only [Option.isSome_some, if_true]
      refine ⟨_, Event.UpdateDiscordPresence :: (n0 ++ (n1 ++ n2)) ++
        [Event.AdjustLocalPadBufferSize
          (if pollOnSIRead env { s with m_current_game := title } = true then 150 else 6),
         Event.AdjustMinimumPadBufferSize 0],
        rfl, ?_, ?_, ?_, ?_, ?_, ?_, ?_, ?_, ?_⟩
      · exact hcg
      · exact hgb
      · exact hh
      · exact hm
      · exact hk3
      · exact hk4
      · simp only [State.emit, State.emitAll, hk1, List.append_assoc, List.singleton_append,
          List.cons_append, List.nil_append]
      · rw [List.filter_append, fl]
        rfl
      · rw [List.filter_append, fm]
        rfl

theorem accepts_three (env : Env) (s : State) (r0 r1 r2 : NetRoute)
    (hs : env.GetNetPlayServer.isSome = true)
    (h0 : r0.ping < 2 ^ 28) (h1 : r1.ping < 2 ^ 28) (h2 : r2.ping < 2 ^ 28) :
    accepts env s [r0, r1, r2] = true ↔ |3 * (r0.ping : ℤ) - r1.ping - r2.ping| < 100 := by
  unfold accepts
  rw [CalculateBufferFromSamples_three env s r0 r1 r2 h0 h1 h2]
  cases hsv : env.GetNetPlayServer with
  | none => simp [hsv] at hs
  | some server =>
    by_cases h : |3 * (r0.ping : ℤ) - r1.ping - r2.ping| < 100
    · rw [if_pos h]
      simp only [Option.map_some', beq_self_eq_true, true_iff]
      exact h
    · rw [if_neg h]
      simp only [Option.map_some']
      exact ⟨fun h' => absurd h' (by decide), fun h' => absurd h' h⟩

theorem CalculateBufferFromSamples_events (env : Env) (s t : State) (samples : List NetRoute)
    (b : Bool) (h : CalculateBufferFromSamples env s samples = some (b, t)) :
    ∃ rest : List Event,
      t = s.emitAll (Event.enter_CalculateBufferFromSamples samples :: rest) ∧
      rest.countP Event.isCalculate = 0 := by
  unfold CalculateBufferFromSamples at h
  cases samples with
  | nil => simp at h
  | cons first rest =>
    simp only [] at h
    split at h
    · cases hsv : env.GetNetPlayServer with
      | none => simp [hsv] at h
      | some srv =>
        simp only [hsv, Option.some.injEq, Prod.mk.injEq] at h
        obtain ⟨_, hs'⟩ := h
        subst hs'
        simp only [DisplayMessage, emit_eq_emitAll, emitAll_emitAll, List.cons_append,
          List.nil_append]
        exact ⟨_, rfl, rfl⟩
    · simp only [Option.some.injEq, Prod.mk.injEq] at h
      obtain ⟨_, hs'⟩ := h
      subst hs'
      exact ⟨[], rfl, rfl⟩

theorem not_mem_of_countP_isCalculate (new : List Event) (l : List NetRoute)
    (h : new.countP Event.isCalculate = 0) :
    Event.enter_CalculateBufferFromSamples l ∉ new := by
  intro hmem
  rw [List.countP_eq_zero] at h
  exact h _ hmem rfl

theorem SampleAutoBuffer_step (env : Env) (s s' : State)
    (hlen : s.m_auto_buffer_samples.length ≤ 2) (h : SampleAutoBuffer env s = some s') :
    s'.m_auto_buffer_samples.length ≤ 2 ∧
    ∃ new : List Event, s'.trace = s.trace ++ new ∧
      ∀ l, Event.enter_CalculateBufferFromSamples l ∈ new → l.length = 3 := by
  unfold SampleAutoBuffer at h
  cases hsv : env.GetNetPlayServer with
  | none => simp [hsv] at h
  | some server =>
    rw [hsv] at h
    simp only [] at h
    by_cases hnull : server.FindLongestRoute.from_ = none ∨ server.FindLongestRoute.to_ = none
    · rw [if_pos hnull] at h
      cases h
      obtain ⟨new, h1, h2, _, h4, _⟩ := finish_auto_buffer_spec env
        (DisplayMessage
          { s with
            m_auto_buffer_samples := s.m_auto_buffer_samples ++ [server.FindLongestRoute]
            m_auto_buffer_button := { s.m_auto_buffer_button with
              text := auto_button_countdown
                (s.m_auto_buffer_samples ++ [server.FindLongestRoute]).length } }
          "Unable to calculate auto buffer (at least 2 players are required)" [] "red")
      refine ⟨by rw [h4]; exact Nat.zero_le _,
        Event.DisplayMessage "Unable to calculate auto buffer (at least 2 players are required)"
          [] "red" :: new, ?_, ?_⟩
      · rw [h1]
        simp only [DisplayMessage, State.emit, List.append_assoc, List.singleton_append]
      · intro l hl
        rcases List.mem_cons.mp hl with hl | hl
        · cases hl
        · exact absurd hl (not_mem_of_countP_isCalculate new l h2)
    · rw [if_neg hnull] at h
      by_cases hge : (s.m_auto_buffer_samples ++ [server.FindLongestRoute]).length ≥
          m_auto_buffer_sample_amount
      · rw [if_pos hge] at h
        have hl3 : (s.m_auto_buffer_samples ++ [server.FindLongestRoute]).length = 3 := by
          have h3 : 3 ≤ (s.m_auto_buffer_samples ++ [server.FindLongestRoute]).length := hge
          rw [List.length_append, List.length_singleton] at h3 ⊢
          omega
        generalize hd : (DisplayMessage
          { s with
            m_auto_buffer_samples := s.m_auto_buffer_samples ++ [server.FindLongestRoute]
            m_auto_buffer_button := { s.m_auto_buffer_button with
              text := auto_button_countdown
                (s.m_auto_buffer_samples ++ [server.FindLongestRoute]).length } }
          "Sample %1/%2 - %3 → Server → %4 at %5 ms"
          [MsgArg.int (s.m_auto_buffer_samples ++ [server.FindLongestRoute]).length,
           MsgArg.int m_auto_buffer_sample_amount,
           MsgArg.str ((server.FindLongestRoute.from_.map Player.name).getD ""),
           MsgArg.str ((server.FindLongestRoute.to_.map Player.name).getD ""),
           MsgArg.int server.FindLongestRoute.ping] "green") = d at h
        have hdt : ∃ e, d.trace = s.trace ++ [e] ∧ e.isCalculate = false := by
          rw [← hd]
          exact ⟨Event.DisplayMessage "Sample %1/%2 - %3 → Server → %4 at %5 ms"
            [MsgArg.int (s.m_auto_buffer_samples ++ [server.FindLongestRoute]).length,
             MsgArg.int m_auto_buffer_sample_amount,
             MsgArg.str ((server.FindLongestRoute.from_.map Player.name).getD ""),
             MsgArg.str ((server.FindLongestRoute.to_.map Player.name).getD ""),
             MsgArg.int server.FindLongestRoute.ping] "green", rfl, rfl⟩
        obtain ⟨e0, hdt, he0⟩ := hdt
        cases hcalc : CalculateBufferFromSamples env d
            (s.m_auto_buffer_samples ++ [server.FindLongestRoute]) with
        | none => simp [hcalc] at h
        | some r =>
          obtain ⟨b, t⟩ := r
          obtain ⟨rest, ht, hrest⟩ := CalculateBufferFromSamples_events env d t _ b hcalc
          rw [hcalc] at h
          cases b with
          | true =>
            simp only [Option.some.injEq] at h
            subst h
            obtain ⟨new, h1, h2, _, h4, _⟩ := finish_auto_buffer_spec env t
            refine ⟨by rw [h4]; exact Nat.zero_le _,
              e0 :: Event.enter_CalculateBufferFromSamples
                (s.m_auto_buffer_samples ++ [server.FindLongestRoute]) :: (rest ++ new), ?_, ?_⟩
            · rw [h1, ht, emitAll_trace, hdt]
              simp only [List.append_assoc, List.singleton_append, List.cons_append,
                List.nil_append]
            · intro l hl
              rcases List.mem_cons.mp hl with hl | hl
              · subst hl
                simp [Event.isCalculate] at he0
              · rcases List.mem_cons.mp hl with hl | hl
                · cases hl
                  exact hl3
                · rcases List.mem_append.mp hl with hl | hl
                  · exact absurd hl (not_mem_of_countP_isCalculate rest l hrest)
                  · exact absurd hl (not_mem_of_countP_isCalculate new l h2)
          | false =>
            simp only [Option.some.injEq] at h
            subst h
            obtain ⟨new, h1, h2, _, h4, _⟩ := finish_auto_buffer_spec env
              (DisplayMessage t
                "Unable to calculate auto buffer because the ping times were too unstable."
                [] "red")
            refine ⟨by rw [h4]; exact Nat.zero_le _,
              e0 :: Event.enter_CalculateBufferFromSamples
                (s.m_auto_buffer_samples ++ [server.FindLongestRoute]) :: (rest ++
                  Event.DisplayMessage
                    "Unable to calculate auto buffer because the ping times were too unstable."
                    [] "red" :: new), ?_, ?_⟩
            · rw [h1]
              simp only [DisplayMessage, State.emit, ht, emitAll_trace, hdt, List.append_assoc,
                List.singleton_append, List.cons_append, List.nil_append]
            · intro l hl
              rcases List.mem_cons.mp hl with hl | hl
              · subst hl
                simp [Event.isCalculate] at he0
              · rcases List.mem_cons.mp hl with hl | hl
                · cases hl
                  exact hl3
                · rcases List.mem_append.mp hl with hl | hl
                  · exact absurd hl (not_mem_of_countP_isCalculate rest l hrest)
                  · rcases List.mem_cons.mp hl with hl | hl
                    · cases hl
                    · exact absurd hl (not_mem_of_countP_isCalculate new l h2)
      · rw [if_neg hge] at h
        cases h
        refine ⟨?_, [Event.DisplayMessage "Sample %1/%2 - %3 → Server → %4 at %5 ms"
          [MsgArg.int (s.m_auto_buffer_samples ++ [server.FindLongestRoute]).length,
           MsgArg.int m_auto_buffer_sample_amount,
           MsgArg.str ((server.FindLongestRoute.from_.map Player.name).getD ""),
           MsgArg.str ((server.FindLongestRoute.to_.map Player.name).getD ""),
           MsgArg.int server.FindLongestRoute.ping] "green"], rfl, ?_⟩
        · have : ¬ 3 ≤ (s.m_auto_buffer_samples ++ [server.FindLongestRoute]).length := hge
          show (s.m_auto_buffer_samples ++ [server.FindLongestRoute]).length ≤ 2
          omega
        · intro l hl
          simp only [List.mem_singleton] at hl
          cases hl

theorem runSampleAutoBuffer_inv (envs : List Env) (s s' : State)
    (hlen : s.m_auto_buffer_samples.length ≤ 2) (h : runSampleAutoBuffer s envs = some s') :
    s'.m_auto_buffer_samples.length ≤ 2 ∧
    ∃ new : List Event, s'.trace = s.trace ++ new ∧
      ∀ l, Event.enter_CalculateBufferFromSamples l ∈ new → l.length = 3 := by
  induction envs generalizing s with
  | nil =>
    simp only [runSampleAutoBuffer, Option.some.injEq] at h
    subst h
    exact ⟨hlen, [], by simp, by simp⟩
  | cons env envs ih =>
    simp only [runSampleAutoBuffer] at h
    cases h1 : SampleAutoBuffer env s with
    | none => simp [h1] at h
    | some t =>
      rw [h1] at h
      obtain ⟨a1, n1, a2, a3⟩ := SampleAutoBuffer_step env s t hlen h1
      obtain ⟨b1, n2, b2, b3⟩ := ih t a1 h
      refine ⟨b1, n1 ++ n2, by rw [b2, a2, List.append_assoc], ?_⟩
      intro l hl
      rcases List.mem_append.mp hl with hl | hl
      · exact a3 l hl
      · exact b3 l hl

theorem runSampleAutoBuffer_isSome (envs : List Env) (s : State)
    (hs : ∀ env ∈ envs, env.GetNetPlayServer.isSome = true) :
    ∃ s', runSampleAutoBuffer s envs = some s' := by
  induction envs generalizing s with
  | nil => exact ⟨s, rfl⟩
  | cons env envs ih =>
    have hsv := hs env (List.mem_cons_self _ _)
    have hrest : ∀ e ∈ envs, e.GetNetPlayServer.isSome = true :=
      fun e he => hs e (List.mem_cons_of_mem _ he)
    have hstep : ∃ t, SampleAutoBuffer env s = some t := by
      unfold SampleAutoBuffer
      cases hsv' : env.GetNetPlayServer with
      | none => simp [hsv'] at hsv
      | some server =>
        simp only []
        split
        · exact ⟨_, rfl⟩
        · split
          · obtain ⟨b, t, hc⟩ := CalculateBufferFromSamples_isSome env
              (DisplayMessage
                { s with
                  m_auto_buffer_samples := s.m_auto_buffer_samples ++ [server.FindLongestRoute]
                  m_auto_buffer_button := { s.m_auto_buffer_button with
                    text := auto_button_countdown
                      (s.m_auto_buffer_samples ++ [server.FindLongestRoute]).length } }
                "Sample %1/%2 - %3 → Server → %4 at %5 ms"
                [MsgArg.int (s.m_auto_buffer_samples ++ [server.FindLongestRoute]).length,
                 MsgArg.int m_auto_buffer_sample_amount,
                 MsgArg.str ((server.FindLongestRoute.from_.map Player.name).getD ""),
                 MsgArg.str ((server.FindLongestRoute.to_.map Player.name).getD ""),
                 MsgArg.int server.FindLongestRoute.ping] "green")
              (s.m_auto_buffer_samples ++ [server.FindLongestRoute]) (by simp)
              (by rw [hsv']; rfl)
            rw [hc]
            cases b
            · exact ⟨_, rfl⟩
            · exact ⟨_, rfl⟩
          · exact ⟨_, rfl⟩
    obtain ⟨t, ht⟩ := hstep
    obtain ⟨s', hs'⟩ := ih t hrest
    exact ⟨s', by simp only [runSampleAutoBuffer, ht, hs']⟩

theorem runStopCalls_stop_after (calls : List StopCall) (s : State)
    (hc : ∀ c ∈ calls, c.hasClient = true) (hflag : s.m_got_stop_request = true) :
    ∃ (s' : State) (new : List Event), runStopCalls s calls = some s' ∧
      s'.trace = s.trace ++ new ∧ new.countP Event.isStop = 0 ∧
      s'.m_got_stop_request = true := by
  induction calls generalizing s with
  | nil => exact ⟨s, [], rfl, by simp, rfl, hflag⟩
  | cons c cs ih =>
    have hcs : ∀ c ∈ cs, c.hasClient = true := fun c h => hc c (List.mem_cons_of_mem _ h)
    cases c with
    | StopGame =>
      have e : StopCall.run s StopCall.StopGame = some s := by
        simp only [StopCall.run, StopGame, hflag, if_true]
      simp only [runStopCalls, e]
      exact ih s hcs hflag
    | GameStatusChanged env running =>
      have e : StopCall.run s (StopCall.GameStatusChanged env running) =
          some (s.enqueue (Queued.GameStatusChanged running)) := by
        simp only [StopCall.run, GameStatusChanged, hflag, Bool.true_eq_false, and_false,
          if_false, Option.map_some']
      simp only [runStopCalls, e]
      exact ih _ hcs hflag

theorem runStopCalls_stop_before (calls : List StopCall) (s : State)
    (hc : ∀ c ∈ calls, c.hasClient = true) (hflag : s.m_got_stop_request = false) :
    ∃ (s' : State) (new : List Event), runStopCalls s calls = some s' ∧
      s'.trace = s.trace ++ new ∧
      new.countP Event.isStop = (if calls.any StopCall.isStopGame = true then 1 else 0) ∧
      s'.m_got_stop_request = calls.any StopCall.isStopGame := by
  induction calls generalizing s with
  | nil => exact ⟨s, [], rfl, by simp, rfl, hflag⟩
  | cons c cs ih =>
    have hcs : ∀ c ∈ cs, c.hasClient = true := fun c h => hc c (List.mem_cons_of_mem _ h)
    cases c with
    | StopGame =>
      have e : StopCall.run s StopCall.StopGame =
          some ({ s with m_got_stop_request := true }.emit Event.Stop) := by
        simp only [StopCall.run, StopGame, hflag, Bool.false_eq_true, if_false]
      simp only [runStopCalls, e, List.any_cons, StopCall.isStopGame, Bool.true_or, if_true]
      obtain ⟨s', new, h1, h2, h3, h4⟩ := runStopCalls_stop_after cs
        ({ s with m_got_stop_request := true }.emit Event.Stop) hcs rfl
      refine ⟨s', Event.Stop :: new, h1, ?_, ?_, h4⟩
      · rw [h2]
        simp [State.emit]
      · simp only [List.countP_cons, h3, Event.isStop, if_true]
    | GameStatusChanged env running =>
      have hcl := hc (StopCall.GameStatusChanged env running) (List.mem_cons_self _ _)
      simp only [StopCall.hasClient] at hcl
      cases hcv : env.GetNetPlayClient with
      | none => simp [hcv] at hcl
      | some client =>
        cases running with
        | true =>
          have e : StopCall.run s (StopCall.GameStatusChanged env true) =
              some (s.enqueue (Queued.GameStatusChanged true)) := by
            simp only [StopCall.run, GameStatusChanged, Bool.true_eq_false, false_and, if_false,
              Option.map_some']
          simp only [runStopCalls, e, List.any_cons, StopCall.isStopGame, Bool.false_or]
          exact ih _ hcs hflag
        | false =>
          have e : StopCall.run s (StopCall.GameStatusChanged env false) =
              some ((s.emit Event.RequestStopGame).enqueue (Queued.GameStatusChanged false)) := by
            simp only [StopCall.run, GameStatusChanged, hflag, and_self, if_true, hcv,
              Option.map_some']
          simp only [runStopCalls, e, List.any_cons, StopCall.isStopGame, Bool.false_or]
          obtain ⟨s', new, h1, h2, h3, h4⟩ := ih
            ((s.emit Event.RequestStopGame).enqueue (Queued.GameStatusChanged false)) hcs hflag
          refine ⟨s', Event.RequestStopGame :: new, h1, ?_, ?_, h4⟩
          · rw [h2]
            simp [State.emit, State.enqueue]
          · simp only [List.countP_cons, h3, Event.isStop, Bool.false_eq_true, if_false,
              add_zero]

theorem update_buffer_granularity_sizes (env : Env) (s : State) :
    (update_buffer_granularity env s).m_local_buffer_size = s.m_local_buffer_size ∧
    (update_buffer_granularity env s).m_minimum_buffer_size = s.m_minimum_buffer_size ∧
    (update_buffer_granularity env s).m_local_under_minimum_warning =
      s.m_local_under_minimum_warning := by
  obtain ⟨new, h1, _, _⟩ :=
    GetConfigOptionWithSelectedGame_snd env s ConfigInfo.MAIN_POLL_ON_SIREAD
  refine ⟨?_, ?_, ?_⟩ <;>
  · unfold update_buffer_granularity
    simp only [h1]
    split <;> rfl

theorem update_under_minimum_warning_visible (s : State) :
    (update_under_minimum_warning s).m_local_under_minimum_warning.hidden = false ↔
      s.m_local_buffer_size < s.m_minimum_buffer_size ∧ s.m_host_input_authority = false := by
  unfold update_under_minimum_warning
  simp only [Bool.or_eq_false_iff, decide_eq_false_iff_not, not_le, ge_iff_le]

theorem OnMinimumPadBufferChanged_eq (env : Env) (s : State) (buffer : Nat) :
    ∃ t : State, OnMinimumPadBufferChanged env s buffer = update_under_minimum_warning t ∧
      t.m_minimum_buffer_size = wrapInt buffer ∧
      t.m_local_buffer_size = s.m_local_buffer_size ∧
      t.m_host_input_authority = s.m_host_input_authority := by
  obtain ⟨new, h1, _, _⟩ := GetConfigOptionWithSelectedGame_snd env
    (s.enqueue (Queued.OnMinimumPadBufferChanged buffer)) ConfigInfo.MAIN_POLL_ON_SIREAD
  unfold OnMinimumPadBufferChanged
  simp only [h1]
  split
  · refine ⟨_, rfl, ?_, ?_, ?_⟩
    · dsimp only
    · rfl
    · rfl
  · refine ⟨_, rfl, ?_, ?_, ?_⟩
    · dsimp only
    · rfl
    · rfl

theorem OnLocalPadBufferChanged_eq (env : Env) (s : State) (buffer : Nat) :
    ∃ t : State, OnLocalPadBufferChanged env s buffer = update_under_minimum_warning t ∧
      t.m_local_buffer_size = wrapInt buffer ∧
      t.m_minimum_buffer_size = s.m_minimum_buffer_size ∧
      t.m_host_input_authority = s.m_host_input_authority := by
  obtain ⟨new, h1, _, _⟩ := GetConfigOptionWithSelectedGame_snd env
    (s.enqueue (Queued.OnLocalPadBufferChanged buffer)) ConfigInfo.MAIN_POLL_ON_SIREAD
  unfold OnLocalPadBufferChanged
  simp only [h1]
  split
  · refine ⟨_, rfl, ?_, ?_, ?_⟩
    · dsimp only
    · rfl
    · rfl
  · refine ⟨_, rfl, ?_, ?_, ?_⟩
    · dsimp only
    · rfl
    · rfl

theorem OnHostInputAuthorityChanged_eq (env : Env) (s : State) (enabled : Bool) :
    ∃ t : State,
      OnHostInputAuthorityChanged env s enabled =
        update_buffer_granularity env (update_under_minimum_warning t) ∧
      t.m_host_input_authority = enabled ∧
      t.m_local_buffer_size = s.m_local_buffer_size ∧
      t.m_minimum_buffer_size = s.m_minimum_buffer_size :=
  ⟨_, rfl, rfl, rfl, rfl⟩

theorem UpdateGUI_players_keeps (client : NetPlayClient) (s : State) :
    (UpdateGUI_players client s).m_use_traversal = s.m_use_traversal ∧
    (UpdateGUI_players client s).m_room_box = s.m_room_box ∧
    (UpdateGUI_players client s).m_is_copy_button_retry = s.m_is_copy_button_retry ∧
    (UpdateGUI_players client s).m_hostcode_action_button = s.m_hostcode_action_button ∧
    (UpdateGUI_players client s).isVisible = s.isVisible := by
  unfold UpdateGUI_players
  by_cases h : (client.GetPlayers.length : Int) ≠ s.m_player_count ∧ s.m_player_count ≠ 0
  · conv => zeta
    rw [if_pos h]
    exact ⟨rfl, rfl, rfl, rfl, rfl⟩
  · conv => zeta
    rw [if_neg h]
    exact ⟨rfl, rfl, rfl, rfl, rfl⟩

theorem UpdateGUI_room_direct (env : Env) (s : State) (hu : s.m_use_traversal = false) :
    ∃ s', UpdateGUI_room env s = some s' ∧
      s'.m_use_traversal = false ∧ s'.m_room_box = s.m_room_box ∧
      s'.m_is_copy_button_retry = s.m_is_copy_button_retry ∧
      s'.isVisible = s.isVisible ∧
      s'.m_hostcode_action_button.hidden = s.m_hostcode_action_button.hidden ∧
      (env.GetNetPlayServer.isSome = true →
        s'.m_hostcode_action_button.text = "Copy" ∧
        s'.m_hostcode_action_button.enabled = true) := by
  unfold UpdateGUI_room
  have hcond : ¬(s.m_use_traversal = true ∧ s.m_room_box.currentIndex = (0 : Int)) := by
    rw [hu]
    simp
  rw [if_neg hcond]
  cases env.GetNetPlayServer with
  | none => exact ⟨s, rfl, hu, rfl, rfl, rfl, rfl, fun h => by simp at h⟩
  | some server => exact ⟨_, rfl, hu, rfl, rfl, rfl, rfl, fun _ => ⟨rfl, rfl⟩⟩

theorem UpdateGUI_presence_keeps (s : State) :
    (UpdateGUI_presence s).m_use_traversal = s.m_use_traversal ∧
    (UpdateGUI_presence s).m_room_box = s.m_room_box ∧
    (UpdateGUI_presence s).m_is_copy_button_retry = s.m_is_copy_button_retry ∧
    (UpdateGUI_presence s).m_hostcode_action_button = s.m_hostcode_action_button ∧
    (UpdateGUI_presence s).isVisible = s.isVisible := by
  unfold UpdateGUI_presence
  split <;> exact ⟨rfl, rfl, rfl, rfl, rfl⟩

theorem UpdateGUI_route_keeps (env : Env) (s : State) :
    (UpdateGUI_route env s).m_use_traversal = s.m_use_traversal ∧
    (UpdateGUI_route env s).m_room_box = s.m_room_box ∧
    (UpdateGUI_route env s).m_is_copy_button_retry = s.m_is_copy_button_retry ∧
    (UpdateGUI_route env s).m_hostcode_action_button = s.m_hostcode_action_button ∧
    (UpdateGUI_route env s).isVisible = s.isVisible := by
  unfold UpdateGUI_route
  cases env.GetNetPlayServer with
  | none => exact ⟨rfl, rfl, rfl, rfl, rfl⟩
  | some server =>
    simp only []
    split <;> exact ⟨rfl, rfl, rfl, rfl, rfl⟩

theorem UpdateGUI_direct (env : Env) (s : State) (hu : s.m_use_traversal = false) :
    ∃ s', UpdateGUI env s = some s' ∧
      s'.m_use_traversal = false ∧ s'.m_room_box = s.m_room_box ∧
      s'.m_is_copy_button_retry = s.m_is_copy_button_retry ∧
      s'.isVisible = s.isVisible ∧
      s'.m_hostcode_action_button.hidden = s.m_hostcode_action_button.hidden ∧
      (env.GetNetPlayClient.isSome = true → env.GetNetPlayServer.isSome = true →
        s'.m_hostcode_action_button.text = "Copy" ∧
        s'.m_hostcode_action_button.enabled = true) := by
  unfold UpdateGUI
  cases env.GetNetPlayClient with
  | none => exact ⟨s, rfl, hu, rfl, rfl, rfl, rfl, fun h => by simp at h⟩
  | some client =>
    simp only []
    obtain ⟨a1, a2, a3, a4, a5⟩ := UpdateGUI_players_keeps client s
    obtain ⟨t, b0, b1, b2, b3, b4, b5, b6⟩ :=
      UpdateGUI_room_direct env (UpdateGUI_players client s) (by rw [a1]; exact hu)
    obtain ⟨c1, c2, c3, c4, c5⟩ := UpdateGUI_presence_keeps t
    obtain ⟨d1, d2, d3, d4, d5⟩ := UpdateGUI_route_keeps env (UpdateGUI_presence t)
    rw [b0]
    refine ⟨_, rfl, ?_, ?_, ?_, ?_, ?_, ?_⟩
    · rw [d1, c1, b1]
    · rw [d2, c2, b2, a2]
    · rw [d3, c3, b3, a3]
    · rw [d5, c5, b4, a5]
    · rw [d4, c4, b5, a4]
    · intro _ hs
      rw [d4, c4]
      exact b6 hs

theorem set_room_box_direct (env : Env) (s : State) (box : QComboBox)
    (hu : s.m_use_traversal = false) :
    ∃ s', set_room_box env s box = some s' ∧
      s'.m_use_traversal = false ∧ s'.m_room_box = box ∧
      s'.m_is_copy_button_retry = s.m_is_copy_button_retry ∧
      s'.m_hostcode_action_button.hidden = s.m_hostcode_action_button.hidden := by
  unfold set_room_box
  split
  · exact ⟨_, rfl, hu, rfl, rfl, rfl⟩
  · obtain ⟨s', h0, h1, h2, h3, _, h5, _⟩ := UpdateGUI_direct env { s with m_room_box := box } hu
    exact ⟨s', h0, h1, h2, h3, h5⟩

theorem show_interfaces_direct (env : Env) (ifaces : List String) (s : State)
    (hu : s.m_use_traversal = false) :
    ∃ s', show_interfaces env s ifaces = some s' ∧
      s'.m_use_traversal = false ∧
      s'.m_is_copy_button_retry = s.m_is_copy_button_retry ∧
      s'.m_hostcode_action_button.hidden = s.m_hostcode_action_button.hidden ∧
      (s.m_room_box.items ≠ [] →
        s'.m_room_box.items ≠ [] ∧ s'.m_room_box.currentIndex = s.m_room_box.currentIndex) ∧
      (s.m_room_box.items = [] → ifaces ≠ [] → s'.m_room_box.currentIndex = 0) := by
  induction ifaces generalizing s with
  | nil => exact ⟨s, rfl, hu, rfl, rfl, fun h => ⟨h, rfl⟩, fun _ h => absurd rfl h⟩
  | cons iface rest ih =>
    obtain ⟨t, h0, h1, h2, h3, h4⟩ := set_room_box_direct env s
      (s.m_room_box.addItem (if iface = "!local!" then "Local" else iface) iface) hu
    obtain ⟨s', k0, k1, k2, k3, k4, _⟩ := ih t h1
    have hne : t.m_room_box.items ≠ [] := by
      rw [h2]
      simp [QComboBox.addItem]
    obtain ⟨k5, k6⟩ := k4 hne
    refine ⟨s', ?_, k1, by rw [k2, h3], by rw [k3, h4], ?_, ?_⟩
    · simp only [show_interfaces, h0, k0]
    · intro hs
      refine ⟨k5, ?_⟩
      rw [k6, h2]
      simp only [QComboBox.addItem, if_neg hs]
    · intro hs _
      rw [k6, h2]
      simp only [QComboBox.addItem, if_pos hs]

theorem show_widgets_keeps (env : Env) (s : State) :
    (show_widgets env s).m_use_traversal = s.m_use_traversal ∧
    (show_widgets env s).m_is_copy_button_retry = s.m_is_copy_button_retry ∧
    (show_widgets env s).m_room_box.currentIndex = s.m_room_box.currentIndex ∧
    (show_widgets env s).m_hostcode_action_button.hidden = !env.GetNetPlayServer.isSome := by
  unfold show_widgets
  simp only []
  obtain ⟨new, h1, _⟩ := MeetsAutoBufferConditions_snd env
    { s with
      m_start_button := { s.m_start_button with hidden := !env.GetNetPlayServer.isSome }
      m_save_sd_box := { s.m_save_sd_box with hidden := !env.GetNetPlayServer.isSome }
      m_load_wii_box := { s.m_load_wii_box with hidden := !env.GetNetPlayServer.isSome }
      m_sync_save_data_box :=
        { s.m_sync_save_data_box with hidden := !env.GetNetPlayServer.isSome }
      m_strict_settings_sync_box :=
        { s.m_strict_settings_sync_box with hidden := !env.GetNetPlayServer.isSome }
      m_host_input_authority_box :=
        { s.m_host_input_authority_box with hidden := !env.GetNetPlayServer.isSome }
      m_kick_button :=
        { s.m_kick_button with hidden := !env.GetNetPlayServer.isSome, enabled := false }
      m_assign_ports_button :=
        { s.m_assign_ports_button with hidden := !env.GetNetPlayServer.isSome }
      m_md5_button := { s.m_md5_button with hidden := !env.GetNetPlayServer.isSome }
      m_room_box := { s.m_room_box with hidden := !env.GetNetPlayServer.isSome }
      m_hostcode_label := { s.m_hostcode_label with hidden := !env.GetNetPlayServer.isSome }
      m_hostcode_action_button :=
        { s.m_hostcode_action_button with hidden := !env.GetNetPlayServer.isSome }
      m_longest_route_label :=
        { s.m_longest_route_label with hidden := !env.GetNetPlayServer.isSome }
      m_game_button := { s.m_game_button with enabled := env.GetNetPlayServer.isSome }
      m_auto_buffer_button :=
        { s.m_auto_buffer_button with hidden := !env.GetNetPlayServer.isSome } }
  simp only [h1]
  exact ⟨rfl, rfl, rfl, rfl⟩

theorem OnStart_settings_emitAll (get : ConfigInfo → ConfigValue) (s : State)
    (pre : List Event) (server : NetPlayServer) :
    OnStart_settings get (s.emitAll pre) server = OnStart_settings get s server := rfl

theorem filter_isConfigGet_tail (server : NetPlayServer) (settings : NetSettings) :
    ([Event.SetNetSettings settings, Event.RequestStartGame] ++
      if server.RequestStartGame = true then [Event.enter_SetOptionsEnabled false]
      else []).filter Event.isConfigGet = [] ∧
    ([Event.SetNetSettings settings, Event.RequestStartGame] ++
      if server.RequestStartGame = true then [Event.enter_SetOptionsEnabled false]
      else []).filter Event.isLayerCall = [] ∧
    ([Event.SetNetSettings settings, Event.RequestStartGame] ++
      if server.RequestStartGame = true then [Event.enter_SetOptionsEnabled false]
      else []).filter Event.isStartCall =
      [Event.SetNetSettings settings, Event.RequestStartGame] := by
  cases server.RequestStartGame <;> exact ⟨rfl, rfl, rfl⟩

theorem OnStart_send_shape (env : Env) (s : State) (pre : List Event) (game : GameFile)
    (server : NetPlayServer) :
    (OnStart_send env (s.emitAll pre) game server).trace = s.trace ++
      (pre ++
       ([Event.Config_AddLayer ⟨LayerType.GlobalGame, game.GetGameID, game.GetRevision, none⟩,
         Event.Config_AddLayer ⟨LayerType.LocalGame, game.GetGameID, game.GetRevision, none⟩] ++
        OnStart_reads.map Event.Config_Get ++
        [Event.Config_RemoveLayer LayerType.GlobalGame,
         Event.Config_RemoveLayer LayerType.LocalGame]) ++
       ([Event.SetNetSettings (OnStart_settings
          (env.Config_Get [⟨LayerType.GlobalGame, game.GetGameID, game.GetRevision, none⟩,
            ⟨LayerType.LocalGame, game.GetGameID, game.GetRevision, none⟩]) s server),
         Event.RequestStartGame] ++
        if server.RequestStartGame = true then [Event.enter_SetOptionsEnabled false]
        else [])) := by
  rw [OnStart_send_trace, emitAll_trace, OnStart_settings_emitAll]
  simp only [List.append_assoc, List.cons_append, List.nil_append]

theorem OnStart_shape (env : Env) (s s' : State) (h : OnStart env s = some s') :
    ∃ new : List Event, s'.trace = s.trace ++ new ∧
      ((new.filter Event.isLayerCall = [] ∧ new.filter Event.isStartCall = []) ∨
       ∃ (game : GameFile) (server : NetPlayServer) (pre : List Event),
        FindGameFile env s.m_current_game = some game ∧
        env.GetNetPlayServer = some server ∧
        pre.filter Event.isLayerCall = [] ∧ pre.filter Event.isStartCall = [] ∧
        new = pre ++
          ([Event.Config_AddLayer
              ⟨LayerType.GlobalGame, game.GetGameID, game.GetRevision, none⟩,
            Event.Config_AddLayer
              ⟨LayerType.LocalGame, game.GetGameID, game.GetRevision, none⟩] ++
           OnStart_reads.map Event.Config_Get ++
           [Event.Config_RemoveLayer LayerType.GlobalGame,
            Event.Config_RemoveLayer LayerType.LocalGame]) ++
          ([Event.SetNetSettings (OnStart_settings
             (env.Config_Get [⟨LayerType.GlobalGame, game.GetGameID, game.GetRevision, none⟩,
               ⟨LayerType.LocalGame, game.GetGameID, game.GetRevision, none⟩]) s server),
            Event.RequestStartGame] ++
           if server.RequestStartGame = true then [Event.enter_SetOptionsEnabled false]
           else [])) := by
  unfold OnStart at h
  cases hc : env.GetNetPlayClient with
  | none => simp [hc] at h
  | some client =>
    cases hd : client.DoAllPlayersHaveGame <;> cases hq : env.question_answer <;>
    cases hst : s.m_strict_settings_sync_box.checked <;>
    by_cases he : env.Config_Get [] ConfigInfo.GFX_EFB_SCALE = 0 <;>
    cases hg : FindGameFile env s.m_current_game <;>
    cases hsv : env.GetNetPlayServer <;>
    simp only [hc, hd, hq, hst, he, hg, hsv, emit_eq_emitAll, emitAll_emitAll, and_self,
      and_true, and_false, true_and, false_and, if_true, if_false, reduceCtorEq,
      Bool.false_eq_true, emitAll_m_strict_settings_sync_box, emitAll_m_current_game,
      List.append_assoc] at h <;>
    first
      | (cases h; done)
      | (cases h; exact ⟨_, rfl, Or.inl ⟨rfl, rfl⟩⟩)
      | (cases h
         rename_i game server
         refine ⟨_, OnStart_send_shape env s _ game server, ?_⟩
         refine Or.inr ⟨game, server, _, rfl, rfl, ?_, ?_, rfl⟩ <;> rfl)
      | (cases h
         rename_i game server
         refine ⟨_, ?_, Or.inr ⟨game, server, [], rfl, rfl, rfl, rfl, rfl⟩⟩
         have := OnStart_send_shape env s [] game server
         rw [emitAll_nil] at this
         exact this)



theorem OnStart_proceeds (env : Env) (s : State) (client : NetPlayClient)
    (server : NetPlayServer) (game : GameFile) (hc : env.GetNetPlayClient = some client)
    (hs : env.GetNetPlayServer = some server)
    (hg : FindGameFile env s.m_current_game = some game)
    (hpre : OnStart_preconditions env s client) :
    ∃ pre : List Event, OnStart env s = some (OnStart_send env (s.emitAll pre) game server) ∧
      pre.filter Event.isLayerCall = [] ∧ pre.filter Event.isStartCall = [] := by
  unfold OnStart_preconditions at hpre
  obtain ⟨p1, p2, _⟩ := hpre
  unfold OnStart
  cases hd : client.DoAllPlayersHaveGame <;> cases hq : env.question_answer <;>
  cases hst : s.m_strict_settings_sync_box.checked <;>
  by_cases he : env.Config_Get [] ConfigInfo.GFX_EFB_SCALE = 0 <;>
  simp only [hd, hq, hst, he, reduceCtorEq, Bool.false_eq_true, or_self, and_self,
    not_true_eq_false, or_false, false_or, and_true, true_and, and_false, false_and,
    not_false_eq_true] at p1 p2 <;>
  simp only [hc, hs, hd, hq, hst, he, hg, emit_eq_emitAll, emitAll_emitAll, and_self,
    and_true, and_false, true_and, false_and, if_true, if_false, reduceCtorEq,
    Bool.false_eq_true, emitAll_m_strict_settings_sync_box, emitAll_m_current_game] <;>
  first
    | exact ⟨_, rfl, rfl, rfl⟩
    | exact ⟨[], by rw [emitAll_nil], rfl, rfl⟩

theorem OnMinimumPadBufferChanged_caller (env : Env) (s : State) (buffer : Nat) :
    (OnMinimumPadBufferChanged env s buffer).queue =
      s.queue ++ [Queued.OnMinimumPadBufferChanged buffer] ∧
    (OnMinimumPadBufferChanged env s buffer).trace.getLast? = some
      (if pollOnSIRead env s = true then
        Event.DisplayMessage "Minimum buffer size changed to %1 %2"
          [MsgArg.real (fdiv buffer 100),
           MsgArg.str (if buffer = 100 then "frame" else "frames")] ""
       else Event.DisplayMessage "Minimum buffer size changed to %1" [MsgArg.int buffer] "") := by
  obtain ⟨new, h1, _⟩ := GetConfigOptionWithSelectedGame_snd env
    (s.enqueue (Queued.OnMinimumPadBufferChanged buffer)) ConfigInfo.MAIN_POLL_ON_SIREAD
  have hp : (GetConfigOptionWithSelectedGame env
      (s.enqueue (Queued.OnMinimumPadBufferChanged buffer))
      ConfigInfo.MAIN_POLL_ON_SIREAD).1.toBool = pollOnSIRead env s :=
    pollOnSIRead_congr env (s.enqueue (Queued.OnMinimumPadBufferChanged buffer)) s rfl
  unfold OnMinimumPadBufferChanged
  simp only [h1, hp]
  cases pollOnSIRead env s
  · simp only [Bool.false_eq_true, if_false]
    refine ⟨rfl, ?_⟩
    show (List.getLast? (_ ++ [_])) = _
    rw [List.getLast?_append]
    rfl
  · simp only [if_true]
    refine ⟨rfl, ?_⟩
    show (List.getLast? (_ ++ [_])) = _
    rw [List.getLast?_append]
    rfl

theorem OnLocalPadBufferChanged_caller (env : Env) (s : State) (buffer : Nat) :
    (OnLocalPadBufferChanged env s buffer).queue =
      s.queue ++ [Queued.OnLocalPadBufferChanged buffer] ∧
    (OnLocalPadBufferChanged env s buffer).trace.getLast? = some
      (if pollOnSIRead env s = true then
        Event.DisplayMessage "Buffer size changed to %1 %2"
          [MsgArg.real (fdiv buffer 100),
           MsgArg.str (if buffer = 100 then "frame" else "frames")] ""
       else Event.DisplayMessage "Buffer size changed to %1" [MsgArg.int buffer] "") := by
  obtain ⟨new, h1, _⟩ := GetConfigOptionWithSelectedGame_snd env
    (s.enqueue (Queued.OnLocalPadBufferChanged buffer)) ConfigInfo.MAIN_POLL_ON_SIREAD
  have hp : (GetConfigOptionWithSelectedGame env
      (s.enqueue (Queued.OnLocalPadBufferChanged buffer))
      ConfigInfo.MAIN_POLL_ON_SIREAD).1.toBool = pollOnSIRead env s :=
    pollOnSIRead_congr env (s.enqueue (Queued.OnLocalPadBufferChanged buffer)) s rfl
  unfold OnLocalPadBufferChanged
  simp only [h1, hp]
  cases pollOnSIRead env s
  · simp only [Bool.false_eq_true, if_false]
    refine ⟨rfl, ?_⟩
    show (List.getLast? (_ ++ [_])) = _
    rw [List.getLast?_append]
    rfl
  · simp only [if_true]
    refine ⟨rfl, ?_⟩
    show (List.getLast? (_ ++ [_])) = _
    rw [List.getLast?_append]
    rfl

/-! ## The claims -/

/-- C5. After every sequence of calls of `GetConfigOptionWithSelectedGame` and `OnStart`
that has returned, the calls of `Config::AddLayer` made since the start are as many as the
calls of `Config::RemoveLayer`; the sequence is arbitrary, so this holds after each call of
it, whether or not a game file was found; and the sequence does return whenever client and
server exist. -/
theorem config_layer_calls_balanced (s : State) (calls : List ScopedCall) :
    (∀ s', runCalls s calls = some s' →
      ∃ new : List Event, s'.trace = s.trace ++ new ∧
        new.countP Event.isAddLayer = new.countP Event.isRemoveLayer) ∧
    ((∀ c ∈ calls, c.env.GetNetPlayClient.isSome = true ∧ c.env.GetNetPlayServer.isSome = true) →
      ∃ s', runCalls s calls = some s') :=
  ⟨runCalls_trace calls s, runCalls_isSome calls s⟩

/-- C6. With strict settings sync checked and the internal resolution left automatic,
`OnStart` returns having changed nothing but the trace, and the calls it made contain no
`SetNetSettings`, no `RequestStartGame`, no `Config::AddLayer` and no `SetOptionsEnabled`;
this holds for every other input (a client pointer is needed for `OnStart` to run at all). -/
theorem OnStart_strict_sync_auto_resolution (env : Env) (s : State) (client : NetPlayClient)
    (hc : env.GetNetPlayClient = some client)
    (hst : s.m_strict_settings_sync_box.checked = true)
    (he : env.Config_Get [] ConfigInfo.GFX_EFB_SCALE = 0) :
    ∃ new : List Event, OnStart env s = some (s.emitAll new) ∧
      new.countP Event.isStartCall = 0 ∧ new.countP Event.isAddLayer = 0 ∧
      new.countP Event.isSetOptionsEnabled = 0 := by
  unfold OnStart
  cases hd : client.DoAllPlayersHaveGame <;> cases hq : env.question_answer <;>
  simp only [hc, hd, hq, hst, he, emit_eq_emitAll, emitAll_emitAll, and_self, and_true,
    and_false, true_and, false_and, if_true, if_false, reduceCtorEq, Bool.false_eq_true,
    emitAll_m_strict_settings_sync_box] <;>
  exact ⟨_, rfl, rfl, rfl, rfl⟩

theorem OnStart_strict_sync_auto_resolution_witness :
    ∃ new : List Event,
      OnStart { GetNetPlayClient := some { DoAllPlayersHaveGame := true } }
          { m_strict_settings_sync_box := { checked := true } } =
        some (State.emitAll { m_strict_settings_sync_box := { checked := true } } new) ∧
      new.countP Event.isStartCall = 0 ∧ new.countP Event.isAddLayer = 0 ∧
      new.countP Event.isSetOptionsEnabled = 0 :=
  OnStart_strict_sync_auto_resolution
    { GetNetPlayClient := some { DoAllPlayersHaveGame := true } }
    { m_strict_settings_sync_box := { checked := true } } { DoAllPlayersHaveGame := true }
    rfl rfl rfl

/-- C7. With client and server at hand, `OnStart` returns, and the calls it made contain
`SetNetSettings` followed by `RequestStartGame` (each once) exactly when all players have
the game or the caller confirms, strict sync does not meet an automatic resolution, and the
game file is found; otherwise they contain neither. `SetOptionsEnabled(false)` is entered
exactly when `RequestStartGame` was called and returned true, and `SetOptionsEnabled` is
never entered otherwise. -/
theorem OnStart_start_calls (env : Env) (s : State) (client : NetPlayClient)
    (server : NetPlayServer) (hc : env.GetNetPlayClient = some client)
    (hs : env.GetNetPlayServer = some server) :
    ∃ (s' : State) (new : List Event), OnStart env s = some s' ∧ s'.trace = s.trace ++ new ∧
      (OnStart_preconditions env s client →
        (∃ settings, new.filter Event.isStartCall =
          [Event.SetNetSettings settings, Event.RequestStartGame]) ∧
        new.filter Event.isSetOptionsEnabled =
          if server.RequestStartGame = true then [Event.enter_SetOptionsEnabled false] else []) ∧
      (¬OnStart_preconditions env s client →
        new.filter Event.isStartCall = [] ∧ new.filter Event.isSetOptionsEnabled = []) := by
  unfold OnStart OnStart_preconditions
  cases hg : FindGameFile env s.m_current_game with
  | none =>
    cases hd : client.DoAllPlayersHaveGame <;> cases hq : env.question_answer <;>
    cases hst : s.m_strict_settings_sync_box.checked <;>
    by_cases he : env.Config_Get [] ConfigInfo.GFX_EFB_SCALE = 0 <;>
    simp only [hc, hs, hd, hq, hst, he, hg, emit_eq_emitAll, emitAll_emitAll, and_self,
      and_true, and_false, true_and, false_and, if_true, if_false, reduceCtorEq,
      Bool.false_eq_true, emitAll_m_strict_settings_sync_box, emitAll_m_current_game, or_self,
      or_true, or_false, true_or, false_or, not_true_eq_false, not_false_eq_true,
      Option.isSome_none, false_implies, true_implies, implies_true,
      Option.some.injEq, exists_and_left, exists_eq_left'] <;>
    exact ⟨_, rfl, rfl, rfl⟩
  | some game =>
    cases hd : client.DoAllPlayersHaveGame <;> cases hq : env.question_answer <;>
    cases hst : s.m_strict_settings_sync_box.checked <;>
    by_cases he : env.Config_Get [] ConfigInfo.GFX_EFB_SCALE = 0 <;>
    simp only [hc, hs, hd, hq, hst, he, hg, emit_eq_emitAll, emitAll_emitAll, and_self,
      and_true, and_false, true_and, false_and, if_true, if_false, reduceCtorEq,
      Bool.false_eq_true, emitAll_m_strict_settings_sync_box, emitAll_m_current_game, or_self,
      or_true, or_false, true_or, false_or, not_true_eq_false, not_false_eq_true,
      Option.isSome_some, false_implies, true_implies, implies_true,
      Option.some.injEq, exists_and_left, exists_eq_left'] <;>
    first
      | exact OnStart_send_after env s [Event.QMessageBox_question "Warning"
          "Not all players have the game. Do you really want to start?"] game server rfl rfl
      | exact OnStart_send_after env s ([Event.QMessageBox_question "Warning"
          "Not all players have the game. Do you really want to start?"] ++
          [Event.Config_Get ConfigInfo.GFX_EFB_SCALE]) game server rfl rfl
      | exact OnStart_send_after env s [Event.Config_Get ConfigInfo.GFX_EFB_SCALE]
          game server rfl rfl
      | exact OnStart_send_start_calls env s game server
      | exact ⟨_, rfl, rfl, rfl⟩

theorem OnStart_start_calls_witness :
    ∃ (s' : State) (new : List Event),
      OnStart host_env { m_current_game := "GALE01" } = some s' ∧
      s'.trace = (State.trace { m_current_game := "GALE01" }) ++ new ∧
      (OnStart_preconditions host_env { m_current_game := "GALE01" } {} →
        (∃ settings, new.filter Event.isStartCall =
          [Event.SetNetSettings settings, Event.RequestStartGame]) ∧
        new.filter Event.isSetOptionsEnabled =
          if NetPlayServer.RequestStartGame {} = true then [Event.enter_SetOptionsEnabled false]
          else []) ∧
      (¬OnStart_preconditions host_env { m_current_game := "GALE01" } {} →
        new.filter Event.isStartCall = [] ∧ new.filter Event.isSetOptionsEnabled = []) :=
  OnStart_start_calls host_env { m_current_game := "GALE01" } {} {} rfl rfl

/-- C8. In each of the three places that recompute the granularity of the buffer boxes (the
construction of the dialog, the body queued by `OnMsgChangeGame`, and
`OnHostInputAuthorityChanged`), the boxes end in sub-frame mode exactly when the selected
title's poll-on-read option is true and host input authority is off, and in whole-frame
mode exactly otherwise. For `OnMsgChangeGame` the selected title is the new one; for
`OnHostInputAuthorityChanged` the flag is the new value `enabled`. -/

theorem buffer_granularity_three_places (env : Env) (s : State) (title : String)
    (enabled : Bool) (client : NetPlayClient) (hc : env.GetNetPlayClient = some client) :
    (((CreateMainLayout env s).subFrameMode ↔
        (pollOnSIRead env s = true ∧ s.m_host_input_authority = false)) ∧
      ((CreateMainLayout env s).wholeFrameMode ↔
        ¬(pollOnSIRead env s = true ∧ s.m_host_input_authority = false))) ∧
    (∃ s', OnMsgChangeGame_queued env s title = some s' ∧ s'.m_current_game = title ∧
      (s'.subFrameMode ↔
        (pollOnSIRead env { s with m_current_game := title } = true ∧
          s.m_host_input_authority = false)) ∧
      (s'.wholeFrameMode ↔
        ¬(pollOnSIRead env { s with m_current_game := title } = true ∧
          s.m_host_input_authority = false))) ∧
    ((OnHostInputAuthorityChanged env s enabled).m_host_input_authority = enabled ∧
      ((OnHostInputAuthorityChanged env s enabled).subFrameMode ↔
        (pollOnSIRead env s = true ∧ enabled = false)) ∧
      ((OnHostInputAuthorityChanged env s enabled).wholeFrameMode ↔
        ¬(pollOnSIRead env s = true ∧ enabled = false))) := by
  refine ⟨?_, ?_, ?_⟩
  · have h := update_buffer_granularity_iff env
      { s with
        m_start_button := { s.m_start_button with text := "Start" }
        m_auto_buffer_button := { s.m_auto_buffer_button with text := "Auto" }
        m_sync_save_data_box := { s.m_sync_save_data_box with checked := true } }
    have hp := pollOnSIRead_congr env
      { s with
        m_start_button := { s.m_start_button with text := "Start" }
        m_auto_buffer_button := { s.m_auto_buffer_button with text := "Auto" }
        m_sync_save_data_box := { s.m_sync_save_data_box with checked := true } } s rfl
    rw [hp] at h
    exact h
  · have h := update_buffer_granularity_iff env
      (State.emit { s with
        m_game_button := { s.m_game_button with text := title }
        m_current_game := title } Event.UpdateDiscordPresence)
    have hp := pollOnSIRead_congr env
      (State.emit { s with
        m_game_button := { s.m_game_button with text := title }
        m_current_game := title } Event.UpdateDiscordPresence)
      { s with m_current_game := title } rfl
    rw [hp] at h
    have hf := update_buffer_granularity_frame env
      (State.emit { s with
        m_game_button := { s.m_game_button with text := title }
        m_current_game := title } Event.UpdateDiscordPresence)
    generalize hu : update_buffer_granularity env
      (State.emit { s with
        m_game_button := { s.m_game_button with text := title }
        m_current_game := title } Event.UpdateDiscordPresence) = u at h hf
    obtain ⟨n1, e1, _⟩ := MeetsAutoBufferConditions_snd env u
    obtain ⟨n2, e2, _⟩ := GetConfigOptionWithSelectedGame_snd env
      { (u.emitAll n1) with m_auto_buffer_button :=
        { (u.emitAll n1).m_auto_buffer_button with
          enabled := (MeetsAutoBufferConditions env u).1 } }
      ConfigInfo.MAIN_POLL_ON_SIREAD
    unfold OnMsgChangeGame_queued
    simp only [hu, e1, e2, hc]
    simp only [State.subFrameMode, State.wholeFrameMode] at h
    cases env.GetNetPlayServer <;>
    simp only [State.subFrameMode, State.wholeFrameMode, State.emit, State.emitAll,
      Option.isSome_none, Option.isSome_some, Bool.false_eq_true, if_false, if_true,
      Option.some.injEq, exists_eq_left'] <;>
    exact ⟨hf.2, h⟩
  · have h := update_buffer_granularity_iff env
      (update_under_minimum_warning { (DisplayMessage
        (s.enqueue (Queued.OnHostInputAuthorityChanged enabled))
        (if enabled = true then "Host input authority enabled"
          else "Host input authority disabled") [] "") with m_host_input_authority := enabled })
    have hp := pollOnSIRead_congr env
      (update_under_minimum_warning { (DisplayMessage
        (s.enqueue (Queued.OnHostInputAuthorityChanged enabled))
        (if enabled = true then "Host input authority enabled"
          else "Host input authority disabled") [] "") with m_host_input_authority := enabled })
      s rfl
    rw [hp] at h
    have hf := update_buffer_granularity_frame env
      (update_under_minimum_warning { (DisplayMessage
        (s.enqueue (Queued.OnHostInputAuthorityChanged enabled))
        (if enabled = true then "Host input authority enabled"
          else "Host input authority disabled") [] "") with m_host_input_authority := enabled })
    unfold OnHostInputAuthorityChanged
    simp only [update_under_minimum_warning] at h hf ⊢
    exact ⟨hf.1, h⟩

theorem buffer_granularity_three_places_witness :
    host_env.GetNetPlayClient = some {} ∧
    (OnHostInputAuthorityChanged host_env {} false).subFrameMode ∧
    (OnHostInputAuthorityChanged host_env {} true).wholeFrameMode :=
  ⟨rfl,
   (buffer_granularity_three_places host_env {} "GALE01" false {} rfl).2.2.2.1.mpr
     ⟨by decide!, rfl⟩,
   (buffer_granularity_three_places host_env {} "GALE01" true {} rfl).2.2.2.2.mpr
     (fun h => absurd h.2 (by decide))⟩

/-- C10. Whatever the dialog's state and however many samples it already holds, when the
route that `SampleAutoBuffer` appends has a null `from` or `to`, the function returns with
the sample list empty, the timer stopped and the minimum-buffer box enabled, and the calls
it made contain no entry into `CalculateBufferFromSamples` and no
`AdjustMinimumPadBufferSize`. -/
theorem SampleAutoBuffer_aborts_on_null_endpoint (env : Env) (s : State)
    (server : NetPlayServer) (hs : env.GetNetPlayServer = some server)
    (hnull : server.FindLongestRoute.from_ = none ∨ server.FindLongestRoute.to_ = none) :
    ∃ (s' : State) (new : List Event), SampleAutoBuffer env s = some s' ∧
      s'.m_auto_buffer_samples = [] ∧ s'.m_auto_buffer_sample_timer_active = false ∧
      s'.m_minimum_buffer_size_box.enabled = true ∧
      s'.trace = s.trace ++ new ∧
      new.countP Event.isCalculate = 0 ∧ new.countP Event.isAdjustMinimum = 0 := by
  unfold SampleAutoBuffer
  simp only [hs, if_pos hnull]
  obtain ⟨new, h1, h2, h3, h4, h5, h6, _⟩ := finish_auto_buffer_spec env
    (DisplayMessage
      { s with
        m_auto_buffer_samples := s.m_auto_buffer_samples ++ [server.FindLongestRoute]
        m_auto_buffer_button := { s.m_auto_buffer_button with
          text := auto_button_countdown (s.m_auto_buffer_samples ++ [server.FindLongestRoute]).length } }
      "Unable to calculate auto buffer (at least 2 players are required)" [] "red")
  refine ⟨_, Event.DisplayMessage
    "Unable to calculate auto buffer (at least 2 players are required)" [] "red" :: new,
    rfl, h4, h5, h6, ?_, ?_, ?_⟩
  · rw [h1]
    simp only [DisplayMessage, State.emit, List.append_assoc, List.singleton_append]
  · rw [List.countP_cons, h2]; rfl
  · rw [List.countP_cons, h3]; rfl

theorem SampleAutoBuffer_aborts_on_null_endpoint_witness :
    ∃ (s' : State) (new : List Event),
      SampleAutoBuffer host_env { m_auto_buffer_samples := [{ ping := 40 }] } = some s' ∧
      s'.m_auto_buffer_samples = [] ∧ s'.m_auto_buffer_sample_timer_active = false ∧
      s'.m_minimum_buffer_size_box.enabled = true ∧
      s'.trace = (State.trace { m_auto_buffer_samples := [{ ping := 40 }] }) ++ new ∧
      new.countP Event.isCalculate = 0 ∧ new.countP Event.isAdjustMinimum = 0 :=
  SampleAutoBuffer_aborts_on_null_endpoint host_env { m_auto_buffer_samples := [{ ping := 40 }] }
    {} rfl (Or.inl rfl)

/-- C3. On every sample list, the calls `CalculateBufferFromSamples` makes contain
`AdjustMinimumPadBufferSize` exactly once when it returns true and not at all when it
returns false, and nothing but the trace changes; it does return on every non-empty list
when a server exists. Samples with pings 10, 200, 10 are rejected with no call made, also
when they arrive through `SampleAutoBuffer`, so `m_minimum_buffer_size` stays as it was. -/
theorem CalculateBufferFromSamples_adjust_calls (env : Env) (s : State)
    (samples : List NetRoute) (r0 r1 r2 : NetRoute) (server : NetPlayServer) :
    (∀ b s', CalculateBufferFromSamples env s samples = some (b, s') →
      ∃ new : List Event, s' = s.emitAll new ∧
        new.countP Event.isAdjustMinimum = if b = true then 1 else 0) ∧
    (samples ≠ [] → env.GetNetPlayServer.isSome = true →
      ∃ r, CalculateBufferFromSamples env s samples = some r) ∧
    (r0.ping = 10 → r1.ping = 200 → r2.ping = 10 →
      CalculateBufferFromSamples env s [r0, r1, r2] =
        some (false, s.emitAll [Event.enter_CalculateBufferFromSamples [r0, r1, r2]])) ∧
    (r0.ping = 10 → r1.ping = 200 → r2.ping = 10 → s.m_auto_buffer_samples = [r0, r1] →
      env.GetNetPlayServer = some server → server.FindLongestRoute = r2 →
      ∃ (s' : State) (new : List Event), SampleAutoBuffer env s = some s' ∧
        s'.trace = s.trace ++ new ∧ new.countP Event.isAdjustMinimum = 0 ∧
        s'.m_minimum_buffer_size = s.m_minimum_buffer_size) := by
  refine ⟨?_, ?_, ?_, ?_⟩
  · intro b s' h
    unfold CalculateBufferFromSamples at h
    cases samples with
    | nil => simp at h
    | cons first rest =>
      simp only [] at h
      split at h
      · cases hsv : env.GetNetPlayServer with
        | none => simp [hsv] at h
        | some srv =>
          simp only [hsv, Option.some.injEq, Prod.mk.injEq] at h
          obtain ⟨hb, hs'⟩ := h
          subst hb hs'
          simp only [DisplayMessage, emit_eq_emitAll, emitAll_emitAll, List.cons_append,
            List.nil_append]
          refine ⟨_, rfl, ?_⟩
          simp only [List.countP_cons, List.countP_nil, Event.isAdjustMinimum, if_true,
            Bool.false_eq_true, if_false, zero_add]
      · simp only [Option.some.injEq, Prod.mk.injEq] at h
        obtain ⟨hb, hs'⟩ := h
        subst hb hs'
        simp only [emit_eq_emitAll]
        refine ⟨_, rfl, ?_⟩
        simp only [List.countP_cons, List.countP_nil, Event.isAdjustMinimum, if_true,
          Bool.false_eq_true, if_false]
  · intro hne hsv
    unfold CalculateBufferFromSamples
    cases samples with
    | nil => exact absurd rfl hne
    | cons first rest =>
      simp only []
      split
      · cases hsv' : env.GetNetPlayServer with
        | none => simp [hsv'] at hsv
        | some srv => exact ⟨_, rfl⟩
      · exact ⟨_, rfl⟩
  · intro e0 e1 e2
    rw [CalculateBufferFromSamples_three env s r0 r1 r2 (by omega) (by omega) (by omega),
      e0, e1, e2, if_neg (by decide)]
  · intro e0 e1 e2 hsamples hsv hroute
    have hcalc : ∀ t : State, CalculateBufferFromSamples env t [r0, r1, r2] =
        some (false, t.emitAll [Event.enter_CalculateBufferFromSamples [r0, r1, r2]]) := by
      intro t
      rw [CalculateBufferFromSamples_three env t r0 r1 r2 (by omega) (by omega) (by omega),
        e0, e1, e2, if_neg (by decide)]
    unfold SampleAutoBuffer
    rw [hsv]
    simp only []
    rw [hroute, hsamples]
    split
    · exact finish_auto_buffer_after env s _
        [Event.DisplayMessage "Unable to calculate auto buffer (at least 2 players are required)"
          [] "red"] rfl rfl rfl
    · rw [if_pos (show ([r0, r1] ++ [r2]).length ≥ m_auto_buffer_sample_amount from le_refl 3)]
      rw [show [r0, r1] ++ [r2] = [r0, r1, r2] from rfl, hcalc]
      simp only []
      refine finish_auto_buffer_after env s _
        [Event.DisplayMessage "Sample %1/%2 - %3 → Server → %4 at %5 ms"
          [MsgArg.int ([r0, r1, r2].length : ℕ), MsgArg.int m_auto_buffer_sample_amount,
           MsgArg.str ((r2.from_.map Player.name).getD ""),
           MsgArg.str ((r2.to_.map Player.name).getD ""),
           MsgArg.int r2.ping] "green",
         Event.enter_CalculateBufferFromSamples [r0, r1, r2],
         Event.DisplayMessage
           "Unable to calculate auto buffer because the ping times were too unstable." [] "red"]
        ?_ rfl rfl
      simp only [DisplayMessage, State.emit, State.emitAll, List.append_assoc,
        List.singleton_append, List.cons_append, List.nil_append]

theorem CalculateBufferFromSamples_adjust_calls_witness :
    CalculateBufferFromSamples host_env {} [{ ping := 10 }, { ping := 200 }, { ping := 10 }] =
      some (false, State.emitAll {} [Event.enter_CalculateBufferFromSamples
        [{ ping := 10 }, { ping := 200 }, { ping := 10 }]]) :=
  (CalculateBufferFromSamples_adjust_calls host_env {} [] { ping := 10 } { ping := 200 }
    { ping := 10 } {}).2.2.1 rfl rfl rfl

/-- C1. Three samples with one and the same ping of at least 100 ms have deviation
`|3*p - (p+p+p)| = 0` in the words of the specification, yet `CalculateBufferFromSamples`
rejects them: its loop starts at the second sample, so it compares `|3*p - p - p| = p`
with 100. -/
theorem CalculateBufferFromSamples_rejects_steady_pings (env : Env) (s : State) (r : NetRoute)
    (h100 : 100 ≤ r.ping) (hlt : r.ping < 2 ^ 28) :
    spec_deviation [r, r, r] = 0 ∧
    CalculateBufferFromSamples env s [r, r, r] =
      some (false, s.emitAll [Event.enter_CalculateBufferFromSamples [r, r, r]]) := by
  constructor
  · unfold spec_deviation
    simp only [List.head?_cons, Option.map_some', Option.getD_some, List.map_cons, List.map_nil,
      List.sum_cons, List.sum_nil]
    push_cast
    rw [abs_eq_zero]
    ring
  · rw [CalculateBufferFromSamples_three env s r r r hlt hlt hlt, if_neg]
    rw [show 3 * (r.ping : ℤ) - r.ping - r.ping = r.ping from by ring,
      abs_of_nonneg (by positivity)]
    omega

theorem CalculateBufferFromSamples_rejects_steady_pings_witness :
    spec_deviation [{ ping := 100 }, { ping := 100 }, { ping := 100 }] = 0 ∧
    CalculateBufferFromSamples host_env {} [{ ping := 100 }, { ping := 100 }, { ping := 100 }] =
      some (false, State.emitAll {} [Event.enter_CalculateBufferFromSamples
        [{ ping := 100 }, { ping := 100 }, { ping := 100 }]]) :=
  CalculateBufferFromSamples_rejects_steady_pings host_env {} { ping := 100 }
    (by decide) (by decide)

/-- C2, as the claim states it, fails: on pings 50, 52, 49 the code hands 330 to
`AdjustMinimumPadBufferSize`, while `round(avg * 1.1 / (1000/60) * 100)` with the exact
average is 332. -/
theorem CalculateBufferFromSamples_not_rounded :
    CalculateBufferFromSamples host_env {} [{ ping := 50 }, { ping := 52 }, { ping := 49 }] =
      some (true, State.emitAll {}
        [Event.enter_CalculateBufferFromSamples [{ ping := 50 }, { ping := 52 }, { ping := 49 }],
         Event.DisplayMessage "Average ping out of 3 samples was %1 ms" [MsgArg.int 50] "green",
         Event.AdjustMinimumPadBufferSize 330]) ∧
    spec_buffer [{ ping := 50 }, { ping := 52 }, { ping := 49 }] = 332 := by
  constructor
  · rw [CalculateBufferFromSamples_three host_env {} { ping := 50 } { ping := 52 } { ping := 49 }
      (by decide) (by decide) (by decide), if_pos (by decide)]
    have hv : doubleToInt (fmul (fdiv (fmul (((50 + 52 + 49) / 3 : ℕ) : ℚ) double_1_1)
        (fdiv 1000 60)) 100) = 330 := by decide!
    show some (true, State.emitAll {} _) = _
    rw [show (NetRoute.ping { ping := 50 } + NetRoute.ping { ping := 52 } +
      NetRoute.ping { ping := 49 }) / 3 = (50 + 52 + 49) / 3 from rfl, hv]
    rfl
  · decide!

/-- C2 (amended). For every accepted list of three samples (pings below 2^28 ms, server at
hand) the calls made are the entry, the message with the truncated integer average
`a = (p0 + p1 + p2) / 3`, and `AdjustMinimumPadBufferSize(v)`, where `v` is the
double-precision value `((a * 1.1) / (1000.0 / 60.0)) * 100` cut to an integer; `v` is
`33 * a / 5` (6.6 times `a`, rounded down), or one less, which can only happen when `a` is a
multiple of 5. -/
theorem CalculateBufferFromSamples_buffer (env : Env) (s : State) (server : NetPlayServer)
    (r0 r1 r2 : NetRoute) (hs : env.GetNetPlayServer = some server)
    (h0 : r0.ping < 2 ^ 28) (h1 : r1.ping < 2 ^ 28) (h2 : r2.ping < 2 ^ 28)
    (hacc : (CalculateBufferFromSamples env s [r0, r1, r2]).map Prod.fst = some true) :
    ∃ v : ℤ,
      CalculateBufferFromSamples env s [r0, r1, r2] = some (true, s.emitAll
        [Event.enter_CalculateBufferFromSamples [r0, r1, r2],
         Event.DisplayMessage "Average ping out of 3 samples was %1 ms"
           [MsgArg.int (((r0.ping + r1.ping + r2.ping) / 3 : ℕ) : ℤ)] "green",
         Event.AdjustMinimumPadBufferSize v]) ∧
      v = ⌊fmul (fdiv (fmul (((r0.ping + r1.ping + r2.ping) / 3 : ℕ) : ℚ) double_1_1)
        (fdiv 1000 60)) 100⌋ ∧
      (v = 33 * (((r0.ping + r1.ping + r2.ping) / 3 : ℕ) : ℤ) / 5 ∨
        ((((r0.ping + r1.ping + r2.ping) / 3 : ℕ) : ℤ) % 5 = 0 ∧
          v = 33 * (((r0.ping + r1.ping + r2.ping) / 3 : ℕ) : ℤ) / 5 - 1)) := by
  have ha : (r0.ping + r1.ping + r2.ping) / 3 < 2 ^ 28 := by omega
  obtain ⟨hv1, hv2⟩ := auto_buffer_value _ ha
  rw [CalculateBufferFromSamples_three env s r0 r1 r2 h0 h1 h2] at hacc ⊢
  by_cases hd : |3 * (r0.ping : ℤ) - r1.ping - r2.ping| < 100
  · rw [if_pos hd, hs]
    exact ⟨_, rfl, hv1, hv2⟩
  · rw [if_neg hd] at hacc
    simp at hacc

theorem CalculateBufferFromSamples_buffer_witness :
    CalculateBufferFromSamples host_env {} [{ ping := 50 }, { ping := 52 }, { ping := 49 }] =
      some (true, State.emitAll {}
        [Event.enter_CalculateBufferFromSamples [{ ping := 50 }, { ping := 52 }, { ping := 49 }],
         Event.DisplayMessage "Average ping out of 3 samples was %1 ms"
           [MsgArg.int (((50 + 52 + 49) / 3 : ℕ) : ℤ)] "green",
         Event.AdjustMinimumPadBufferSize 330]) := by
  obtain ⟨v, h, hv, _⟩ := CalculateBufferFromSamples_buffer host_env {} {}
    { ping := 50 } { ping := 52 } { ping := 49 } rfl (by decide) (by decide) (by decide)
    (by decide!)
  have h330 : v = 330 := by
    rw [hv]
    decide!
  rw [h, h330]

/-- C4. For a mapping array of four slots the string is `|`, then for each slot `i` the
digit `i + 1` if the slot holds the player's pid and `-` otherwise, then `|`; the array
`[5, 0, 0, 5]` asked for pid 5 gives `|1--4|`. -/
theorem get_mapping_string_four_slots (player : Player) (array : List Int)
    (h : array.length = 4) :
    get_mapping_string player array =
      String.mk ['|',
        if (player.pid : Int) = array.getD 0 0 then '1' else '-',
        if (player.pid : Int) = array.getD 1 0 then '2' else '-',
        if (player.pid : Int) = array.getD 2 0 then '3' else '-',
        if (player.pid : Int) = array.getD 3 0 then '4' else '-',
        '|'] ∧
    get_mapping_string { pid := 5 } [5, 0, 0, 5] = "|1--4|" := by
  refine ⟨?_, by decide⟩
  match array, h with
  | [a0, a1, a2, a3], _ =>
    simp only [get_mapping_string, List.enum, List.enumFrom, List.foldl, List.getD_cons_zero,
      List.getD_cons_succ]
    split_ifs <;> rfl

theorem get_mapping_string_four_slots_witness :
    get_mapping_string { pid := 2 } [2, -1, 2, -1] = "|1-3-|" :=
  (get_mapping_string_four_slots { pid := 2 } [2, -1, 2, -1] rfl).1

/-- C9, as the claim states it, fails: with a poll-on-read title and host input authority
on, the buffer boxes are in whole-frame mode, yet the change handler turns the displayed 3
into the raw value 300 and the notification handler shows the raw value 300 as 3. -/
theorem whole_frame_mode_still_scaled :
    (OnHostInputAuthorityChanged host_env {} true).wholeFrameMode ∧
    (minimum_buffer_size_box_valueChanged host_env
      (OnHostInputAuthorityChanged host_env {} true) 3).trace.getLast? =
        some (Event.AdjustMinimumPadBufferSize 300) ∧
    (OnMinimumPadBufferChanged_queued host_env
      (OnHostInputAuthorityChanged host_env {} true) 300).m_minimum_buffer_size_box.value = 3 := by
  refine ⟨?_, by decide!, by decide!⟩
  unfold OnHostInputAuthorityChanged
  exact update_buffer_granularity_whole host_env _ (fun h => absurd h.2 (by decide))

/-- C9 (amended). The factor of 100 between the value of a buffer box and the raw buffer size
depends on the title's poll-on-read option alone, whatever host input authority is. For every
value `value` a box reports, the change handlers of both boxes send `(int)(value * 100)` when
poll-on-read is true and `(int)value` when it is false, unless that equals the stored size or
the server (client) is missing. For every raw size `buffer`, the notification handlers hand
`buffer / 100.0` to the box when poll-on-read is true and `buffer` itself when it is false.
The option is that of the selected title: states with the same current game give the same
answer. For a value `k/4` (whole numbers and quarter steps up to 10000) the arithmetic is
exact: the handlers send `25 * k` (poll-on-read true) or the whole number `k / 4` (false), and
the raw size `25 * k` comes back as `k/4` (true) or unchanged (false). -/
theorem buffer_unit_conversion (env : Env) (s : State) (value : ℚ) (buffer k : ℕ)
    (hk : k ≤ 40000) :
    ((∃ new : List Event,
        minimum_buffer_size_box_valueChanged env s value = s.emitAll new ∧
        new.filter Event.isAdjustMinimum =
          if (if pollOnSIRead env s = true then doubleToInt (fmul value 100)
              else doubleToInt value) = s.m_minimum_buffer_size ∨
              env.GetNetPlayServer.isSome = false then []
          else [Event.AdjustMinimumPadBufferSize
            (if pollOnSIRead env s = true then doubleToInt (fmul value 100)
             else doubleToInt value)]) ∧
      (∃ new : List Event,
        local_buffer_size_box_valueChanged env s value = s.emitAll new ∧
        new.filter Event.isAdjustLocal =
          if (if pollOnSIRead env s = true then doubleToInt (fmul value 100)
              else doubleToInt value) = s.m_local_buffer_size ∨
              env.GetNetPlayClient.isSome = false then []
          else [Event.AdjustLocalPadBufferSize
            (if pollOnSIRead env s = true then doubleToInt (fmul value 100)
             else doubleToInt value)]) ∧
      (OnMinimumPadBufferChanged_queued env s buffer).m_minimum_buffer_size_box.value =
        (if pollOnSIRead env s = true then fdiv buffer 100 else (buffer : ℚ)) ∧
      (OnLocalPadBufferChanged_queued env s buffer).m_local_buffer_size_box.value =
        (if pollOnSIRead env s = true then fdiv buffer 100 else (buffer : ℚ)) ∧
      ((OnMinimumPadBufferChanged env s buffer).queue =
          s.queue ++ [Queued.OnMinimumPadBufferChanged buffer] ∧
        (OnMinimumPadBufferChanged env s buffer).trace.getLast? = some
          (if pollOnSIRead env s = true then
            Event.DisplayMessage "Minimum buffer size changed to %1 %2"
              [MsgArg.real (fdiv buffer 100),
               MsgArg.str (if buffer = 100 then "frame" else "frames")] ""
           else
            Event.DisplayMessage "Minimum buffer size changed to %1" [MsgArg.int buffer] "")) ∧
      ((OnLocalPadBufferChanged env s buffer).queue =
          s.queue ++ [Queued.OnLocalPadBufferChanged buffer] ∧
        (OnLocalPadBufferChanged env s buffer).trace.getLast? = some
          (if pollOnSIRead env s = true then
            Event.DisplayMessage "Buffer size changed to %1 %2"
              [MsgArg.real (fdiv buffer 100),
               MsgArg.str (if buffer = 100 then "frame" else "frames")] ""
           else Event.DisplayMessage "Buffer size changed to %1" [MsgArg.int buffer] "")) ∧
      (∀ t : State, t.m_current_game = s.m_current_game →
        pollOnSIRead env t = pollOnSIRead env s)) ∧
    ((∃ new : List Event,
        minimum_buffer_size_box_valueChanged env s ((k : ℚ) / 4) = s.emitAll new ∧
        new.filter Event.isAdjustMinimum =
          if (if pollOnSIRead env s = true then ((25 * k : ℕ) : ℤ) else ((k / 4 : ℕ) : ℤ)) =
              s.m_minimum_buffer_size ∨ env.GetNetPlayServer.isSome = false then []
          else [Event.AdjustMinimumPadBufferSize
            (if pollOnSIRead env s = true then ((25 * k : ℕ) : ℤ) else ((k / 4 : ℕ) : ℤ))]) ∧
      (∃ new : List Event,
        local_buffer_size_box_valueChanged env s ((k : ℚ) / 4) = s.emitAll new ∧
        new.filter Event.isAdjustLocal =
          if (if pollOnSIRead env s = true then ((25 * k : ℕ) : ℤ) else ((k / 4 : ℕ) : ℤ)) =
              s.m_local_buffer_size ∨ env.GetNetPlayClient.isSome = false then []
          else [Event.AdjustLocalPadBufferSize
            (if pollOnSIRead env s = true then ((25 * k : ℕ) : ℤ) else ((k / 4 : ℕ) : ℤ))]) ∧
      (OnMinimumPadBufferChanged_queued env s (25 * k)).m_minimum_buffer_size_box.value =
        (if pollOnSIRead env s = true then (k : ℚ) / 4 else ((25 * k : ℕ) : ℚ)) ∧
      (OnLocalPadBufferChanged_queued env s (25 * k)).m_local_buffer_size_box.value =
        (if pollOnSIRead env s = true then (k : ℚ) / 4 else ((25 * k : ℕ) : ℚ))) := by
  have gen : ∀ (value : ℚ) (buffer : ℕ),
      (∃ new : List Event,
        minimum_buffer_size_box_valueChanged env s value = s.emitAll new ∧
        new.filter Event.isAdjustMinimum =
          if (if pollOnSIRead env s = true then doubleToInt (fmul value 100)
              else doubleToInt value) = s.m_minimum_buffer_size ∨
              env.GetNetPlayServer.isSome = false then []
          else [Event.AdjustMinimumPadBufferSize
            (if pollOnSIRead env s = true then doubleToInt (fmul value 100)
             else doubleToInt value)]) ∧
      (∃ new : List Event,
        local_buffer_size_box_valueChanged env s value = s.emitAll new ∧
        new.filter Event.isAdjustLocal =
          if (if pollOnSIRead env s = true then doubleToInt (fmul value 100)
              else doubleToInt value) = s.m_local_buffer_size ∨
              env.GetNetPlayClient.isSome = false then []
          else [Event.AdjustLocalPadBufferSize
            (if pollOnSIRead env s = true then doubleToInt (fmul value 100)
             else doubleToInt value)]) ∧
      (OnMinimumPadBufferChanged_queued env s buffer).m_minimum_buffer_size_box.value =
        (if pollOnSIRead env s = true then fdiv buffer 100 else (buffer : ℚ)) ∧
      (OnLocalPadBufferChanged_queued env s buffer).m_local_buffer_size_box.value =
        (if pollOnSIRead env s = true then fdiv buffer 100 else (buffer : ℚ)) := by
    intro value buffer
    obtain ⟨new0, h1, _, h3⟩ :=
      GetConfigOptionWithSelectedGame_snd env s ConfigInfo.MAIN_POLL_ON_SIREAD
    have hf1 : new0.filter Event.isAdjustMinimum = [] :=
      filter_eq_nil_of_config _ new0 _ (fun _ => rfl) (fun _ => rfl) rfl h3
    have hf2 : new0.filter Event.isAdjustLocal = [] :=
      filter_eq_nil_of_config _ new0 _ (fun _ => rfl) (fun _ => rfl) rfl h3
    unfold pollOnSIRead
    refine ⟨?_, ?_, ?_, ?_⟩
    · unfold minimum_buffer_size_box_valueChanged
      simp only [h1]
      generalize (if (GetConfigOptionWithSelectedGame env s
        ConfigInfo.MAIN_POLL_ON_SIREAD).1.toBool = true then doubleToInt (fmul value 100)
        else doubleToInt value) = iv
      by_cases hiv : iv = s.m_minimum_buffer_size
      · rw [if_pos (show iv = (s.emitAll new0).m_minimum_buffer_size from hiv)]
        exact ⟨new0, rfl, by rw [hf1, if_pos (Or.inl hiv)]⟩
      · rw [if_neg (show ¬iv = (s.emitAll new0).m_minimum_buffer_size from hiv)]
        cases env.GetNetPlayServer with
        | none => exact ⟨new0, rfl, by rw [hf1]; simp⟩
        | some srv =>
          refine ⟨new0 ++ [Event.AdjustMinimumPadBufferSize iv], ?_, ?_⟩
          · simp only [emit_eq_emitAll, emitAll_emitAll]
          · rw [List.filter_append, hf1, if_neg (by simp [hiv])]
            rfl
    · unfold local_buffer_size_box_valueChanged
      simp only [h1]
      generalize (if (GetConfigOptionWithSelectedGame env s
        ConfigInfo.MAIN_POLL_ON_SIREAD).1.toBool = true then doubleToInt (fmul value 100)
        else doubleToInt value) = iv
      by_cases hiv : iv = s.m_local_buffer_size
      · rw [if_pos (show iv = (s.emitAll new0).m_local_buffer_size from hiv)]
        exact ⟨new0, rfl, by rw [hf2, if_pos (Or.inl hiv)]⟩
      · rw [if_neg (show ¬iv = (s.emitAll new0).m_local_buffer_size from hiv)]
        cases env.GetNetPlayClient with
        | none => exact ⟨new0, rfl, by rw [hf2]; simp⟩
        | some srv =>
          refine ⟨new0 ++ [Event.AdjustLocalPadBufferSize iv], ?_, ?_⟩
          · simp only [emit_eq_emitAll, emitAll_emitAll]
          · rw [List.filter_append, hf2, if_neg (by simp [hiv])]
            rfl
    · unfold OnMinimumPadBufferChanged_queued
      simp only [h1]
      cases (GetConfigOptionWithSelectedGame env s ConfigInfo.MAIN_POLL_ON_SIREAD).1.toBool
      · simp only [Bool.false_eq_true, if_false]
      · simp only [if_true]
    · unfold OnLocalPadBufferChanged_queued
      simp only [h1]
      cases (GetConfigOptionWithSelectedGame env s ConfigInfo.MAIN_POLL_ON_SIREAD).1.toBool
      · simp only [Bool.false_eq_true, if_false]
      · simp only [if_true]
  have hq : doubleToInt (fmul ((k : ℚ) / 4) 100) = ((25 * k : ℕ) : ℤ) := by
    rw [fmul_quarter k hk]
    exact doubleToInt_natCast _ (by omega)
  have hw := doubleToInt_quarter k hk
  have hd := fdiv_hundredths k hk
  obtain ⟨g1, g2, g3, g4⟩ := gen value buffer
  obtain ⟨q1, q2, q3, q4⟩ := gen ((k : ℚ) / 4) (25 * k)
  rw [hq, hw] at q1 q2
  rw [hd] at q3 q4
  exact ⟨⟨g1, g2, g3, g4, OnMinimumPadBufferChanged_caller env s buffer,
    OnLocalPadBufferChanged_caller env s buffer, fun t ht => pollOnSIRead_congr env t s ht⟩,
    q1, q2, q3, q4⟩

theorem buffer_unit_conversion_witness :
    (6 : ℕ) ≤ 40000 ∧
    (OnLocalPadBufferChanged_queued { host_env with Config_Get := fun _ _ => 0 } {}
      6).m_local_buffer_size_box.value = 6 ∧
    (OnMinimumPadBufferChanged_queued host_env {} 330).m_minimum_buffer_size_box.value =
      toBinary64 (33 / 10) ∧
    (OnMinimumPadBufferChanged_queued host_env {} (25 * 6)).m_minimum_buffer_size_box.value =
      3 / 2 ∧
    ∃ new : List Event,
      minimum_buffer_size_box_valueChanged host_env {} (toBinary64 (29 / 100)) =
        State.emitAll {} new ∧
      new.filter Event.isAdjustMinimum = [Event.AdjustMinimumPadBufferSize 28] := by
  obtain ⟨⟨⟨new, h1, h2⟩, _, h3, _⟩, _, _, h4, _⟩ :=
    buffer_unit_conversion host_env {} (toBinary64 (29 / 100)) 330 6 (by decide)
  obtain ⟨⟨_, _, _, h5, _⟩, _⟩ :=
    buffer_unit_conversion { host_env with Config_Get := fun _ _ => 0 } {} 0 6 6 (by decide)
  exact ⟨by decide, h5.trans (by decide!), h3.trans (by decide!), h4.trans (by decide!),
    new, h1, h2.trans (by decide!)⟩

/-- C11. When `SampleAutoBuffer` collects a valid sample that brings the list to three (or
more) entries, it returns, and on both outcomes of the calculation the sample list is
empty, the sampling timer is stopped and the minimum-buffer box is enabled again; the click
that starts sampling had disabled that box and started the timer. -/
theorem SampleAutoBuffer_third_sample_resets (env : Env) (s : State) (server : NetPlayServer)
    (hs : env.GetNetPlayServer = some server)
    (hfrom : server.FindLongestRoute.from_ ≠ none) (hto : server.FindLongestRoute.to_ ≠ none)
    (hlen : 2 ≤ s.m_auto_buffer_samples.length) :
    (∃ s', SampleAutoBuffer env s = some s' ∧
      s'.m_auto_buffer_samples = [] ∧
      s'.m_auto_buffer_sample_timer_active = false ∧
      s'.m_minimum_buffer_size_box.enabled = true) ∧
    (∀ s0 : State, s0.m_auto_buffer_samples = [] →
      ∃ s1, auto_buffer_button_clicked env s0 = some s1 ∧
        s1.m_auto_buffer_samples = [server.FindLongestRoute] ∧
        s1.m_auto_buffer_sample_timer_active = true ∧
        s1.m_minimum_buffer_size_box.enabled = false ∧
        s1.m_auto_buffer_button.enabled = false) := by
  have hor : ¬(server.FindLongestRoute.from_ = none ∨ server.FindLongestRoute.to_ = none) := by
    intro h
    rcases h with h | h
    · exact hfrom h
    · exact hto h
  constructor
  · unfold SampleAutoBuffer
    rw [hs]
    simp only []
    rw [if_neg hor]
    have hge : (s.m_auto_buffer_samples ++ [server.FindLongestRoute]).length ≥
        m_auto_buffer_sample_amount := by
      rw [List.length_append]
      show 3 ≤ _
      simp only [List.length_singleton]
      omega
    rw [if_pos hge]
    have hne : s.m_auto_buffer_samples ++ [server.FindLongestRoute] ≠ [] := by simp
    obtain ⟨b, t, hcalc⟩ := CalculateBufferFromSamples_isSome env
      (DisplayMessage
        { s with
          m_auto_buffer_samples := s.m_auto_buffer_samples ++ [server.FindLongestRoute]
          m_auto_buffer_button :=
            { s.m_auto_buffer_button with
              text := auto_button_countdown
                (s.m_auto_buffer_samples ++ [server.FindLongestRoute]).length } }
        "Sample %1/%2 - %3 → Server → %4 at %5 ms"
        [MsgArg.int (s.m_auto_buffer_samples ++ [server.FindLongestRoute]).length,
         MsgArg.int m_auto_buffer_sample_amount,
         MsgArg.str ((server.FindLongestRoute.from_.map Player.name).getD ""),
         MsgArg.str ((server.FindLongestRoute.to_.map Player.name).getD ""),
         MsgArg.int server.FindLongestRoute.ping] "green")
      (s.m_auto_buffer_samples ++ [server.FindLongestRoute]) hne (by rw [hs]; rfl)
    rw [hcalc]
    cases b with
    | true =>
      obtain ⟨_, _, _, _, h1, h2, h3, _⟩ := finish_auto_buffer_spec env t
      exact ⟨_, rfl, h1, h2, h3⟩
    | false =>
      obtain ⟨_, _, _, _, h1, h2, h3, _⟩ := finish_auto_buffer_spec env
        (DisplayMessage t
          "Unable to calculate auto buffer because the ping times were too unstable." [] "red")
      exact ⟨_, rfl, h1, h2, h3⟩
  · intro s0 h0
    unfold auto_buffer_button_clicked SampleAutoBuffer
    rw [hs]
    simp only []
    rw [if_neg hor, h0]
    rw [if_neg (show ¬(([] : List NetRoute) ++ [server.FindLongestRoute]).length ≥
      m_auto_buffer_sample_amount from
      fun h => absurd (show 3 ≤ 1 from h) (by decide))]
    exact ⟨_, rfl, rfl, rfl, rfl, rfl⟩

theorem SampleAutoBuffer_third_sample_resets_witness :
    ∃ s', SampleAutoBuffer sampling_env
        { m_auto_buffer_samples := [{ ping := 50 }, { ping := 52 }]
          m_auto_buffer_sample_timer_active := true
          m_minimum_buffer_size_box := { enabled := false } } = some s' ∧
      s'.m_auto_buffer_samples = [] ∧
      s'.m_auto_buffer_sample_timer_active = false ∧
      s'.m_minimum_buffer_size_box.enabled = true :=
  (SampleAutoBuffer_third_sample_resets sampling_env
    { m_auto_buffer_samples := [{ ping := 50 }, { ping := 52 }]
      m_auto_buffer_sample_timer_active := true
      m_minimum_buffer_size_box := { enabled := false } }
    { FindLongestRoute :=
        { from_ := some { pid := 1, name := "A" }, to_ := some { pid := 2, name := "B" },
          ping := 50 } }
    rfl (by decide) (by decide) (by decide)).1

/-- C12, as the claim states it, fails: after a boot, two reports that emulation has
stopped with no `StopGame` in between send `RequestStopGame` twice. -/
theorem GameStatusChanged_sends_twice :
    (runStopCalls (BootGame {} "game.iso")
      [StopCall.GameStatusChanged host_env false, StopCall.GameStatusChanged host_env false]).map
      (fun s => s.trace.countP Event.isRequestStopGame) = some 2 := by
  rfl

/-- C12 (amended). After `BootGame`, every sequence of `GameStatusChanged` and `StopGame`
calls (a client at hand) runs through, and the number of `RequestStopGame` sent is the
number of `GameStatusChanged(false)` calls that come before the first `StopGame`: none is
sent after a `StopGame`, and at most one when emulation is reported stopped at most once
before it. -/
theorem RequestStopGame_count (s : State) (filename : String) (calls : List StopCall)
    (hc : ∀ c ∈ calls, c.hasClient = true) :
    ∃ (s' : State) (new : List Event),
      runStopCalls (BootGame s filename) calls = some s' ∧
      s'.trace = (BootGame s filename).trace ++ new ∧
      new.countP Event.isRequestStopGame = stopsBeforeStopGame calls ∧
      (stopsBeforeStopGame calls ≤ 1 → new.countP Event.isRequestStopGame ≤ 1) := by
  obtain ⟨s', new, h1, h2, h3⟩ := runStopCalls_before_stop calls (BootGame s filename) hc rfl
  exact ⟨s', new, h1, h2, h3, fun h => by rw [h3]; exact h⟩

theorem RequestStopGame_count_witness :
    ∃ (s' : State) (new : List Event),
      runStopCalls (BootGame {} "game.iso")
        [StopCall.GameStatusChanged host_env true, StopCall.GameStatusChanged host_env false,
         StopCall.StopGame, StopCall.GameStatusChanged host_env false] = some s' ∧
      s'.trace = (BootGame {} "game.iso").trace ++ new ∧
      new.countP Event.isRequestStopGame = 1 ∧
      ((1 : ℕ) ≤ 1 → new.countP Event.isRequestStopGame ≤ 1) :=
  RequestStopGame_count {} "game.iso"
    [StopCall.GameStatusChanged host_env true, StopCall.GameStatusChanged host_env false,
     StopCall.StopGame, StopCall.GameStatusChanged host_env false]
    (by intro c h; simp only [List.mem_cons, List.mem_singleton, List.not_mem_nil, or_false] at h
        rcases h with h | h | h | h <;> subst h <;> rfl)

/-- C14, as the claim states it, fails: for the title of `host_env` the helper adds the
GlobalGame layer, then the LocalGame layer, and removes GlobalGame first, LocalGame second,
which is not the reverse of the order of addition. -/
theorem layers_not_removed_in_reverse :
    addedLayers (GetConfigOptionWithSelectedGame host_env { m_current_game := "GALE01" }
      ConfigInfo.MAIN_POLL_ON_SIREAD).2.trace = [LayerType.GlobalGame, LayerType.LocalGame] ∧
    removedLayers (GetConfigOptionWithSelectedGame host_env { m_current_game := "GALE01" }
      ConfigInfo.MAIN_POLL_ON_SIREAD).2.trace = [LayerType.GlobalGame, LayerType.LocalGame] ∧
    removedLayers (GetConfigOptionWithSelectedGame host_env { m_current_game := "GALE01" }
      ConfigInfo.MAIN_POLL_ON_SIREAD).2.trace ≠
      (addedLayers (GetConfigOptionWithSelectedGame host_env { m_current_game := "GALE01" }
        ConfigInfo.MAIN_POLL_ON_SIREAD).2.trace).reverse := by
  rw [GetConfigOptionWithSelectedGame_events]
  exact ⟨rfl, rfl, by decide⟩

/-- C14 (amended). Both `GetConfigOptionWithSelectedGame` and `OnStart` remove the layers in
the order in which they added them, after all reads. When the helper resolves a game file its
calls are exactly `AddLayer` of the GlobalGame layer, `AddLayer` of the LocalGame layer, the
one `Config::Get`, `RemoveLayer(GlobalGame)`, `RemoveLayer(LocalGame)`, in this order, and
otherwise the one `Config::Get` alone. When `OnStart` touches layers its calls are a prefix
without layer calls, then the two additions, then every read of `OnStart_reads`, then
`RemoveLayer(GlobalGame)`, `RemoveLayer(LocalGame)`, then a rest with no layer call and no
`Config::Get`; so every addition and every read precedes every removal and GlobalGame is
removed before LocalGame. -/
theorem layers_removed_in_order_added (env : Env) (s : State) (info : ConfigInfo) :
    (∃ new : List Event, (GetConfigOptionWithSelectedGame env s info).2 = s.emitAll new ∧
      removedLayers new = addedLayers new ∧
      (new.filter Event.isLayerCall = [] ∨
        ∃ g l : ConfigLayer, g.layer = LayerType.GlobalGame ∧ l.layer = LayerType.LocalGame ∧
          new.filter Event.isLayerCall =
            [Event.Config_AddLayer g, Event.Config_AddLayer l,
             Event.Config_RemoveLayer LayerType.GlobalGame,
             Event.Config_RemoveLayer LayerType.LocalGame]) ∧
      ((FindGameFile env s.m_current_game).isSome = true →
        removedLayers new = [LayerType.GlobalGame, LayerType.LocalGame]) ∧
      (((FindGameFile env s.m_current_game).isSome = false ∧ new = [Event.Config_Get info]) ∨
        ∃ g l : ConfigLayer, g.layer = LayerType.GlobalGame ∧ l.layer = LayerType.LocalGame ∧
          (FindGameFile env s.m_current_game).isSome = true ∧
          new = [Event.Config_AddLayer g, Event.Config_AddLayer l, Event.Config_Get info,
                 Event.Config_RemoveLayer LayerType.GlobalGame,
                 Event.Config_RemoveLayer LayerType.LocalGame])) ∧
    (∀ s', OnStart env s = some s' →
      ∃ new : List Event, s'.trace = s.trace ++ new ∧
        removedLayers new = addedLayers new ∧
        (new.filter Event.isLayerCall = [] ∨
          ∃ g l : ConfigLayer, g.layer = LayerType.GlobalGame ∧ l.layer = LayerType.LocalGame ∧
            new.filter Event.isLayerCall =
              [Event.Config_AddLayer g, Event.Config_AddLayer l,
               Event.Config_RemoveLayer LayerType.GlobalGame,
               Event.Config_RemoveLayer LayerType.LocalGame]) ∧
        (new.filter Event.isLayerCall = [] ∨
          ∃ (g l : ConfigLayer) (pre post : List Event),
            g.layer = LayerType.GlobalGame ∧ l.layer = LayerType.LocalGame ∧
            new = pre ++
              ([Event.Config_AddLayer g, Event.Config_AddLayer l] ++
                OnStart_reads.map Event.Config_Get ++
                [Event.Config_RemoveLayer LayerType.GlobalGame,
                 Event.Config_RemoveLayer LayerType.LocalGame]) ++ post ∧
            pre.filter Event.isLayerCall = [] ∧ post.filter Event.isLayerCall = [] ∧
            post.filter Event.isConfigGet = [])) := by
  constructor
  · refine ⟨_, GetConfigOptionWithSelectedGame_events env s info, ?_⟩
    cases FindGameFile env s.m_current_game with
    | none => exact ⟨rfl, Or.inl rfl, fun h => by simp at h, Or.inl ⟨rfl, rfl⟩⟩
    | some game =>
      exact ⟨rfl, Or.inr ⟨_, _, rfl, rfl, rfl⟩, fun _ => rfl, Or.inr ⟨_, _, rfl, rfl, rfl, rfl⟩⟩
  · intro s' h
    obtain ⟨new, h1, h2⟩ := OnStart_shape env s s' h
    refine ⟨new, h1, ?_⟩
    rcases h2 with ⟨h2, _⟩ | ⟨game, server, pre, _, _, hp, _, h2⟩
    · refine ⟨?_, Or.inl h2, Or.inl h2⟩
      rw [removedLayers_filter, addedLayers_filter, h2]
      rfl
    · have hf : new.filter Event.isLayerCall =
          [Event.Config_AddLayer
            ⟨LayerType.GlobalGame, game.GetGameID, game.GetRevision, none⟩,
           Event.Config_AddLayer
            ⟨LayerType.LocalGame, game.GetGameID, game.GetRevision, none⟩,
           Event.Config_RemoveLayer LayerType.GlobalGame,
           Event.Config_RemoveLayer LayerType.LocalGame] := by
        rw [h2]
        simp only [List.filter_append, hp, (filter_isConfigGet_tail server _).2.1,
          filter_isLayerCall_map_Get, List.nil_append, List.append_nil]
        rfl
      refine ⟨?_, Or.inr ⟨_, _, rfl, rfl, hf⟩,
        Or.inr ⟨_, _, pre, _, rfl, rfl, h2, hp, (filter_isConfigGet_tail server _).2.1,
          (filter_isConfigGet_tail server _).1⟩⟩
      rw [removedLayers_filter, addedLayers_filter, hf]
      rfl

/-- C16. `MeetsAutoBufferConditions` returns true exactly when the current game identifier
resolves to a game file, that file's region is not PAL, and the poll-on-read option, read
with the two per-title layers of that file applied, is true. When no game file resolves it
returns false with no call made at all, so no game file is asked for its region. -/
theorem MeetsAutoBufferConditions_iff (env : Env) (s : State) :
    ((MeetsAutoBufferConditions env s).1 = true ↔
      ∃ game, FindGameFile env s.m_current_game = some game ∧
        game.GetRegion ≠ Region.PAL ∧
        (env.Config_Get
          [⟨LayerType.GlobalGame, game.GetGameID, game.GetRevision, some game.GetLongName⟩,
           ⟨LayerType.LocalGame, game.GetGameID, game.GetRevision, some game.GetLongName⟩]
          ConfigInfo.MAIN_POLL_ON_SIREAD).toBool = true) ∧
    ((MeetsAutoBufferConditions env s).1 = true ↔
      (∃ game, FindGameFile env s.m_current_game = some game ∧ game.GetRegion ≠ Region.PAL) ∧
        pollOnSIRead env s = true) ∧
    (FindGameFile env s.m_current_game = none → MeetsAutoBufferConditions env s = (false, s)) := by
  refine ⟨?_, ?_, ?_⟩
  · rw [MeetsAutoBufferConditions_fst]
    cases hg : FindGameFile env s.m_current_game with
    | none => simp
    | some game => simp
  · rw [MeetsAutoBufferConditions_fst, pollOnSIRead, GetConfigOptionWithSelectedGame_fst]
    cases hg : FindGameFile env s.m_current_game with
    | none => simp
    | some game => simp
  · intro hg
    unfold MeetsAutoBufferConditions
    rw [hg]

/-- C17, in the code: on a host whose host input authority is enabled, the body queued by
`OnHostInputAuthorityChanged` leaves the auto-buffer button disabled, but the body queued by
`OnMsgChangeGame` for a title that meets the auto-buffer conditions enables it again while
host input authority stays enabled; so does the end of an automatic buffer calculation. -/
theorem auto_buffer_button_enabled_under_authority (env : Env) (s : State) (title : String)
    (hc : env.GetNetPlayClient.isSome = true) (hs : env.GetNetPlayServer.isSome = true)
    (hia : s.m_host_input_authority = true)
    (hm : (MeetsAutoBufferConditions env { s with m_current_game := title }).1 = true) :
    (OnHostInputAuthorityChanged_queued env s true).m_auto_buffer_button.enabled = false ∧
    (OnHostInputAuthorityChanged_queued env s true).m_host_input_authority = true ∧
    (∃ s', OnMsgChangeGame_queued env s title = some s' ∧
      s'.m_host_input_authority = true ∧ s'.m_auto_buffer_button.enabled = true) ∧
    (s.m_current_game = title →
      (finish_auto_buffer env s).m_host_input_authority = true ∧
      (finish_auto_buffer env s).m_auto_buffer_button.enabled = true) := by
  refine ⟨?_, ?_, ?_, ?_⟩
  · unfold OnHostInputAuthorityChanged_queued
    simp only [hs, if_true]
    obtain ⟨new, h1, _⟩ := MeetsAutoBufferConditions_snd env
      { s with
        m_minimum_buffer_size_box :=
          { s.m_minimum_buffer_size_box with enabled := (true != true) }
        m_local_buffer_size_box :=
          { s.m_local_buffer_size_box with enabled := (true != true) } }
    simp
  · unfold OnHostInputAuthorityChanged_queued
    simp only [hs, if_true]
    obtain ⟨new, h1, _⟩ := MeetsAutoBufferConditions_snd env
      { s with
        m_minimum_buffer_size_box :=
          { s.m_minimum_buffer_size_box with enabled := (true != true) }
        m_local_buffer_size_box :=
          { s.m_local_buffer_size_box with enabled := (true != true) } }
    simp only [h1]
    exact hia
  · obtain ⟨s', new, h1, _, _, h4, h5, _⟩ := OnMsgChangeGame_queued_spec env s title hc
    exact ⟨s', h1, by rw [h4, hia], by rw [h5, hm]⟩
  · intro ht
    obtain ⟨new, h1, _⟩ := MeetsAutoBufferConditions_snd env
      { s with m_auto_buffer_button := { s.m_auto_buffer_button with text := "Auto" } }
    have hm2 : (MeetsAutoBufferConditions env
        { s with m_auto_buffer_button := { s.m_auto_buffer_button with text := "Auto" } }).1 =
        true := by
      rw [← hm]
      exact MeetsAutoBufferConditions_fst_congr env _ _ ht
    constructor
    · unfold finish_auto_buffer
      simp only [h1]
      exact hia
    · unfold finish_auto_buffer
      simp only [h1]
      exact hm2

theorem auto_buffer_button_enabled_under_authority_witness :
    (OnHostInputAuthorityChanged_queued host_env
      (OnHostInputAuthorityChanged host_env (CreateMainLayout host_env {}) true)
      true).m_auto_buffer_button.enabled = false ∧
    ∃ s', OnMsgChangeGame_queued host_env
        (OnMsgChangeGame
          (OnHostInputAuthorityChanged_queued host_env
            (OnHostInputAuthorityChanged host_env (CreateMainLayout host_env {}) true) true)
          "GALE01") "GALE01" = some s' ∧
      s'.m_host_input_authority = true ∧ s'.m_auto_buffer_button.enabled = true :=
  ⟨(auto_buffer_button_enabled_under_authority host_env
      (OnHostInputAuthorityChanged host_env (CreateMainLayout host_env {}) true)
      "GALE01" rfl rfl (by decide!) (by decide!)).1,
   (auto_buffer_button_enabled_under_authority host_env
      (OnMsgChangeGame
        (OnHostInputAuthorityChanged_queued host_env
          (OnHostInputAuthorityChanged host_env (CreateMainLayout host_env {}) true) true)
        "GALE01")
      "GALE01" rfl rfl (by decide!) (by decide!)).2.2.1⟩

/-- C19. `OnMsgChangeGame` shows the "Game changed to" message and appends exactly one body,
`Queued.OnMsgChangeGame title`, to the dialog's queue. That body, taken off the queue and run
on the state the handler left, returns whenever a client exists; afterwards the current game is
the new title (also shown on the game button), exactly one `AdjustLocalPadBufferSize` has been
sent, with 150 when the poll-on-read option of the new title is true and 6 otherwise, and
`AdjustMinimumPadBufferSize(0)` has been sent exactly when the dialog is hosting, and no other
value. The same holds of the body run on any state `s`. -/
theorem OnMsgChangeGame_default_buffers (env : Env) (s : State) (title : String)
    (hc : env.GetNetPlayClient.isSome = true) :
    (OnMsgChangeGame s title).queue = s.queue ++ [Queued.OnMsgChangeGame title] ∧
    (OnMsgChangeGame s title).trace =
      s.trace ++ [Event.DisplayMessage "Game changed to \"%1\"" [MsgArg.str title] "magenta"] ∧
    (OnMsgChangeGame s title).m_current_game = s.m_current_game ∧
    (∃ (s' : State) (new : List Event),
      (Queued.OnMsgChangeGame title).run env
        { OnMsgChangeGame s title with queue := s.queue } = some s' ∧
      s'.m_current_game = title ∧ s'.m_game_button.text = title ∧
      s'.trace = (OnMsgChangeGame s title).trace ++ new ∧
      new.filter Event.isAdjustLocal =
        [Event.AdjustLocalPadBufferSize
          (if pollOnSIRead env { s with m_current_game := title } = true then 150 else 6)] ∧
      new.filter Event.isAdjustMinimum =
        if env.GetNetPlayServer.isSome = true then [Event.AdjustMinimumPadBufferSize 0]
        else []) ∧
    ∃ (s' : State) (new : List Event), OnMsgChangeGame_queued env s title = some s' ∧
      s'.m_current_game = title ∧ s'.m_game_button.text = title ∧
      s'.trace = s.trace ++ new ∧
      new.filter Event.isAdjustLocal =
        [Event.AdjustLocalPadBufferSize
          (if pollOnSIRead env { s with m_current_game := title } = true then 150 else 6)] ∧
      new.filter Event.isAdjustMinimum =
        if env.GetNetPlayServer.isSome = true then [Event.AdjustMinimumPadBufferSize 0]
        else [] := by
  refine ⟨rfl, rfl, rfl, ?_, ?_⟩
  · obtain ⟨s', new, h1, h2, h3, _, _, _, _, h8, h9, h10⟩ :=
      OnMsgChangeGame_queued_spec env { OnMsgChangeGame s title with queue := s.queue } title hc
    refine ⟨s', new, h1, h2, h3, h8, h9.trans ?_, h10⟩
    exact congrArg (fun b => [Event.AdjustLocalPadBufferSize (if b = true then 150 else 6)])
      (pollOnSIRead_congr env _ _ rfl)
  · obtain ⟨s', new, h1, h2, h3, _, _, _, _, h8, h9, h10⟩ :=
      OnMsgChangeGame_queued_spec env s title hc
    exact ⟨s', new, h1, h2, h3, h8, h9, h10⟩

theorem OnMsgChangeGame_default_buffers_witness :
    (OnMsgChangeGame { m_current_game := "GZLE01" } "GALE01").queue =
      [Queued.OnMsgChangeGame "GALE01"] ∧
    ∃ (s' : State) (new : List Event),
      (Queued.OnMsgChangeGame "GALE01").run host_env
        { OnMsgChangeGame { m_current_game := "GZLE01" } "GALE01" with queue := [] } = some s' ∧
      s'.m_current_game = "GALE01" ∧
      s'.trace = [Event.DisplayMessage "Game changed to \"%1\"" [MsgArg.str "GALE01"]
        "magenta"] ++ new ∧
      new.filter Event.isAdjustLocal = [Event.AdjustLocalPadBufferSize 150] ∧
      new.filter Event.isAdjustMinimum = [Event.AdjustMinimumPadBufferSize 0] := by
  obtain ⟨hq, _, _, ⟨s', new, h1, h2, _, h4, h5, h6⟩, _⟩ :=
    OnMsgChangeGame_default_buffers host_env { m_current_game := "GZLE01" } "GALE01" rfl
  refine ⟨hq, s', new, h1, h2, h4, ?_, h6⟩
  rw [h5]
  have : pollOnSIRead host_env { m_current_game := "GALE01" } = true := by
    unfold pollOnSIRead
    rw [GetConfigOptionWithSelectedGame_fst]
    rfl
  exact congrArg (fun b => [Event.AdjustLocalPadBufferSize (if b = true then 150 else 6)]) this

/-- C20, in the code: for three samples (pings, also after the shift, below 2^28 ms, server
at hand) `CalculateBufferFromSamples` accepts exactly when `|3*p0 - p1 - p2| < 100`. So three
equal pings `p` are accepted only when `p < 100`, although their deviation in the words of
the specification is 0; and adding `c` to every ping, which leaves that deviation unchanged,
turns the test into `|3*p0 - p1 - p2 + c| < 100`. -/
theorem CalculateBufferFromSamples_shifted (env : Env) (s : State) (r0 r1 r2 : NetRoute)
    (c : ℕ) (hs : env.GetNetPlayServer.isSome = true)
    (h0 : r0.ping + c < 2 ^ 28) (h1 : r1.ping + c < 2 ^ 28) (h2 : r2.ping + c < 2 ^ 28) :
    spec_deviation (shiftPings c [r0, r1, r2]) = spec_deviation [r0, r1, r2] ∧
    (accepts env s [r0, r1, r2] = true ↔ |3 * (r0.ping : ℤ) - r1.ping - r2.ping| < 100) ∧
    (accepts env s (shiftPings c [r0, r1, r2]) = true ↔
      |3 * (r0.ping : ℤ) - r1.ping - r2.ping + c| < 100) ∧
    (r1.ping = r0.ping → r2.ping = r0.ping →
      spec_deviation [r0, r1, r2] = 0 ∧ (accepts env s [r0, r1, r2] = true ↔ r0.ping < 100)) := by
  have hacc := accepts_three env s r0 r1 r2 hs (by omega) (by omega) (by omega)
  refine ⟨?_, hacc, ?_, ?_⟩
  · unfold spec_deviation shiftPings
    simp only [List.map_cons, List.map_nil, List.head?_cons, Option.map_some',
      Option.getD_some, List.sum_cons, List.sum_nil]
    push_cast
    congr 1
    ring
  · have := accepts_three env s { r0 with ping := r0.ping + c } { r1 with ping := r1.ping + c }
      { r2 with ping := r2.ping + c } hs h0 h1 h2
    unfold shiftPings
    simp only [List.map_cons, List.map_nil]
    rw [this]
    simp only []
    push_cast
    rw [show 3 * ((r0.ping : ℤ) + c) - (r1.ping + c) - (r2.ping + c) =
      3 * (r0.ping : ℤ) - r1.ping - r2.ping + c from by ring]
  · intro e1 e2
    constructor
    · unfold spec_deviation
      simp only [List.map_cons, List.map_nil, List.head?_cons, Option.map_some',
        Option.getD_some, List.sum_cons, List.sum_nil, e1, e2]
      push_cast
      rw [abs_eq_zero]
      ring
    · rw [hacc, e1, e2, show 3 * (r0.ping : ℤ) - r0.ping - r0.ping = r0.ping from by ring,
        abs_of_nonneg (by positivity)]
      omega

theorem CalculateBufferFromSamples_shifted_witness :
    accepts host_env {} [{ ping := 0 }, { ping := 0 }, { ping := 0 }] = true ∧
    ¬(accepts host_env {} (shiftPings 100 [{ ping := 0 }, { ping := 0 }, { ping := 0 }]) = true) ∧
    spec_deviation (shiftPings 100 [{ ping := 0 }, { ping := 0 }, { ping := 0 }]) =
      spec_deviation [{ ping := 0 }, { ping := 0 }, { ping := 0 }] :=
  ⟨(CalculateBufferFromSamples_shifted host_env {} { ping := 0 } { ping := 0 } { ping := 0 } 100
      rfl (by decide) (by decide) (by decide)).2.1.mpr (by decide),
   fun h => absurd
     ((CalculateBufferFromSamples_shifted host_env {} { ping := 0 } { ping := 0 } { ping := 0 }
       100 rfl (by decide) (by decide) (by decide)).2.2.1.mp h) (by decide),
   (CalculateBufferFromSamples_shifted host_env {} { ping := 0 } { ping := 0 } { ping := 0 } 100
      rfl (by decide) (by decide) (by decide)).1⟩

/-- C21. Starting from a sample list with at most two entries, in particular from the empty
list, every sequence of `SampleAutoBuffer` calls that have a server at hand runs through;
after each call the list holds at most two samples, and every list that
`CalculateBufferFromSamples` has been entered with in between has exactly
`m_auto_buffer_sample_amount` = 3 samples, on which the function returns. -/
theorem SampleAutoBuffer_sample_count (envs : List Env) (s : State)
    (hlen : s.m_auto_buffer_samples.length ≤ 2)
    (hs : ∀ env ∈ envs, env.GetNetPlayServer.isSome = true) :
    ∃ (s' : State) (new : List Event), runSampleAutoBuffer s envs = some s' ∧
      s'.m_auto_buffer_samples.length ≤ 2 ∧
      s'.trace = s.trace ++ new ∧
      (∀ l, Event.enter_CalculateBufferFromSamples l ∈ new →
        l.length = m_auto_buffer_sample_amount ∧ l ≠ [] ∧
        ∀ env ∈ envs, ∀ t : State, (CalculateBufferFromSamples env t l).isSome = true) := by
  obtain ⟨s', h⟩ := runSampleAutoBuffer_isSome envs s hs
  obtain ⟨h1, new, h2, h3⟩ := runSampleAutoBuffer_inv envs s s' hlen h
  refine ⟨s', new, h, h1, h2, ?_⟩
  intro l hl
  have h3l := h3 l hl
  have hne : l ≠ [] := by
    intro he
    rw [he] at h3l
    cases h3l
  refine ⟨h3l, hne, ?_⟩
  intro env he t
  obtain ⟨b, t', hc⟩ := CalculateBufferFromSamples_isSome env t l hne (hs env he)
  rw [hc]
  rfl

theorem SampleAutoBuffer_sample_count_witness :
    ∃ (s' : State) (new : List Event),
      runSampleAutoBuffer {} [sampling_env, sampling_env, sampling_env, sampling_env] =
        some s' ∧
      s'.m_auto_buffer_samples.length ≤ 2 ∧
      s'.trace = [] ++ new ∧
      (∀ l, Event.enter_CalculateBufferFromSamples l ∈ new →
        l.length = m_auto_buffer_sample_amount ∧ l ≠ [] ∧
        ∀ env ∈ [sampling_env, sampling_env, sampling_env, sampling_env], ∀ t : State,
          (CalculateBufferFromSamples env t l).isSome = true) :=
  SampleAutoBuffer_sample_count [sampling_env, sampling_env, sampling_env, sampling_env] {}
    (by decide)
    (by intro env h; simp only [List.mem_cons, List.mem_singleton, List.not_mem_nil,
          or_false, or_self] at h
        subst h; rfl)

/-- C22. `GameStatusChanged(running)` sends `RequestStopGame`, once, exactly when `running`
is false and `m_got_stop_request` is false (a client being at hand then), and in every case
queues the body that sets the options. The flag is true in a new dialog and after every
`StopGame`, false after `BootGame`; so whatever sequence of `GameStatusChanged` and
`StopGame` calls follows the construction of the dialog or a `StopGame`, nothing is sent. -/
theorem GameStatusChanged_sends_iff (env : Env) (s : State) (running : Bool)
    (filename : String) (calls : List StopCall) (hcs : ∀ c ∈ calls, c.hasClient = true) :
    (env.GetNetPlayClient.isSome = true ∨ ¬(running = false ∧ s.m_got_stop_request = false) →
      ∃ new : List Event,
        GameStatusChanged env s running =
          some ((s.emitAll new).enqueue (Queued.GameStatusChanged running)) ∧
        new = (if running = false ∧ s.m_got_stop_request = false then [Event.RequestStopGame]
          else [])) ∧
    ({} : State).m_got_stop_request = true ∧
    (StopGame s).m_got_stop_request = true ∧
    (BootGame s filename).m_got_stop_request = false ∧
    (∃ (s' : State) (new : List Event), runStopCalls {} calls = some s' ∧
      s'.trace = new ∧ new.countP Event.isRequestStopGame = 0) ∧
    (∃ (s' : State) (new : List Event), runStopCalls (StopGame s) calls = some s' ∧
      s'.trace = (StopGame s).trace ++ new ∧ new.countP Event.isRequestStopGame = 0) := by
  refine ⟨?_, rfl, ?_, rfl, ?_, ?_⟩
  · intro hc
    by_cases h : running = false ∧ s.m_got_stop_request = false
    · cases hcv : env.GetNetPlayClient with
      | none =>
        rcases hc with hc | hc
        · simp [hcv] at hc
        · exact absurd h hc
      | some client =>
        refine ⟨_, ?_, rfl⟩
        simp only [GameStatusChanged, if_pos h, hcv, Option.map_some', emit_eq_emitAll]
    · refine ⟨_, ?_, rfl⟩
      simp only [GameStatusChanged, if_neg h, Option.map_some', emitAll_nil]
  · unfold StopGame
    split
    · assumption
    · rfl
  · obtain ⟨s', new, h1, h2, h3⟩ := runStopCalls_after_stop calls {} hcs rfl
    exact ⟨s', new, h1, by simpa using h2, h3⟩
  · have hflag : (StopGame s).m_got_stop_request = true := by
      unfold StopGame
      split
      · assumption
      · rfl
    exact runStopCalls_after_stop calls (StopGame s) hcs hflag

theorem GameStatusChanged_sends_iff_witness :
    ∃ new : List Event,
      GameStatusChanged host_env (BootGame {} "game.iso") false =
        some (((BootGame {} "game.iso").emitAll new).enqueue (Queued.GameStatusChanged false)) ∧
      new = (if false = false ∧ (BootGame {} "game.iso").m_got_stop_request = false then
        [Event.RequestStopGame] else []) :=
  (GameStatusChanged_sends_iff host_env (BootGame {} "game.iso") false "game.iso"
    [StopCall.StopGame]
    (by intro c h; simp only [List.mem_singleton] at h; subst h; rfl)).1 (Or.inl rfl)

/-- C23. `StopGame` is idempotent: a second call leaves the state as the first left it. After
`BootGame`, in every sequence of `StopGame` and `GameStatusChanged` calls the signal `Stop` is
emitted exactly once if the sequence contains a `StopGame` and not at all otherwise; and
whatever came before, `BootGame` clears the flag, so the `StopGame` that follows it emits
`Stop` again. -/
theorem StopGame_idempotent (s : State) (filename : String) (calls : List StopCall)
    (hcs : ∀ c ∈ calls, c.hasClient = true) :
    StopGame (StopGame s) = StopGame s ∧
    (∃ (s' : State) (new : List Event),
      runStopCalls (BootGame s filename) calls = some s' ∧
      s'.trace = (BootGame s filename).trace ++ new ∧
      new.countP Event.isStop = (if calls.any StopCall.isStopGame = true then 1 else 0)) ∧
    (StopGame (BootGame s filename)).trace = s.trace ++ [Event.Boot filename, Event.Stop] ∧
    (StopGame (BootGame (StopGame s) filename)).trace =
      (StopGame s).trace ++ [Event.Boot filename, Event.Stop] := by
  refine ⟨?_, ?_, ?_, ?_⟩
  · by_cases h : s.m_got_stop_request = true
    · simp only [StopGame, h, if_true]
    · have h' : s.m_got_stop_request = false := by simpa using h
      simp [StopGame, h', State.emit]
  · obtain ⟨s', new, h1, h2, h3, _⟩ :=
      runStopCalls_stop_before calls (BootGame s filename) hcs rfl
    exact ⟨s', new, h1, h2, h3⟩
  · simp [StopGame, BootGame, State.emit]
  · simp [StopGame, BootGame, State.emit]

theorem StopGame_idempotent_witness :
    ∃ (s' : State) (new : List Event),
      runStopCalls (BootGame {} "game.iso")
        [StopCall.StopGame, StopCall.GameStatusChanged host_env false, StopCall.StopGame,
         StopCall.StopGame] = some s' ∧
      s'.trace = (BootGame {} "game.iso").trace ++ new ∧
      new.countP Event.isStop = 1 :=
  (StopGame_idempotent {} "game.iso"
    [StopCall.StopGame, StopCall.GameStatusChanged host_env false, StopCall.StopGame,
     StopCall.StopGame]
    (by intro c h; simp only [List.mem_cons, List.mem_singleton, List.not_mem_nil, or_false] at h
        rcases h with h | h | h | h <;> subst h <;> rfl)).2.1

/-- C24. After `OnMinimumPadBufferChanged`, `OnLocalPadBufferChanged` and
`OnHostInputAuthorityChanged` have returned, the local-under-minimum warning is not hidden
exactly when the stored local buffer size is below the stored minimum buffer size and host
input authority is off; the stored values are those after the handler's own update
(`buffer` converted to `int`, respectively `enabled`), the other two being left as they
were. -/
theorem under_minimum_warning_visible_iff (env : Env) (s : State) (buffer : Nat)
    (enabled : Bool) :
    ((OnMinimumPadBufferChanged env s buffer).m_minimum_buffer_size = wrapInt buffer ∧
      (OnMinimumPadBufferChanged env s buffer).m_local_buffer_size = s.m_local_buffer_size ∧
      (OnMinimumPadBufferChanged env s buffer).m_host_input_authority =
        s.m_host_input_authority ∧
      ((OnMinimumPadBufferChanged env s buffer).m_local_under_minimum_warning.hidden = false ↔
        (OnMinimumPadBufferChanged env s buffer).m_local_buffer_size <
          (OnMinimumPadBufferChanged env s buffer).m_minimum_buffer_size ∧
        (OnMinimumPadBufferChanged env s buffer).m_host_input_authority = false)) ∧
    ((OnLocalPadBufferChanged env s buffer).m_local_buffer_size = wrapInt buffer ∧
      (OnLocalPadBufferChanged env s buffer).m_minimum_buffer_size = s.m_minimum_buffer_size ∧
      (OnLocalPadBufferChanged env s buffer).m_host_input_authority =
        s.m_host_input_authority ∧
      ((OnLocalPadBufferChanged env s buffer).m_local_under_minimum_warning.hidden = false ↔
        (OnLocalPadBufferChanged env s buffer).m_local_buffer_size <
          (OnLocalPadBufferChanged env s buffer).m_minimum_buffer_size ∧
        (OnLocalPadBufferChanged env s buffer).m_host_input_authority = false)) ∧
    ((OnHostInputAuthorityChanged env s enabled).m_host_input_authority = enabled ∧
      (OnHostInputAuthorityChanged env s enabled).m_local_buffer_size = s.m_local_buffer_size ∧
      (OnHostInputAuthorityChanged env s enabled).m_minimum_buffer_size =
        s.m_minimum_buffer_size ∧
      ((OnHostInputAuthorityChanged env s enabled).m_local_under_minimum_warning.hidden = false ↔
        (OnHostInputAuthorityChanged env s enabled).m_local_buffer_size <
          (OnHostInputAuthorityChanged env s enabled).m_minimum_buffer_size ∧
        (OnHostInputAuthorityChanged env s enabled).m_host_input_authority = false)) := by
  have keep : ∀ t : State,
      (update_under_minimum_warning t).m_local_buffer_size = t.m_local_buffer_size ∧
      (update_under_minimum_warning t).m_minimum_buffer_size = t.m_minimum_buffer_size ∧
      (update_under_minimum_warning t).m_host_input_authority = t.m_host_input_authority :=
    fun _ => ⟨rfl, rfl, rfl⟩
  refine ⟨?_, ?_, ?_⟩
  · obtain ⟨t, e, h1, h2, h3⟩ := OnMinimumPadBufferChanged_eq env s buffer
    rw [e, (keep t).1, (keep t).2.1, (keep t).2.2]
    exact ⟨h1, h2, h3, update_under_minimum_warning_visible t⟩
  · obtain ⟨t, e, h1, h2, h3⟩ := OnLocalPadBufferChanged_eq env s buffer
    rw [e, (keep t).1, (keep t).2.1, (keep t).2.2]
    exact ⟨h1, h2, h3, update_under_minimum_warning_visible t⟩
  · obtain ⟨t, e, h1, h2, h3⟩ := OnHostInputAuthorityChanged_eq env s enabled
    have hf := update_buffer_granularity_frame env (update_under_minimum_warning t)
    have hz := update_buffer_granularity_sizes env (update_under_minimum_warning t)
    rw [e, hf.1, hz.1, hz.2.1, hz.2.2, (keep t).1, (keep t).2.1, (keep t).2.2]
    exact ⟨h1, h2, h3, update_under_minimum_warning_visible t⟩

theorem OnStart_settings_sent (env : Env) (s s' : State) (h : OnStart env s = some s') :
    ∃ new : List Event, s'.trace = s.trace ++ new ∧
      ∀ settings, Event.SetNetSettings settings ∈ new →
        ∃ (server : NetPlayServer) (get : ConfigInfo → ConfigValue) (t : State),
          env.GetNetPlayServer = some server ∧ settings = OnStart_settings get t server := by
  unfold OnStart at h
  cases hc : env.GetNetPlayClient with
  | none => simp [hc] at h
  | some client =>
    cases hd : client.DoAllPlayersHaveGame <;> cases hq : env.question_answer <;>
    cases hst : s.m_strict_settings_sync_box.checked <;>
    by_cases he : env.Config_Get [] ConfigInfo.GFX_EFB_SCALE = 0 <;>
    cases hg : FindGameFile env s.m_current_game <;>
    cases hsv : env.GetNetPlayServer <;>
    simp only [hc, hd, hq, hst, he, hg, hsv, State.emit, and_self, and_true, and_false,
      true_and, false_and, if_true, if_false, reduceCtorEq, Bool.false_eq_true,
      List.append_assoc] at h <;>
    first
      | (cases h; done)
      | (cases h; exact ⟨_, rfl, by simp⟩)
      | (cases h
         rename_i game server
         rw [OnStart_send_trace]
         try simp only [List.append_assoc]
         refine ⟨_, rfl, ?_⟩
         intro settings hmem
         cases hr : server.RequestStartGame <;>
         simp only [hr, List.mem_append, List.mem_cons, List.mem_map, List.mem_singleton,
           List.not_mem_nil, reduceCtorEq, false_or, or_false, and_false, exists_false,
           if_true, if_false, Bool.false_eq_true, Event.SetNetSettings.injEq,
           List.cons_append, List.nil_append] at hmem <;>
         exact ⟨server, _, _, rfl, hmem⟩)

/-- C25, in the code: the retry flag survives everything `show` and `UpdateGUI` do outside
traversal mode. When the dialog, with `m_is_copy_button_retry` left true by an earlier
traversal failure, is shown for hosting without traversal (server with at least one
interface, client at hand), `show` returns with `m_use_traversal` false and the dialog
visible, the button visible, enabled and labelled "Copy", and the first room entry current,
and the click handler then calls `ReconnectToServer` (dereferencing the traversal client)
instead of copying the label. -/
theorem hostcode_button_reconnects_without_traversal (env : Env) (s : State)
    (nickname : String) (server : NetPlayServer)
    (hs : env.GetNetPlayServer = some server) (hc : env.GetNetPlayClient.isSome = true)
    (hi : server.GetInterfaceSet ≠ []) (hflag : s.m_is_copy_button_retry = true) :
    ∃ s', show_ env s nickname false = some s' ∧
      s'.m_use_traversal = false ∧ s'.isVisible = true ∧
      s'.m_hostcode_action_button.text = "Copy" ∧
      s'.m_hostcode_action_button.enabled = true ∧
      s'.m_hostcode_action_button.hidden = false ∧
      s'.m_room_box.currentIndex = 0 ∧
      s'.m_is_copy_button_retry = true ∧
      hostcode_action_button_clicked env s' =
        env.g_TraversalClient.map (fun _ => s'.emit Event.ReconnectToServer) := by
  have hsv : env.GetNetPlayServer.isSome = true := by rw [hs]; rfl
  obtain ⟨s1, a0, a1, a2, a3, _⟩ := set_room_box_direct env
    { s with m_nickname := nickname, m_use_traversal := false, m_old_player_count := 0 }
    (QComboBox.clear s.m_room_box) rfl
  obtain ⟨s2, b0, b1, b2, _, _, b5⟩ := show_interfaces_direct env server.GetInterfaceSet
    ((s1.emit Event.m_chat_edit_clear).emit Event.m_chat_type_edit_clear) a1
  have hidx : s2.m_room_box.currentIndex = 0 :=
    b5 (by show s1.m_room_box.items = []; rw [a2]; rfl) hi
  obtain ⟨c1, c2, c3, c4⟩ := show_widgets_keeps env s2
  obtain ⟨s3, d0, d1, d2, d3, d4, d5, d6⟩ := UpdateGUI_direct env
    { (show_widgets env s2).emit Event.QDialog_show with isVisible := true }
    (by show (show_widgets env s2).m_use_traversal = false; rw [c1, b1])
  obtain ⟨d7, d8⟩ := d6 hc hsv
  have e2 : s3.m_room_box.currentIndex = 0 := by
    rw [d2]
    show (show_widgets env s2).m_room_box.currentIndex = 0
    rw [c3, hidx]
  have e3 : s3.m_is_copy_button_retry = true := by
    rw [d3]
    show (show_widgets env s2).m_is_copy_button_retry = true
    rw [c2, b2]
    show s1.m_is_copy_button_retry = true
    rw [a3]
    exact hflag
  have e5 : s3.m_hostcode_action_button.hidden = false := by
    rw [d5]
    show (show_widgets env s2).m_hostcode_action_button.hidden = false
    rw [c4, hsv]
    rfl
  refine ⟨s3, ?_, d1, d4, d7, d8, e5, e2, e3, ?_⟩
  · unfold show_
    simp only [a0, hs, Bool.false_eq_true, if_false, b0, d0]
  · unfold hostcode_action_button_clicked
    rw [if_pos ⟨e3, e2⟩]
    cases env.g_TraversalClient <;> rfl

theorem hostcode_button_reconnects_without_traversal_witness :
    ∃ s', show_ host_env ((show_ failed_traversal_env {} "host" true).getD {}) "host" false =
        some s' ∧
      s'.m_use_traversal = false ∧ s'.isVisible = true ∧
      s'.m_hostcode_action_button.text = "Copy" ∧
      s'.m_hostcode_action_button.enabled = true ∧
      s'.m_hostcode_action_button.hidden = false ∧
      s'.m_room_box.currentIndex = 0 ∧
      s'.m_is_copy_button_retry = true ∧
      hostcode_action_button_clicked host_env s' =
        host_env.g_TraversalClient.map (fun _ => s'.emit Event.ReconnectToServer) :=
  hostcode_button_reconnects_without_traversal host_env
    ((show_ failed_traversal_env {} "host" true).getD {}) "host" {} rfl rfl (by decide)
    (by decide!)

/-- C26. With client and server at hand `OnStart` returns, and every settings snapshot it
hands to the server has `m_LoadIPLDump` true only if all players have an IPL dump, and, when
some player lacks one, has `m_SkipIPL` true and `m_LoadIPLDump` false, whatever the
configuration says. When the start goes ahead (all players have the game or the caller
confirms, strict sync meets no automatic resolution, the game file is found), `OnStart` does
hand over one snapshot, followed by `RequestStartGame`; its `m_SkipIPL` is the configured
`MAIN_SKIP_IPL`, read under the title's layers, or-ed with "some player lacks an IPL dump", and
its `m_LoadIPLDump` is the configured `MAIN_LOAD_IPL_DUMP` and-ed with "all players have an IPL
dump". -/
theorem OnStart_ipl_settings (env : Env) (s : State) (server : NetPlayServer)
    (hc : env.GetNetPlayClient.isSome = true) (hs : env.GetNetPlayServer = some server) :
    ∃ (s' : State) (new : List Event), OnStart env s = some s' ∧ s'.trace = s.trace ++ new ∧
      (∀ settings, Event.SetNetSettings settings ∈ new →
        (settings.m_LoadIPLDump = true → server.DoAllPlayersHaveIPLDump = true) ∧
        (server.DoAllPlayersHaveIPLDump = false →
          settings.m_SkipIPL = true ∧ settings.m_LoadIPLDump = false)) ∧
      (∀ (client : NetPlayClient) (game : GameFile), env.GetNetPlayClient = some client →
        FindGameFile env s.m_current_game = some game → OnStart_preconditions env s client →
        ∃ settings : NetSettings,
          new.filter Event.isStartCall =
            [Event.SetNetSettings settings, Event.RequestStartGame] ∧
          settings.m_SkipIPL =
            ((env.Config_Get
                [⟨LayerType.GlobalGame, game.GetGameID, game.GetRevision, none⟩,
                 ⟨LayerType.LocalGame, game.GetGameID, game.GetRevision, none⟩]
                ConfigInfo.MAIN_SKIP_IPL).toBool || !server.DoAllPlayersHaveIPLDump) ∧
          settings.m_LoadIPLDump =
            ((env.Config_Get
                [⟨LayerType.GlobalGame, game.GetGameID, game.GetRevision, none⟩,
                 ⟨LayerType.LocalGame, game.GetGameID, game.GetRevision, none⟩]
                ConfigInfo.MAIN_LOAD_IPL_DUMP).toBool && server.DoAllPlayersHaveIPLDump) ∧
          (settings.m_LoadIPLDump = true → server.DoAllPlayersHaveIPLDump = true) ∧
          (server.DoAllPlayersHaveIPLDump = false →
            settings.m_SkipIPL = true ∧ settings.m_LoadIPLDump = false)) := by
  obtain ⟨s', h⟩ := OnStart_isSome env s hc (by rw [hs]; rfl)
  obtain ⟨new, h1, h2⟩ := OnStart_settings_sent env s s' h
  refine ⟨s', new, h, h1, ?_, ?_⟩
  · intro settings hmem
    obtain ⟨server', get, t, hsv, hset⟩ := h2 settings hmem
    rw [hs] at hsv
    cases hsv
    refine ⟨?_, ?_⟩
    · intro hl
      rw [hset] at hl
      simp only [OnStart_settings, Bool.and_eq_true] at hl
      exact hl.2
    · intro hd
      rw [hset]
      simp only [OnStart_settings, hd, Bool.not_false, Bool.or_true, Bool.and_false, and_self]
  · intro client game hcl hg hpre
    obtain ⟨pre, hp, _, hps⟩ := OnStart_proceeds env s client server game hcl hs hg hpre
    rw [hp] at h
    cases h
    have ht := OnStart_send_shape env s pre game server
    rw [h1] at ht
    have hn := List.append_cancel_left ht
    refine ⟨OnStart_settings (env.Config_Get
        [⟨LayerType.GlobalGame, game.GetGameID, game.GetRevision, none⟩,
         ⟨LayerType.LocalGame, game.GetGameID, game.GetRevision, none⟩]) s server, ?_, rfl, rfl,
      ?_, ?_⟩
    · rw [hn]
      simp only [List.filter_append, hps, (filter_isConfigGet_tail server _).2.2,
        List.nil_append]
      rfl
    · intro hl
      simp only [OnStart_settings, Bool.and_eq_true] at hl
      exact hl.2
    · intro hd
      simp only [OnStart_settings, hd, Bool.not_false, Bool.or_true, Bool.and_false, and_self]

theorem OnStart_ipl_settings_witness :
    ∃ (s' : State) (new : List Event) (settings : NetSettings),
      OnStart { host_env with GetNetPlayServer := some { DoAllPlayersHaveIPLDump := false } }
        { m_current_game := "GALE01" } = some s' ∧
      s'.trace = new ∧
      new.filter Event.isStartCall = [Event.SetNetSettings settings, Event.RequestStartGame] ∧
      settings.m_SkipIPL = true ∧ settings.m_LoadIPLDump = false := by
  obtain ⟨s', new, h, ht, _, hex⟩ := OnStart_ipl_settings
    { host_env with GetNetPlayServer := some { DoAllPlayersHaveIPLDump := false } }
    { m_current_game := "GALE01" } { DoAllPlayersHaveIPLDump := false } rfl rfl
  obtain ⟨settings, hf, _, _, _, hz⟩ := hex {} { GetGameID := "GALE01" } rfl rfl
    ⟨Or.inl rfl, by decide, rfl⟩
  exact ⟨s', new, settings, h, by rw [ht]; rfl, hf, (hz rfl).1, (hz rfl).2⟩

/-- C27. `SEARCH_ORDER` has 8 entries, no two of them equal; a layer type occurs in it
exactly when it is not `Meta`, and then once; `FMOverride` comes first, `Base` last, and
`LocalGame` before `GlobalGame`. -/
theorem SEARCH_ORDER_spec :
    SEARCH_ORDER.length = 8 ∧ SEARCH_ORDER.Nodup ∧
    (∀ t : LayerType, t ∈ SEARCH_ORDER ↔ t ≠ LayerType.Meta) ∧
    (∀ t : LayerType, SEARCH_ORDER.count t = if t = LayerType.Meta then 0 else 1) ∧
    SEARCH_ORDER.head? = some LayerType.FMOverride ∧
    SEARCH_ORDER.getLast? = some LayerType.Base ∧
    SEARCH_ORDER.indexOf LayerType.LocalGame < SEARCH_ORDER.indexOf LayerType.GlobalGame := by
  refine ⟨rfl, by decide, ?_, ?_, rfl, rfl, by decide⟩
  · intro t
    cases t <;> decide
  · intro t
    cases t <;> decide

end NetPlay
